import Mathlib

/-!
# XBMC RetroPlayer: input state table and libretro environment bridge

A shallow embedding of

* `xbmc/cores/RetroPlayer/RetroPlayerInput.cpp` (class `CRetroPlayerInput`),
* `lib/addons/library.xbmc.libretro/LibretroEnvironment.cpp`
  (class `CLibretroEnvironment`),
* `xbmc/games/GameClient.cpp` (class `CGameClient`), and
* `xbmc/games/GameManager.cpp` (class `CGameManager`),

followed by the properties established for them.

Conventions of the embedding.

* `unsigned int` values are natural numbers; where the source computes in
  unsigned arithmetic the reduction modulo `2 ^ 32` is written out (`toU32`).
* `int` values are integers; the narrowing cast to `int16_t` is `toInt16`.
* `float` amounts are rationals; a product computed in `float` is rounded to
  binary32 (`roundF32`, round to nearest, ties to even), the literal `0.01f` is
  the binary32 value `DEAD_ZONE`, and the conversion `(int) x` truncates toward
  zero and is defined only when the truncated value fits a 32-bit `int`.
* An access `m_joypadState[r][c]` outside the declared array is not given a
  meaning: the operation yields `Except.error (Fault.outOfBounds r c)`.
* Constants that come from headers (`Key.h`, `xbmc_game_types.h`,
  `RetroPlayerInput.h`) are fields of the parameter record `Consts`.
-/

namespace RetroPlayerInput

/-! ## Constants supplied by headers -/

/-- Header constants used by `RetroPlayerInput.cpp`.  `ports` is
`ARRAY_SIZE(m_joypadState)` and `width` is `ARRAY_SIZE(m_joypadState[0])`. -/
structure Consts where
  ports : Nat
  width : Nat
  ACTION_GAME_CONTROL_START : Nat
  ACTION_GAME_CONTROL_END : Nat
  ACTION_JOYPAD_B : Nat
  ACTION_JOYPAD_R3 : Nat
  ACTION_MOUSE_CONTROLLER_X : Nat
  ACTION_LIGHTGUN_X : Nat
  GAME_DEVICE_MASK : Nat
  GAME_DEVICE_JOYPAD : Nat
  GAME_DEVICE_MOUSE : Nat
  GAME_DEVICE_KEYBOARD : Nat
  GAME_DEVICE_LIGHTGUN : Nat
  GAME_DEVICE_ANALOG : Nat
  GAME_DEVICE_ID_MOUSE_RIGHT : Nat
  GAME_DEVICE_ID_LIGHTGUN_START : Nat
  GAME_DEVICE_ID_ANALOG_Y : Nat
  GAME_DEVICE_INDEX_ANALOG_RIGHT : Nat
deriving Repr, DecidableEq

/-- The layout of the headers: at least one port, the sixteen joypad actions
`ACTION_JOYPAD_B .. ACTION_JOYPAD_R3` inside the game-control interval, one
state cell per action of the interval, the joypad and analog device classes
invariant under the device mask, and the analog class distinct from the joypad,
mouse and lightgun classes. -/
def Consts.WF (K : Consts) : Prop :=
  0 < K.ports ∧ K.ports < 2 ^ 32 ∧
  K.ACTION_GAME_CONTROL_START ≤ K.ACTION_JOYPAD_B ∧
  K.ACTION_JOYPAD_R3 = K.ACTION_JOYPAD_B + 15 ∧
  K.ACTION_JOYPAD_R3 ≤ K.ACTION_GAME_CONTROL_END ∧
  K.ACTION_GAME_CONTROL_END < 2 ^ 31 ∧
  K.width = K.ACTION_GAME_CONTROL_END - K.ACTION_GAME_CONTROL_START + 1 ∧
  K.GAME_DEVICE_JOYPAD &&& K.GAME_DEVICE_MASK = K.GAME_DEVICE_JOYPAD ∧
  K.GAME_DEVICE_ANALOG &&& K.GAME_DEVICE_MASK = K.GAME_DEVICE_ANALOG ∧
  K.GAME_DEVICE_ANALOG ≠ K.GAME_DEVICE_JOYPAD ∧
  K.GAME_DEVICE_ANALOG ≠ K.GAME_DEVICE_MOUSE ∧
  K.GAME_DEVICE_ANALOG ≠ K.GAME_DEVICE_LIGHTGUN

instance (K : Consts) : Decidable K.WF := by
  unfold Consts.WF; infer_instance

/-- A concrete assignment of the header constants, used where a property is
evaluated: the device classes and ids have the values of the libretro ABI that
`xbmc_game_types.h` mirrors, there are eight ports, and the game-control
actions occupy `250 .. 280` (joypad `250 .. 265`, mouse `266 .. 269`, lightgun
`270 .. 276`, analog `277 .. 280`).  The general statements do not depend on
these values, only on `Consts.WF` and the hypotheses they name. -/
def sampleConsts : Consts where
  ports := 8
  width := 31
  ACTION_GAME_CONTROL_START := 250
  ACTION_GAME_CONTROL_END := 280
  ACTION_JOYPAD_B := 250
  ACTION_JOYPAD_R3 := 265
  ACTION_MOUSE_CONTROLLER_X := 266
  ACTION_LIGHTGUN_X := 270
  GAME_DEVICE_MASK := 0xff
  GAME_DEVICE_JOYPAD := 1
  GAME_DEVICE_MOUSE := 2
  GAME_DEVICE_KEYBOARD := 3
  GAME_DEVICE_LIGHTGUN := 4
  GAME_DEVICE_ANALOG := 5
  GAME_DEVICE_ID_MOUSE_RIGHT := 3
  GAME_DEVICE_ID_LIGHTGUN_START := 6
  GAME_DEVICE_ID_ANALOG_Y := 1
  GAME_DEVICE_INDEX_ANALOG_RIGHT := 1

/-- Macro `DIGITAL_AXIS_MASK`, "use decimal, easier to recover from the logs". -/
def DIGITAL_AXIS_MASK : Nat := 1000

/-- Macro `GAME_ANALOG_MIN`, i.e. `-0x8000`. -/
def GAME_ANALOG_MIN : Int := -0x8000

/-- Macro `GAME_ANALOG_MAX`, i.e. `0x7fff`. -/
def GAME_ANALOG_MAX : Int := 0x7fff

/-! ## Machine arithmetic -/

/-- Conversion of an `int` to `unsigned int`. -/
def toU32 (x : Int) : Nat := (x % 2 ^ 32).toNat

/-- Narrowing cast `(int16_t) x`. -/
def toInt16 (x : Int) : Int := (x + 2 ^ 15) % 2 ^ 16 - 2 ^ 15

/-- Truncation of a rational toward zero. -/
def truncQ (q : ℚ) : Int := if 0 ≤ q then ⌊q⌋ else ⌈q⌉

/-- The cast `(int) x` of a floating value: truncation toward zero, defined
only when the result is representable in a 32-bit `int`. -/
def floatToInt (q : ℚ) : Option Int :=
  let t := truncQ q
  if -2 ^ 31 ≤ t ∧ t < 2 ^ 31 then some t else none

/-- Rounding of a rational to the nearest integer, ties to the even one. -/
def roundNearestEven (q : ℚ) : Int :=
  let f := ⌊q⌋
  if q - f < 1 / 2 then f
  else if 1 / 2 < q - f then f + 1
  else if f % 2 = 0 then f else f + 1

/-- The result of an arithmetic operation in `float`: the exact value rounded
to binary32, i.e. to the nearest multiple of `2 ^ (e - 23)` where
`2 ^ e ≤ |q| < 2 ^ (e + 1)`, ties to the even multiple.  The exponent range is
not bounded here: the values rounded in this file have magnitude above 327, and
a value beyond the largest binary32 number, which is infinite in the code, stays
above `2 ^ 31`, where the conversion `(int) x` is undefined either way. -/
def roundF32 (q : ℚ) : ℚ :=
  if q = 0 then 0
  else
    let ulp : ℚ := 2 ^ (Int.log 2 |q| - 23)
    roundNearestEven (q / ulp) * ulp

/-- The literal `0.01f`: the binary32 value nearest to 1/100, which is
`10737418 / 2 ^ 30`. -/
def DEAD_ZONE : ℚ := 5368709 / 536870912

/-! ## `DeviceItem` and the identity lookup table -/

/-- Struct `CRetroPlayerInput::DeviceItem`, in the field order used by the aggregate
initialisers of the source (`{controllerID, key, buttonID, hatID, hatDir,
axisID}`); omitted trailing fields are zero. -/
structure DeviceItem where
  controllerID : Nat
  key : Nat := 0
  buttonID : Nat := 0
  hatID : Nat := 0
  hatDir : Nat := 0
  axisID : Nat := 0
deriving Repr, DecidableEq

/-- The comparison `operator <` on `DeviceItem`. -/
def DeviceItem.lt (lhs rhs : DeviceItem) : Bool :=
  if lhs.controllerID ≠ rhs.controllerID then decide (lhs.controllerID < rhs.controllerID)
  else if lhs.key ≠ rhs.key then decide (lhs.key < rhs.key)
  else if lhs.buttonID ≠ rhs.buttonID then decide (lhs.buttonID < rhs.buttonID)
  else if lhs.hatID ≠ rhs.hatID then decide (lhs.hatID < rhs.hatID)
  else if lhs.hatDir ≠ rhs.hatDir then decide (lhs.hatDir < rhs.hatDir)
  else false

/-- Key equivalence of `std::map`: neither key is less than the other. -/
def DeviceItem.equiv (a b : DeviceItem) : Bool := !a.lt b && !b.lt a

/-- The contents of `std::map<DeviceItem, int>`, as an association list;
lookups go by key equivalence under `operator <`. -/
abbrev DeviceMap := List (DeviceItem × Int)

/-- Lookup `m.find(item)`: the mapped value of the entry equivalent to `item`. -/
def mapFind : DeviceMap → DeviceItem → Option Int
  | [], _ => none
  | (k, v) :: m, item => if k.equiv item then some v else mapFind m item

/-- Assignment `m[item] = id`: overwrite the mapped value of the equivalent entry, or
insert a new entry. -/
def mapAssign : DeviceMap → DeviceItem → Int → DeviceMap
  | [], item, id => [(item, id)]
  | (k, v) :: m, item, id =>
    if k.equiv item then (k, id) :: m else (k, v) :: mapAssign m item id

/-- Removal `m.erase(m.find(item))`. -/
def mapErase : DeviceMap → DeviceItem → DeviceMap
  | [], _ => []
  | (k, v) :: m, item => if k.equiv item then m else (k, v) :: mapErase m item

/-! ## The state table -/

/-- Faults of the embedding: an array access outside `m_joypadState`, or a
floating-to-integer conversion without a defined result. -/
inductive Fault where
  | outOfBounds (row : Nat) (col : Int)
  | undefinedConversion
deriving Repr, DecidableEq

/-- The members of `CRetroPlayerInput`. -/
structure CRetroPlayerInput where
  m_joypadState : Nat → Nat → Int
  m_deviceItems : DeviceMap

/-- Whether `m_joypadState[row][col]` lies inside the array. -/
def inTable (K : Consts) (row : Nat) (col : Int) : Prop :=
  row < K.ports ∧ 0 ≤ col ∧ col < K.width

instance (K : Consts) (row : Nat) (col : Int) : Decidable (inTable K row col) := by
  unfold inTable; infer_instance

/-- The read `m_joypadState[row][col]`. -/
def readCell (K : Consts) (s : CRetroPlayerInput) (row : Nat) (col : Int) : Except Fault Int :=
  if inTable K row col then .ok (s.m_joypadState row col.toNat)
  else .error (.outOfBounds row col)

/-- The assignment `m_joypadState[row][col] = v`. -/
def writeCell (K : Consts) (s : CRetroPlayerInput) (row : Nat) (col : Int) (v : Int) :
    Except Fault CRetroPlayerInput :=
  if inTable K row col then
    .ok { s with m_joypadState := fun r c =>
            if r = row ∧ c = col.toNat then v else s.m_joypadState r c }
  else .error (.outOfBounds row col)

/-- Embeds `CRetroPlayerInput::Reset`: `memset` of the state table; the lookup table
is not touched. -/
def Reset (s : CRetroPlayerInput) : CRetroPlayerInput :=
  { s with m_joypadState := fun _ _ => 0 }

/-- Embeds `CRetroPlayerInput::GetInput`. -/
def GetInput (K : Consts) (s : CRetroPlayerInput) (port device index id : Nat) :
    Except Fault Int :=
  if port < K.ports then
    let device := device &&& K.GAME_DEVICE_MASK
    if device = K.GAME_DEVICE_JOYPAD then
      if id ≤ K.ACTION_JOYPAD_R3 then
        let offset := toU32 ((K.ACTION_JOYPAD_B : Int) - K.ACTION_GAME_CONTROL_START)
        readCell K s port (((id + offset) % 2 ^ 32 : Nat) : Int)
      else .ok 0
    else if device = K.GAME_DEVICE_MOUSE then
      if id ≤ K.GAME_DEVICE_ID_MOUSE_RIGHT then
        let offset := toU32 ((K.ACTION_MOUSE_CONTROLLER_X : Int) - K.ACTION_GAME_CONTROL_START)
        readCell K s port (((id + offset) % 2 ^ 32 : Nat) : Int)
      else .ok 0
    else if device = K.GAME_DEVICE_LIGHTGUN then
      if id ≤ K.GAME_DEVICE_ID_LIGHTGUN_START then
        let offset := toU32 ((K.ACTION_LIGHTGUN_X : Int) - K.ACTION_GAME_CONTROL_START)
        readCell K s port (((id + offset) % 2 ^ 32 : Nat) : Int)
      else .ok 0
    else if device = K.GAME_DEVICE_ANALOG then
      if id ≤ K.GAME_DEVICE_ID_ANALOG_Y ∧ index ≤ K.GAME_DEVICE_INDEX_ANALOG_RIGHT then
        let offset := toU32 ((K.GAME_DEVICE_ID_ANALOG_Y : Int) - K.ACTION_GAME_CONTROL_START)
        let offset := if index = K.GAME_DEVICE_INDEX_ANALOG_RIGHT then (offset + 2) % 2 ^ 32
                      else offset
        readCell K s port (((id + offset) % 2 ^ 32 : Nat) : Int)
      else .ok 0
    else .ok 0
  else .ok 0

/-- The macro `TRANSLATE_INTERVAL(x, low, high)`. -/
def TRANSLATE_INTERVAL (x low high : Int) : Int :=
  if low ≤ x ∧ x ≤ high then x - low else -1

/-- Embeds `CRetroPlayerInput::TranslateActionID`; the local `m_device` is the
constant `GAME_DEVICE_JOYPAD`, so the first group of case labels is taken. -/
def TranslateActionID (K : Consts) (id : Int) : Int :=
  TRANSLATE_INTERVAL id K.ACTION_GAME_CONTROL_START K.ACTION_GAME_CONTROL_END

/-- The part of `CAction` that the input code reads: `GetID()` and
`GetAmount(1)`. -/
structure CAction where
  id : Int
  amount : ℚ := 0

/-- The body shared by the three `Process*Down` functions: translate the
action, record the item and set the cell to 1. -/
def processDown (K : Consts) (s : CRetroPlayerInput) (controllerID : Nat) (item : DeviceItem)
    (action : CAction) : Except Fault CRetroPlayerInput :=
  let id := TranslateActionID K action.id
  if 0 ≤ id ∧ id < (K.width : Int) then
    writeCell K { s with m_deviceItems := mapAssign s.m_deviceItems item id } controllerID id 1
  else .ok s

/-- The body shared by the three `Process*Up` functions: look the item up,
clear the cell it recorded and erase the entry. -/
def processUp (K : Consts) (s : CRetroPlayerInput) (controllerID : Nat) (item : DeviceItem) :
    Except Fault CRetroPlayerInput :=
  match mapFind s.m_deviceItems item with
  | some id =>
    (writeCell K s controllerID id 0).map
      fun s1 => { s1 with m_deviceItems := mapErase s1.m_deviceItems item }
  | none => .ok s

/-- Embeds `CRetroPlayerInput::ProcessKeyDown`. -/
def ProcessKeyDown (K : Consts) (s : CRetroPlayerInput) (controllerID key : Nat)
    (action : CAction) : Except Fault CRetroPlayerInput :=
  processDown K s controllerID { controllerID := controllerID, key := key } action

/-- Embeds `CRetroPlayerInput::ProcessKeyUp`. -/
def ProcessKeyUp (K : Consts) (s : CRetroPlayerInput) (controllerID key : Nat) :
    Except Fault CRetroPlayerInput :=
  processUp K s controllerID { controllerID := controllerID, key := key }

/-- Embeds `CRetroPlayerInput::ProcessButtonDown`. -/
def ProcessButtonDown (K : Consts) (s : CRetroPlayerInput) (controllerID buttonID : Nat)
    (action : CAction) : Except Fault CRetroPlayerInput :=
  processDown K s controllerID { controllerID := controllerID, buttonID := buttonID } action

/-- Embeds `CRetroPlayerInput::ProcessButtonUp`. -/
def ProcessButtonUp (K : Consts) (s : CRetroPlayerInput) (controllerID buttonID : Nat) :
    Except Fault CRetroPlayerInput :=
  processUp K s controllerID { controllerID := controllerID, buttonID := buttonID }

/-- Embeds `CRetroPlayerInput::ProcessDigitalAxisDown`: the button path with
`controllerID + DIGITAL_AXIS_MASK` (unsigned addition). -/
def ProcessDigitalAxisDown (K : Consts) (s : CRetroPlayerInput) (controllerID buttonID : Nat)
    (action : CAction) : Except Fault CRetroPlayerInput :=
  ProcessButtonDown K s ((controllerID + DIGITAL_AXIS_MASK) % 2 ^ 32) buttonID action

/-- Embeds `CRetroPlayerInput::ProcessDigitalAxisUp`. -/
def ProcessDigitalAxisUp (K : Consts) (s : CRetroPlayerInput) (controllerID buttonID : Nat) :
    Except Fault CRetroPlayerInput :=
  ProcessButtonUp K s ((controllerID + DIGITAL_AXIS_MASK) % 2 ^ 32) buttonID

/-- Embeds `CRetroPlayerInput::ProcessHatDown`. -/
def ProcessHatDown (K : Consts) (s : CRetroPlayerInput) (controllerID hatID hatDir : Nat)
    (action : CAction) : Except Fault CRetroPlayerInput :=
  processDown K s controllerID
    { controllerID := controllerID, hatID := hatID, hatDir := hatDir } action

/-- Embeds `CRetroPlayerInput::ProcessHatUp`. -/
def ProcessHatUp (K : Consts) (s : CRetroPlayerInput) (controllerID hatID hatDir : Nat) :
    Except Fault CRetroPlayerInput :=
  processUp K s controllerID { controllerID := controllerID, hatID := hatID, hatDir := hatDir }

/-- The first half of `ProcessAnalogAxis`: the `int16_t value` computed from
`action.GetAmount(1)`, a `float`.  The integer macro is converted to `float`
without loss and the product is a `float`, so it is rounded to binary32 before
the cast `(int)`.  The macro `GAME_ANALOG_MIN * -x` expands to
`-0x8000 * -x`. -/
def analogValue (amount : ℚ) : Option Int :=
  if |amount| ≤ DEAD_ZONE then some 0
  else if amount > 0 then
    (floatToInt (roundF32 (GAME_ANALOG_MAX * amount))).map fun value2 =>
      toInt16 (if value2 > GAME_ANALOG_MAX then GAME_ANALOG_MAX else value2)
  else
    (floatToInt (roundF32 (GAME_ANALOG_MIN * -amount))).map fun value2 =>
      toInt16 (if value2 < GAME_ANALOG_MIN then GAME_ANALOG_MIN else value2)

/-- Embeds `CRetroPlayerInput::ProcessAnalogAxis`. -/
def ProcessAnalogAxis (K : Consts) (s : CRetroPlayerInput) (controllerID axisID : Nat)
    (action : CAction) : Except Fault CRetroPlayerInput :=
  match analogValue action.amount with
  | none => .error .undefinedConversion
  | some value =>
    let item : DeviceItem := { controllerID := controllerID, axisID := axisID % 256 }
    if value ≠ 0 then
      let id := TranslateActionID K action.id
      if 0 ≤ id ∧ id < (K.width : Int) then
        writeCell K { s with m_deviceItems := mapAssign s.m_deviceItems item id }
          controllerID id value
      else .ok s
    else
      processUp K s controllerID item

/-! ## Event sequences -/

/-- The input events delivered to `CRetroPlayerInput`, one constructor per
`Process*` member function. -/
inductive Event where
  | keyDown (controllerID key : Nat) (action : CAction)
  | keyUp (controllerID key : Nat)
  | buttonDown (controllerID buttonID : Nat) (action : CAction)
  | buttonUp (controllerID buttonID : Nat)
  | digitalAxisDown (controllerID buttonID : Nat) (action : CAction)
  | digitalAxisUp (controllerID buttonID : Nat)
  | hatDown (controllerID hatID hatDir : Nat) (action : CAction)
  | hatUp (controllerID hatID hatDir : Nat)
  | analogAxis (controllerID axisID : Nat) (action : CAction)

/-- Delivery of one event. -/
def step (K : Consts) (s : CRetroPlayerInput) : Event → Except Fault CRetroPlayerInput
  | .keyDown c k a => ProcessKeyDown K s c k a
  | .keyUp c k => ProcessKeyUp K s c k
  | .buttonDown c b a => ProcessButtonDown K s c b a
  | .buttonUp c b => ProcessButtonUp K s c b
  | .digitalAxisDown c b a => ProcessDigitalAxisDown K s c b a
  | .digitalAxisUp c b => ProcessDigitalAxisUp K s c b
  | .hatDown c h d a => ProcessHatDown K s c h d a
  | .hatUp c h d => ProcessHatUp K s c h d
  | .analogAxis c x a => ProcessAnalogAxis K s c x a

/-- Delivery of a sequence of events, stopping at the first fault. -/
def run (K : Consts) : CRetroPlayerInput → List Event → Except Fault CRetroPlayerInput
  | s, [] => .ok s
  | s, e :: es =>
    match step K s e with
    | .ok s1 => run K s1 es
    | .error f => .error f

/-- The `DeviceItem` under which an event is recorded or looked up. -/
def Event.item : Event → DeviceItem
  | .keyDown c k _ => { controllerID := c, key := k }
  | .keyUp c k => { controllerID := c, key := k }
  | .buttonDown c b _ => { controllerID := c, buttonID := b }
  | .buttonUp c b => { controllerID := c, buttonID := b }
  | .digitalAxisDown c b _ => { controllerID := (c + DIGITAL_AXIS_MASK) % 2 ^ 32, buttonID := b }
  | .digitalAxisUp c b => { controllerID := (c + DIGITAL_AXIS_MASK) % 2 ^ 32, buttonID := b }
  | .hatDown c h d _ => { controllerID := c, hatID := h, hatDir := d }
  | .hatUp c h d => { controllerID := c, hatID := h, hatDir := d }
  | .analogAxis c x _ => { controllerID := c, axisID := x % 256 }

/-- The cell a `Process*Down` body assigns, if any. -/
def downTarget (K : Consts) (controllerID : Nat) (action : CAction) : Option (Nat × Int) :=
  let id := TranslateActionID K action.id
  if 0 ≤ id ∧ id < (K.width : Int) then some (controllerID, id) else none

/-- The cell a `Process*Up` body assigns, if any. -/
def upTarget (s : CRetroPlayerInput) (controllerID : Nat) (item : DeviceItem) :
    Option (Nat × Int) :=
  (mapFind s.m_deviceItems item).map fun id => (controllerID, id)

/-- The cell of `m_joypadState` that the handler of an event assigns when run
in state `s`, if it assigns one. -/
def Event.target (K : Consts) (s : CRetroPlayerInput) : Event → Option (Nat × Int)
  | .keyDown c _ a => downTarget K c a
  | .keyUp c k => upTarget s c { controllerID := c, key := k }
  | .buttonDown c _ a => downTarget K c a
  | .buttonUp c b => upTarget s c { controllerID := c, buttonID := b }
  | .digitalAxisDown c _ a => downTarget K ((c + DIGITAL_AXIS_MASK) % 2 ^ 32) a
  | .digitalAxisUp c b =>
    upTarget s ((c + DIGITAL_AXIS_MASK) % 2 ^ 32)
      { controllerID := (c + DIGITAL_AXIS_MASK) % 2 ^ 32, buttonID := b }
  | .hatDown c _ _ a => downTarget K c a
  | .hatUp c h d => upTarget s c { controllerID := c, hatID := h, hatDir := d }
  | .analogAxis c x a =>
    match analogValue a.amount with
    | none => none
    | some value =>
      if value ≠ 0 then downTarget K c a
      else upTarget s c { controllerID := c, axisID := x % 256 }

/-- The cells assigned, in order, while a sequence of events is delivered. -/
def runTargets (K : Consts) : CRetroPlayerInput → List Event → List (Nat × Int)
  | _, [] => []
  | s, e :: es =>
    match step K s e with
    | .ok s1 => (e.target K s).toList ++ runTargets K s1 es
    | .error _ => (e.target K s).toList

/-- The value the specification prescribes for an analog amount: zero inside
the dead zone, otherwise the scaled amount truncated and clamped. -/
def analogSpec (a : ℚ) : Int :=
  if |a| ≤ 1 / 100 then 0
  else if a > 1 / 100 then min 32767 (truncQ (32767 * a))
  else max (-32768) (truncQ (32768 * a))

/-- A freshly reset input object: every cell zero and no recorded identity. -/
def initial : CRetroPlayerInput :=
  { m_joypadState := fun _ _ => 0, m_deviceItems := [] }

end RetroPlayerInput

namespace LibretroEnvironment

/-! ## Payload structures of `libretro.h` and their frontend counterparts

Function pointers are addresses (`0` is the null pointer); `const char*` values
that are only passed on are `Option String` (`none` is the null pointer). -/

/-- Struct `retro_message`. -/
structure retro_message where
  msg : Option String
  frames : Nat
deriving Repr, DecidableEq

/-- Struct `retro_input_descriptor`. -/
structure retro_input_descriptor where
  port : Nat
  device : Nat
  index : Nat
  id : Nat
  description : Option String
deriving Repr, DecidableEq

/-- Struct `game_input_descriptor`. -/
structure game_input_descriptor where
  port : Nat
  device : Nat
  index : Nat
  id : Nat
  description : Option String
deriving Repr, DecidableEq

/-- Struct `retro_keyboard_callback`. -/
structure retro_keyboard_callback where
  callback : Nat
deriving Repr, DecidableEq

/-- Struct `retro_disk_control_callback`. -/
structure retro_disk_control_callback where
  set_eject_state : Nat
  get_eject_state : Nat
  get_image_index : Nat
  set_image_index : Nat
  get_num_images : Nat
  replace_image_index : Nat
  add_image_index : Nat
deriving Repr, DecidableEq

/-- The fields of `retro_hw_render_callback` that the core fills in. -/
structure retro_hw_render_callback where
  context_type : Nat
  context_reset : Nat
  depth : Bool
  stencil : Bool
  bottom_left_origin : Bool
  version_major : Nat
  version_minor : Nat
  cache_context : Bool
  context_destroy : Nat
  debug_context : Bool
deriving Repr, DecidableEq

/-- Struct `game_hw_info`. -/
structure game_hw_info where
  context_type : Nat
  depth : Bool
  stencil : Bool
  bottom_left_origin : Bool
  version_major : Nat
  version_minor : Nat
  cache_context : Bool
  debug_context : Bool
deriving Repr, DecidableEq

/-- Struct `retro_variable`. -/
structure retro_variable where
  key : Option String
  value : Option String
deriving Repr, DecidableEq

/-- Struct `game_variable`. -/
structure game_variable where
  key : Option String
  value : Option String
deriving Repr, DecidableEq

/-- Struct `retro_audio_callback`. -/
structure retro_audio_callback where
  callback : Nat
  set_state : Nat
deriving Repr, DecidableEq

/-- Struct `retro_frame_time_callback`. -/
structure retro_frame_time_callback where
  callback : Nat
  reference : Int
deriving Repr, DecidableEq

/-- The fields of `retro_camera_callback` that the core fills in. -/
structure retro_camera_callback where
  caps : Nat
  width : Nat
  height : Nat
  frame_raw_framebuffer : Nat
  frame_opengl_texture : Nat
  initialized : Nat
  deinitialized : Nat
deriving Repr, DecidableEq

/-- Struct `game_camera_info`. -/
structure game_camera_info where
  caps : Nat
  width : Nat
  height : Nat
deriving Repr, DecidableEq

/-- Structs `retro_game_geometry` and `game_geometry`, which have the same fields. -/
structure geometry where
  base_width : Nat
  base_height : Nat
  max_width : Nat
  max_height : Nat
  aspect_ratio : ℚ
deriving DecidableEq

/-- Structs `retro_system_timing` and `game_system_timing`, which have the same fields. -/
structure timing where
  fps : ℚ
  sample_rate : ℚ
deriving DecidableEq

/-- Struct `retro_system_av_info`. -/
structure retro_system_av_info where
  geometry : geometry
  timing : timing
deriving DecidableEq

/-- Struct `game_system_av_info`. -/
structure game_system_av_info where
  geometry : geometry
  timing : timing
deriving DecidableEq

/-! ## The environment message -/

/-- The message tags handled by `EnvironmentCallback`, one per case label, and
`other` for every value of `cmd` without a case label. -/
inductive Cmd where
  | SET_ROTATION | GET_OVERSCAN | GET_CAN_DUPE | SET_MESSAGE | SHUTDOWN
  | SET_PERFORMANCE_LEVEL | GET_SYSTEM_DIRECTORY | SET_PIXEL_FORMAT
  | SET_INPUT_DESCRIPTORS | SET_KEYBOARD_CALLBACK | SET_DISK_CONTROL_INTERFACE
  | SET_HW_RENDER | GET_VARIABLE | SET_VARIABLES | GET_VARIABLE_UPDATE
  | SET_SUPPORT_NO_GAME | GET_LIBRETRO_PATH | SET_AUDIO_CALLBACK
  | SET_FRAME_TIME_CALLBACK | GET_RUMBLE_INTERFACE | GET_INPUT_DEVICE_CAPABILITIES
  | GET_SENSOR_INTERFACE | GET_CAMERA_INTERFACE | GET_LOG_INTERFACE
  | GET_PERF_INTERFACE | GET_LOCATION_INTERFACE | GET_CONTENT_DIRECTORY
  | GET_SAVE_DIRECTORY | SET_SYSTEM_AV_INFO
  | other (cmd : Nat)
deriving Repr, DecidableEq

/-- The arguments `(cmd, data)` of `EnvironmentCallback`: the tag together
with the payload as the case for that tag reads it.  A payload the callback
reads is `Option` of its value (`none` is the null pointer); a payload the
callback only writes through is a `Bool` telling whether the pointer is
non-null.  An array payload is the list of its entries in memory order; the
entry after the last listed one is taken to be the terminator. -/
inductive Message where
  | SET_ROTATION (data : Option Nat)
  | GET_OVERSCAN (data : Bool)
  | GET_CAN_DUPE (data : Bool)
  | SET_MESSAGE (data : Option retro_message)
  | SHUTDOWN (data : Bool)
  | SET_PERFORMANCE_LEVEL (data : Option Nat)
  | GET_SYSTEM_DIRECTORY (data : Bool)
  | SET_PIXEL_FORMAT (data : Option Nat)
  | SET_INPUT_DESCRIPTORS (data : Option (List retro_input_descriptor))
  | SET_KEYBOARD_CALLBACK (data : Option retro_keyboard_callback)
  | SET_DISK_CONTROL_INTERFACE (data : Option retro_disk_control_callback)
  | SET_HW_RENDER (data : Option retro_hw_render_callback)
  | GET_VARIABLE (data : Option retro_variable)
  | SET_VARIABLES (data : Option (List retro_variable))
  | GET_VARIABLE_UPDATE (data : Bool)
  | SET_SUPPORT_NO_GAME (data : Option Bool)
  | GET_LIBRETRO_PATH (data : Bool)
  | SET_AUDIO_CALLBACK (data : Option retro_audio_callback)
  | SET_FRAME_TIME_CALLBACK (data : Option retro_frame_time_callback)
  | GET_RUMBLE_INTERFACE (data : Bool)
  | GET_INPUT_DEVICE_CAPABILITIES (data : Bool)
  | GET_SENSOR_INTERFACE (data : Bool)
  | GET_CAMERA_INTERFACE (data : Option retro_camera_callback)
  | GET_LOG_INTERFACE (data : Bool)
  | GET_PERF_INTERFACE (data : Bool)
  | GET_LOCATION_INTERFACE (data : Bool)
  | GET_CONTENT_DIRECTORY (data : Bool)
  | GET_SAVE_DIRECTORY (data : Bool)
  | SET_SYSTEM_AV_INFO (data : Option retro_system_av_info)
  | other (cmd : Nat) (data : Bool)

/-- The tag of a message. -/
def Message.cmd : Message → Cmd
  | .SET_ROTATION _ => .SET_ROTATION
  | .GET_OVERSCAN _ => .GET_OVERSCAN
  | .GET_CAN_DUPE _ => .GET_CAN_DUPE
  | .SET_MESSAGE _ => .SET_MESSAGE
  | .SHUTDOWN _ => .SHUTDOWN
  | .SET_PERFORMANCE_LEVEL _ => .SET_PERFORMANCE_LEVEL
  | .GET_SYSTEM_DIRECTORY _ => .GET_SYSTEM_DIRECTORY
  | .SET_PIXEL_FORMAT _ => .SET_PIXEL_FORMAT
  | .SET_INPUT_DESCRIPTORS _ => .SET_INPUT_DESCRIPTORS
  | .SET_KEYBOARD_CALLBACK _ => .SET_KEYBOARD_CALLBACK
  | .SET_DISK_CONTROL_INTERFACE _ => .SET_DISK_CONTROL_INTERFACE
  | .SET_HW_RENDER _ => .SET_HW_RENDER
  | .GET_VARIABLE _ => .GET_VARIABLE
  | .SET_VARIABLES _ => .SET_VARIABLES
  | .GET_VARIABLE_UPDATE _ => .GET_VARIABLE_UPDATE
  | .SET_SUPPORT_NO_GAME _ => .SET_SUPPORT_NO_GAME
  | .GET_LIBRETRO_PATH _ => .GET_LIBRETRO_PATH
  | .SET_AUDIO_CALLBACK _ => .SET_AUDIO_CALLBACK
  | .SET_FRAME_TIME_CALLBACK _ => .SET_FRAME_TIME_CALLBACK
  | .GET_RUMBLE_INTERFACE _ => .GET_RUMBLE_INTERFACE
  | .GET_INPUT_DEVICE_CAPABILITIES _ => .GET_INPUT_DEVICE_CAPABILITIES
  | .GET_SENSOR_INTERFACE _ => .GET_SENSOR_INTERFACE
  | .GET_CAMERA_INTERFACE _ => .GET_CAMERA_INTERFACE
  | .GET_LOG_INTERFACE _ => .GET_LOG_INTERFACE
  | .GET_PERF_INTERFACE _ => .GET_PERF_INTERFACE
  | .GET_LOCATION_INTERFACE _ => .GET_LOCATION_INTERFACE
  | .GET_CONTENT_DIRECTORY _ => .GET_CONTENT_DIRECTORY
  | .GET_SAVE_DIRECTORY _ => .GET_SAVE_DIRECTORY
  | .SET_SYSTEM_AV_INFO _ => .SET_SYSTEM_AV_INFO
  | .other cmd _ => .other cmd

/-- Whether the payload pointer `data` of a message is null. -/
def Message.dataIsNull : Message → Bool
  | .SET_ROTATION d => d.isNone
  | .GET_OVERSCAN d => !d
  | .GET_CAN_DUPE d => !d
  | .SET_MESSAGE d => d.isNone
  | .SHUTDOWN d => !d
  | .SET_PERFORMANCE_LEVEL d => d.isNone
  | .GET_SYSTEM_DIRECTORY d => !d
  | .SET_PIXEL_FORMAT d => d.isNone
  | .SET_INPUT_DESCRIPTORS d => d.isNone
  | .SET_KEYBOARD_CALLBACK d => d.isNone
  | .SET_DISK_CONTROL_INTERFACE d => d.isNone
  | .SET_HW_RENDER d => d.isNone
  | .GET_VARIABLE d => d.isNone
  | .SET_VARIABLES d => d.isNone
  | .GET_VARIABLE_UPDATE d => !d
  | .SET_SUPPORT_NO_GAME d => d.isNone
  | .GET_LIBRETRO_PATH d => !d
  | .SET_AUDIO_CALLBACK d => d.isNone
  | .SET_FRAME_TIME_CALLBACK d => d.isNone
  | .GET_RUMBLE_INTERFACE d => !d
  | .GET_INPUT_DEVICE_CAPABILITIES d => !d
  | .GET_SENSOR_INTERFACE d => !d
  | .GET_CAMERA_INTERFACE d => d.isNone
  | .GET_LOG_INTERFACE d => !d
  | .GET_PERF_INTERFACE d => !d
  | .GET_LOCATION_INTERFACE d => !d
  | .GET_CONTENT_DIRECTORY d => !d
  | .GET_SAVE_DIRECTORY d => !d
  | .SET_SYSTEM_AV_INFO d => d.isNone
  | .other _ d => !d

/-- Whether the case for a tag reads or writes its payload; `SHUTDOWN` ignores
`data`, and so does the fall-through for a tag without a case label. -/
def Cmd.carriesPayload : Cmd → Bool
  | .SHUTDOWN => false
  | .other _ => false
  | _ => true

/-! ## Bridge state and its collaborators -/

/-- The members of `CClientBridge` that `EnvironmentCallback` assigns: the
callback table of the session. -/
structure CClientBridge where
  m_retro_keyboard_event : Nat := 0
  m_retro_disk_set_eject_state : Nat := 0
  m_retro_disk_get_eject_state : Nat := 0
  m_retro_disk_get_image_index : Nat := 0
  m_retro_disk_set_image_index : Nat := 0
  m_retro_disk_get_num_images : Nat := 0
  m_retro_disk_replace_image_index : Nat := 0
  m_retro_disk_add_image_index : Nat := 0
  m_retro_hw_context_reset : Nat := 0
  m_retro_hw_context_destroy : Nat := 0
  m_retro_audio_callback : Nat := 0
  m_retro_audio_set_state_callback : Nat := 0
  m_retro_frame_time_callback : Nat := 0
  m_retro_camera_frame_raw_buffer : Nat := 0
  m_retro_camera_frame_opengl_texture : Nat := 0
  m_retro_camera_initialized : Nat := 0
  m_retro_camera_deinitialized : Nat := 0
deriving Repr, DecidableEq

/-- The static members of `CLibretroEnvironment`.  `m_xbmc` and `m_frontend`
record whether the handle is non-null; `m_clientBridge` is `none` for a null
handle and otherwise holds the callback table it points to. -/
structure CLibretroEnvironment where
  m_xbmc : Bool := false
  m_frontend : Bool := false
  m_clientBridge : Option CClientBridge := none
  m_fps : ℚ := 0
  m_bFramerateKnown : Bool := false
deriving DecidableEq

/-- The answers of the frontend (`CHelper_libXBMC_game`) to the calls that
return a value.  Strings are the bytes before the terminating NUL. -/
structure Frontend where
  EnvironmentGetOverscan : Bool
  EnvironmentCanDupe : Bool
  EnvironmentGetSystemDirectory : Option (List Nat)
  EnvironmentSetPixelFormat : Nat → Bool
  EnvironmentGetVariableUpdate : Bool
  EnvironmentGetLibretroPath : Option (List Nat)
  InputGetDeviceCapabilities : Nat
  EnvironmentSetSystemAvInfo : game_system_av_info → Bool

/-- A call made by `EnvironmentCallback` through `m_frontend` or, for
`QueueNotification` and `FreeString`, through `m_xbmc`. -/
inductive Call where
  | EnvironmentSetRotation (rotation : Nat)
  | EnvironmentGetOverscan
  | EnvironmentCanDupe
  | QueueNotification (msg : Option String)
  | ShutdownFrontend
  | EnvironmentSetPerformanceLevel (level : Nat)
  | EnvironmentGetSystemDirectory
  | FreeString (str : List Nat)
  | EnvironmentSetPixelFormat (format : Nat)
  | EnvironmentSetInputDescriptors (descriptors : List game_input_descriptor) (count : Nat)
  | HwSetInfo (info : game_hw_info)
  | EnvironmentGetVariable (var : game_variable)
  | EnvironmentSetVariables (vars : List game_variable) (count : Nat)
  | EnvironmentGetVariableUpdate
  | EnvironmentSetSupportNoGame (supported : Bool)
  | EnvironmentGetLibretroPath
  | FrameTimeSetReference (reference : Int)
  | InputGetDeviceCapabilities
  | CameraSetInfo (info : game_camera_info)
  | EnvironmentSetSystemAvInfo (info : game_system_av_info)
deriving DecidableEq

/-- What `EnvironmentCallback` stores through the payload pointer.  For a
string query it is the pointer handed to the core: `none` for `NULL`, otherwise
the contents of the static buffer.  For the interface queries it names the
group of `CFrontendBridge` trampolines that was filled in. -/
inductive Written where
  | bool (b : Bool)
  | u64 (n : Nat)
  | string (buffer : Option (List Nat))
  | hwRenderTrampolines
  | rumbleTrampolines
  | sensorTrampolines
  | cameraTrampolines
  | logTrampolines
  | perfTrampolines
  | locationTrampolines
deriving Repr, DecidableEq

/-- The outcome of one `EnvironmentCallback` call. -/
structure Outcome where
  ret : Bool
  state : CLibretroEnvironment
  calls : List Call := []
  written : Option Written := none

/-- A call through the null `m_xbmc` handle, which the entry guard does not
test. -/
inductive EnvFault where
  | nullXbmc
deriving Repr, DecidableEq

/-- The `sizeof` of each static string buffer. -/
def BUFFER_SIZE : Nat := 8192

/-- The result of `memset(buffer, 0, n)` on the first `n` bytes of a buffer. -/
def memsetZero (n : Nat) : List Nat := List.replicate n 0

/-- The result of `strncpy(dst, src, n)`, where `src` holds the bytes of the source string:
the bytes before the first NUL are copied, at most `n` of them, and the rest of
the first `n` bytes of `dst` is filled with NUL. -/
def strncpy (dst src : List Nat) (n : Nat) : List Nat :=
  let str := src.takeWhile (fun b => decide (b ≠ 0))
  str.take n ++ List.replicate (n - str.length) 0 ++ dst.drop n

/-- The string a reader of `const char*` finds in a buffer: the bytes before
the first NUL; `none` when the buffer holds no NUL, so that the read runs past
its end. -/
def readCString (buffer : List Nat) : Option (List Nat) :=
  if 0 ∈ buffer then some (buffer.takeWhile (fun b => decide (b ≠ 0))) else none

/-- Embeds `CLibretroEnvironment::Initialize`, without the installation of the
callback in the client. -/
def Initialize (s : CLibretroEnvironment) (xbmc frontend : Bool)
    (clientBridge : Option CClientBridge) : CLibretroEnvironment :=
  { s with m_xbmc := xbmc, m_frontend := frontend, m_clientBridge := clientBridge }

/-- Embeds `CLibretroEnvironment::UpdateFramerate`. -/
def UpdateFramerate (s : CLibretroEnvironment) (fps : ℚ) : CLibretroEnvironment :=
  { s with m_fps := fps, m_bFramerateKnown := true }

/-- The body shared by the four string queries: copy the frontend's string
into the zeroed static buffer, hand the buffer to the core and free the
frontend's allocation; a null string is passed on as `NULL`. -/
def stringQuery (s : CLibretroEnvironment) (data : Bool) (query : Call)
    (answer : Option (List Nat)) : Except EnvFault Outcome :=
  if data then
    match answer with
    | some str =>
      let buffer := strncpy (memsetZero BUFFER_SIZE) str BUFFER_SIZE
      if s.m_xbmc then
        .ok { ret := true, state := s, calls := [query, .FreeString str],
              written := some (.string (some buffer)) }
      else .error .nullXbmc
    | none =>
      .ok { ret := true, state := s, calls := [query], written := some (.string none) }
  else .ok { ret := true, state := s }

/-- The counting loop of `SET_INPUT_DESCRIPTORS`. -/
def countDescriptors : List retro_input_descriptor → Nat
  | [] => 0
  | d :: rest => if d.description.isSome then countDescriptors rest + 1 else 0

/-- The counting loop of `SET_VARIABLES`. -/
def countVariables : List retro_variable → Nat
  | [] => 0
  | v :: rest => if v.key.isSome ∧ v.value.isSome then countVariables rest + 1 else 0

/-- The translation loop of `SET_INPUT_DESCRIPTORS`: `count` elements, each
filled from `typedData->port`, `typedData->device`, `typedData->index`,
`typedData->id` and `typedData->description`, where `typedData` points at the
first descriptor of the array throughout the loop. -/
def translateDescriptors (typedData : List retro_input_descriptor) (count : Nat) :
    List game_input_descriptor :=
  match typedData with
  | [] => []
  | first :: _ =>
    (List.range count).map fun _ =>
      { port := first.port, device := first.device, index := first.index, id := first.id,
        description := first.description }

/-- The translation loop of `SET_VARIABLES`: element `i` is filled from
`typedData[i].key` and `typedData[i].value`. -/
def translateVariables (typedData : List retro_variable) (count : Nat) : List game_variable :=
  (List.range count).filterMap fun i =>
    (typedData.get? i).map fun v => { key := v.key, value := v.value }

/-- The assignments `m_clientBridge->field = value` of one case, collected
into the new value of the callback table. -/
def setBridge (s : CLibretroEnvironment) (bridge : CClientBridge) : CLibretroEnvironment :=
  { s with m_clientBridge := some bridge }

/-- The `switch (cmd)` of `EnvironmentCallback`, entered with non-null
`m_frontend` and with `bridge` the object `m_clientBridge` points to.  The
local `notificationTimeMs` of `SET_MESSAGE` is computed but never used and is
left out. -/
def dispatch (fe : Frontend) (s : CLibretroEnvironment) (bridge : CClientBridge) :
    Message → Except EnvFault Outcome
  | .SET_ROTATION data =>
    match data with
    | some rotation =>
      .ok { ret := true, state := s, calls := [.EnvironmentSetRotation rotation] }
    | none => .ok { ret := true, state := s }
  | .GET_OVERSCAN data =>
    if data then
      .ok { ret := true, state := s, calls := [.EnvironmentGetOverscan],
            written := some (.bool fe.EnvironmentGetOverscan) }
    else .ok { ret := true, state := s }
  | .GET_CAN_DUPE data =>
    if data then
      .ok { ret := true, state := s, calls := [.EnvironmentCanDupe],
            written := some (.bool fe.EnvironmentCanDupe) }
    else .ok { ret := true, state := s }
  | .SET_MESSAGE data =>
    match data with
    | some typedData =>
      if s.m_xbmc then
        .ok { ret := true, state := s, calls := [.QueueNotification typedData.msg] }
      else .error .nullXbmc
    | none => .ok { ret := true, state := s }
  | .SHUTDOWN _ => .ok { ret := true, state := s, calls := [.ShutdownFrontend] }
  | .SET_PERFORMANCE_LEVEL data =>
    match data with
    | some level =>
      .ok { ret := true, state := s, calls := [.EnvironmentSetPerformanceLevel level] }
    | none => .ok { ret := true, state := s }
  | .GET_SYSTEM_DIRECTORY data =>
    stringQuery s data .EnvironmentGetSystemDirectory fe.EnvironmentGetSystemDirectory
  | .SET_PIXEL_FORMAT data =>
    match data with
    | none => .ok { ret := false, state := s }
    | some format =>
      if !fe.EnvironmentSetPixelFormat format then
        .ok { ret := false, state := s, calls := [.EnvironmentSetPixelFormat format] }
      else .ok { ret := true, state := s, calls := [.EnvironmentSetPixelFormat format] }
  | .SET_INPUT_DESCRIPTORS data =>
    match data with
    | some typedData =>
      let count := countDescriptors typedData
      if count ≠ 0 then
        .ok { ret := true, state := s,
              calls := [.EnvironmentSetInputDescriptors
                          (translateDescriptors typedData count) count] }
      else .ok { ret := true, state := s }
    | none => .ok { ret := true, state := s }
  | .SET_KEYBOARD_CALLBACK data =>
    match data with
    | some typedData =>
      .ok { ret := true,
            state := setBridge s { bridge with m_retro_keyboard_event := typedData.callback } }
    | none => .ok { ret := true, state := s }
  | .SET_DISK_CONTROL_INTERFACE data =>
    match data with
    | some typedData =>
      .ok { ret := true,
            state := setBridge s
              { bridge with
                m_retro_disk_set_eject_state := typedData.set_eject_state
                m_retro_disk_get_eject_state := typedData.get_eject_state
                m_retro_disk_get_image_index := typedData.get_image_index
                m_retro_disk_set_image_index := typedData.set_image_index
                m_retro_disk_get_num_images := typedData.get_num_images
                m_retro_disk_replace_image_index := typedData.replace_image_index
                m_retro_disk_add_image_index := typedData.add_image_index } }
    | none => .ok { ret := true, state := s }
  | .SET_HW_RENDER data =>
    match data with
    | some typedData =>
      let hw_info : game_hw_info :=
        { context_type := typedData.context_type, depth := typedData.depth,
          stencil := typedData.stencil, bottom_left_origin := typedData.bottom_left_origin,
          version_major := typedData.version_major, version_minor := typedData.version_minor,
          cache_context := typedData.cache_context, debug_context := typedData.debug_context }
      .ok { ret := true,
            state := setBridge s
              { bridge with
                m_retro_hw_context_reset := typedData.context_reset
                m_retro_hw_context_destroy := typedData.context_destroy },
            calls := [.HwSetInfo hw_info],
            written := some .hwRenderTrampolines }
    | none => .ok { ret := true, state := s }
  | .GET_VARIABLE data =>
    match data with
    | some typedData =>
      .ok { ret := true, state := s,
            calls := [.EnvironmentGetVariable
                        { key := typedData.key, value := typedData.value }] }
    | none => .ok { ret := true, state := s }
  | .SET_VARIABLES data =>
    match data with
    | some typedData =>
      let count := countVariables typedData
      if count ≠ 0 then
        .ok { ret := true, state := s,
              calls := [.EnvironmentSetVariables (translateVariables typedData count) count] }
      else .ok { ret := true, state := s }
    | none => .ok { ret := true, state := s }
  | .GET_VARIABLE_UPDATE data =>
    if data then
      .ok { ret := true, state := s, calls := [.EnvironmentGetVariableUpdate],
            written := some (.bool fe.EnvironmentGetVariableUpdate) }
    else .ok { ret := true, state := s }
  | .SET_SUPPORT_NO_GAME data =>
    match data with
    | some supported =>
      .ok { ret := true, state := s, calls := [.EnvironmentSetSupportNoGame supported] }
    | none => .ok { ret := true, state := s }
  | .GET_LIBRETRO_PATH data =>
    stringQuery s data .EnvironmentGetLibretroPath fe.EnvironmentGetLibretroPath
  | .SET_AUDIO_CALLBACK data =>
    match data with
    | some typedData =>
      .ok { ret := true,
            state := setBridge s
              { bridge with
                m_retro_audio_callback := typedData.callback
                m_retro_audio_set_state_callback := typedData.set_state } }
    | none => .ok { ret := true, state := s }
  | .SET_FRAME_TIME_CALLBACK data =>
    match data with
    | some typedData =>
      .ok { ret := true,
            state := setBridge s { bridge with m_retro_frame_time_callback := typedData.callback },
            calls := [.FrameTimeSetReference typedData.reference] }
    | none => .ok { ret := true, state := s }
  | .GET_RUMBLE_INTERFACE data =>
    if data then .ok { ret := true, state := s, written := some .rumbleTrampolines }
    else .ok { ret := true, state := s }
  | .GET_INPUT_DEVICE_CAPABILITIES data =>
    if data then
      .ok { ret := true, state := s, calls := [.InputGetDeviceCapabilities],
            written := some (.u64 fe.InputGetDeviceCapabilities) }
    else .ok { ret := true, state := s }
  | .GET_SENSOR_INTERFACE data =>
    if data then .ok { ret := true, state := s, written := some .sensorTrampolines }
    else .ok { ret := true, state := s }
  | .GET_CAMERA_INTERFACE data =>
    match data with
    | some typedData =>
      let camera_info : game_camera_info :=
        { caps := typedData.caps, width := typedData.width, height := typedData.height }
      .ok { ret := true,
            state := setBridge s
              { bridge with
                m_retro_camera_frame_raw_buffer := typedData.frame_raw_framebuffer
                m_retro_camera_frame_opengl_texture := typedData.frame_opengl_texture
                m_retro_camera_initialized := typedData.initialized
                m_retro_camera_deinitialized := typedData.deinitialized },
            calls := [.CameraSetInfo camera_info],
            written := some .cameraTrampolines }
    | none => .ok { ret := true, state := s }
  | .GET_LOG_INTERFACE data =>
    if data then .ok { ret := true, state := s, written := some .logTrampolines }
    else .ok { ret := true, state := s }
  | .GET_PERF_INTERFACE data =>
    if data then .ok { ret := true, state := s, written := some .perfTrampolines }
    else .ok { ret := true, state := s }
  | .GET_LOCATION_INTERFACE data =>
    if data then .ok { ret := true, state := s, written := some .locationTrampolines }
    else .ok { ret := true, state := s }
  | .GET_CONTENT_DIRECTORY data =>
    stringQuery s data .EnvironmentGetLibretroPath fe.EnvironmentGetLibretroPath
  | .GET_SAVE_DIRECTORY data =>
    stringQuery s data .EnvironmentGetLibretroPath fe.EnvironmentGetLibretroPath
  | .SET_SYSTEM_AV_INFO data =>
    match data with
    | none => .ok { ret := false, state := s }
    | some typedData =>
      let info : game_system_av_info :=
        { geometry :=
            { base_width := typedData.geometry.base_width
              base_height := typedData.geometry.base_height
              max_width := typedData.geometry.max_width
              max_height := typedData.geometry.max_height
              aspect_ratio := typedData.geometry.aspect_ratio },
          timing :=
            { fps := typedData.timing.fps, sample_rate := typedData.timing.sample_rate } }
      if !fe.EnvironmentSetSystemAvInfo info then
        .ok { ret := false, state := s, calls := [.EnvironmentSetSystemAvInfo info] }
      else
        .ok { ret := true, state := UpdateFramerate s info.timing.fps,
              calls := [.EnvironmentSetSystemAvInfo info] }
  | .other _ _ => .ok { ret := true, state := s }

/-- Embeds `CLibretroEnvironment::EnvironmentCallback`: the guard on `m_frontend` and
`m_clientBridge`, then the `switch`. -/
def EnvironmentCallback (fe : Frontend) (s : CLibretroEnvironment) (msg : Message) :
    Except EnvFault Outcome :=
  match s.m_frontend, s.m_clientBridge with
  | true, some bridge => dispatch fe s bridge msg
  | _, _ => .ok { ret := false, state := s }

/-- A frontend that accepts every pixel format and every AV info and has no
directory to report. -/
def acceptingFrontend : Frontend where
  EnvironmentGetOverscan := false
  EnvironmentCanDupe := true
  EnvironmentGetSystemDirectory := none
  EnvironmentSetPixelFormat := fun _ => true
  EnvironmentGetVariableUpdate := false
  EnvironmentGetLibretroPath := none
  InputGetDeviceCapabilities := 0
  EnvironmentSetSystemAvInfo := fun _ => true

/-- A frontend that rejects every pixel format and every AV info. -/
def rejectingFrontend : Frontend :=
  { acceptingFrontend with
    EnvironmentSetPixelFormat := fun _ => false
    EnvironmentSetSystemAvInfo := fun _ => false }

/-- The bridge before `Initialize`: all handles null, frame rate unknown. -/
def uninitialised : CLibretroEnvironment := {}

/-- The bridge after `Initialize` with three valid handles and an empty
callback table. -/
def initialised : CLibretroEnvironment := Initialize uninitialised true true (some {})

/-- An AV info with a frame rate of 60 and a sample rate of 44100. -/
def sampleAvInfo : retro_system_av_info :=
  { geometry := { base_width := 256, base_height := 224, max_width := 512, max_height := 448,
                  aspect_ratio := 4 / 3 },
    timing := { fps := 60, sample_rate := 44100 } }

/-- A core array of two input descriptors for port 0 (joypad ids 0 and 8)
followed by the terminating entry. -/
def sampleDescriptors : List retro_input_descriptor :=
  [ { port := 0, device := 1, index := 0, id := 0, description := some "B" },
    { port := 0, device := 1, index := 0, id := 8, description := some "A" },
    { port := 0, device := 0, index := 0, id := 0, description := none } ]

/-- A frontend whose system directory is a string of `BUFFER_SIZE` slashes. -/
def longPathFrontend : Frontend :=
  { acceptingFrontend with
    EnvironmentGetSystemDirectory := some (List.replicate BUFFER_SIZE 47) }

end LibretroEnvironment


namespace LibretroEnvironment

/-- A core array of two variables followed by the terminating entry. -/
def sampleVariables : List retro_variable :=
  [ { key := some "nes_palette", value := some "Palette; default|raw" },
    { key := some "nes_overscan", value := some "Crop overscan; enabled|disabled" },
    { key := none, value := none } ]

end LibretroEnvironment

namespace GameClient

/-! ## The game client session (`GameClient.cpp`)

Every call into the loaded core either returns a value or raises
(`CoreResult`).  A session operation is a computation `Exec` over the members
of the client and the list of calls made so far; a computation ends normally
with a value or with an exception in flight, and `tryCatch` is the `try { ... }
catch (...) { ... }` of the source.  The answers of the core, of the rewind
buffer `m_serialState`, of the settings and of the player during one session
call are the fields of `Env`. -/

/-- Enum `GAME_ERROR`, with the enumerators named in `CGameClient::ToString`. -/
inductive GAME_ERROR where
  | GAME_ERROR_NO_ERROR
  | GAME_ERROR_UNKNOWN
  | GAME_ERROR_NOT_IMPLEMENTED
  | GAME_ERROR_REJECTED
  | GAME_ERROR_INVALID_PARAMETERS
  | GAME_ERROR_FAILED
deriving Repr, DecidableEq

/-- Enum `ADDON_STATUS`. -/
inductive ADDON_STATUS where
  | ADDON_STATUS_OK
  | ADDON_STATUS_LOST_CONNECTION
  | ADDON_STATUS_NEED_RESTART
  | ADDON_STATUS_NEED_SETTINGS
  | ADDON_STATUS_UNKNOWN
  | ADDON_STATUS_NEED_SAVEDSETTINGS
  | ADDON_STATUS_PERMANENT_FAILURE
deriving Repr, DecidableEq

/-- Enum `GAME_REGION`. -/
inductive GAME_REGION where
  | GAME_REGION_NTSC
  | GAME_REGION_PAL
deriving Repr, DecidableEq

/-- The outcome of one call of a core entry point: it returns a value or it
raises. -/
inductive CoreResult (α : Type) where
  | returns (value : α)
  | raises
deriving Repr, DecidableEq

/-- The two slots of the rewind buffer that are handed to the core:
`m_serialState.GetState()` and `m_serialState.GetNextState()`. -/
inductive Slot where
  | GetState
  | GetNextState
deriving Repr, DecidableEq

/-- The calls a session operation makes, in the order it makes them: core
entry points (through `m_pStruct` or the `CAddonDll` base class), operations of
the rewind buffer `m_serialState`, and `m_player->CloseFile()`.  The frame
count handed to `Init` and `SetMaxFrames` is not represented. -/
inductive Call where
  | dllCreate
  | dllDestroy
  | GetClientName
  | GetClientVersion
  | GetValidExtensions
  | SupportsVFS
  | SupportsNoGame
  | LoadGame (url : String)
  | GetSystemAVInfo
  | GetRegion
  | SerializeSize
  | Serialize (slot : Slot)
  | Deserialize (slot : Slot)
  | Run
  | Reset
  | UnloadGame
  | SetControllerPortDevice (port device : Nat)
  | bufferInit (frameSize : Nat)
  | bufferReInit
  | bufferReset
  | bufferAdvanceFrame
  | bufferRewindFrames (frames : Nat)
  | bufferSetMaxFrames
  | playerCloseFile
deriving Repr, DecidableEq

/-- The part of `CFileItem` that the session reads: the path and the optional
"gameclient" property. -/
structure CFileItem where
  path : String
  gameclient : Option String := none
deriving Repr, DecidableEq

/-- Header constants used by `CGameClient::SetDevice`. -/
structure Consts where
  GAMECLIENT_MAX_PLAYERS : Nat
  GAME_DEVICE_JOYPAD : Nat
  GAME_DEVICE_ANALOG : Nat
  GAME_DEVICE_JOYPAD_MULTITAP : Nat
  GAME_DEVICE_LIGHTGUN_SUPER_SCOPE : Nat
  GAME_DEVICE_LIGHTGUN_JUSTIFIER : Nat
  GAME_DEVICE_LIGHTGUN_JUSTIFIERS : Nat
deriving Repr, DecidableEq

/-- A concrete assignment of the header constants: eight players and the
device classes of the libretro ABI (subclasses are `((id + 1) << 8) | base`). -/
def sampleConsts : Consts where
  GAMECLIENT_MAX_PLAYERS := 8
  GAME_DEVICE_JOYPAD := 1
  GAME_DEVICE_ANALOG := 5
  GAME_DEVICE_JOYPAD_MULTITAP := 257
  GAME_DEVICE_LIGHTGUN_SUPER_SCOPE := 260
  GAME_DEVICE_LIGHTGUN_JUSTIFIER := 516
  GAME_DEVICE_LIGHTGUN_JUSTIFIERS := 772

/-- The data members of `CGameClient` that the session operations read or
write, and the add-on id returned by `ID()`.  The initial values are those of
the constructor's initialiser list. -/
structure CGameClient where
  id : String
  m_extensions : List String := []
  m_bSupportsVFS : Bool := false
  m_bSupportsNoGame : Bool := false
  m_strClientName : String := ""
  m_strClientVersion : String := ""
  m_bReadyToUse : Bool := false
  m_bIsPlaying : Bool := false
  m_player : Option Nat := none
  m_region : GAME_REGION := .GAME_REGION_NTSC
  m_frameRate : ℚ := 0
  m_frameRateCorrection : ℚ := 1
  m_sampleRate : ℚ := 0
  m_serializeSize : Nat := 0
  m_bRewindEnabled : Bool := false
  m_filePath : String := ""
deriving DecidableEq

/-- The answers of the collaborators during one session call: what each core
entry point does when called, the local path that the path resolution at the
head of `OpenInternal` arrives at, the setting "gamesgeneral.enablerewind", the
count `m_serialState.RewindFrames` reports, and whether the player's
`CloseFile` calls back into `CGameClient::CloseFile`. -/
structure Env where
  dllCreate : CoreResult ADDON_STATUS
  dllDestroy : CoreResult Unit
  GetClientName : CoreResult String
  GetClientVersion : CoreResult String
  GetValidExtensions : CoreResult String
  SupportsVFS : CoreResult Bool
  SupportsNoGame : CoreResult Bool
  LoadGame : String → CoreResult GAME_ERROR
  GetSystemAVInfo : CoreResult (GAME_ERROR × ℚ × ℚ)
  GetRegion : CoreResult GAME_REGION
  SerializeSize : CoreResult Nat
  Serialize : CoreResult GAME_ERROR
  Deserialize : CoreResult GAME_ERROR
  Run : CoreResult GAME_ERROR
  Reset : CoreResult GAME_ERROR
  UnloadGame : CoreResult GAME_ERROR
  SetControllerPortDevice : Nat → Nat → CoreResult GAME_ERROR
  translatedUrl : CFileItem → String
  enablerewind : Bool
  RewindFrames : Nat → Nat
  playerClosesFile : Bool

/-- The client together with the calls made so far. -/
structure Machine where
  client : CGameClient
  trace : List Call := []
deriving DecidableEq

/-- How a computation ends: normally with a value, or with an exception in
flight. -/
inductive Completion (α : Type) where
  | normal (value : α)
  | exception
deriving Repr, DecidableEq

/-- A session computation. -/
def Exec (α : Type) : Type := Machine → Completion α × Machine

/-- Sequencing: an exception in flight skips the rest. -/
def Exec.bind {α β : Type} (x : Exec α) (f : α → Exec β) : Exec β := fun m =>
  match x m with
  | (.normal a, m1) => f a m1
  | (.exception, m1) => (.exception, m1)

/-- A computation that ends normally with the given value. -/
def Exec.pure {α : Type} (a : α) : Exec α := fun m => (.normal a, m)

instance : Monad Exec where
  pure := Exec.pure
  bind := Exec.bind

/-- The block `try { body } catch (...) { handler }`. -/
def tryCatch {α : Type} (body handler : Exec α) : Exec α := fun m =>
  match body m with
  | (.normal a, m1) => (.normal a, m1)
  | (.exception, m1) => handler m1

/-- A call of a core entry point: it is logged, and it ends normally with the
returned value or with an exception. -/
def call {α : Type} (c : Call) (r : CoreResult α) : Exec α := fun m =>
  match r with
  | .returns v => (.normal v, { m with trace := m.trace ++ [c] })
  | .raises => (.exception, { m with trace := m.trace ++ [c] })

/-- A call of a collaborator that does not raise; it is logged. -/
def record (c : Call) : Exec Unit := fun m =>
  (.normal (), { m with trace := m.trace ++ [c] })

/-- Read the members of the client. -/
def getClient : Exec CGameClient := fun m => (.normal m.client, m)

/-- Assign members of the client. -/
def modifyClient (f : CGameClient → CGameClient) : Exec Unit := fun m =>
  (.normal (), { m with client := f m.client })

/-- The block `try { x = body } catch (...) { LogException(...); }` as a value:
`some` of the result when the body ends normally, `none` when the exception was
caught. -/
def attempt {α : Type} (body : Exec α) : Exec (Option α) :=
  tryCatch (do let a ← body; pure (some a)) (pure none)

end GameClient

namespace GameClient

/-! ### String helpers and the extension set -/

/-- Modelled from the spec: `StringUtils::Split` lies outside the sources; the
declared extensions form a separator-delimited list, so the pieces between
occurrences of the separator are returned, here on the characters of the
string. -/
def splitChars (sep : Char) : List Char → List (List Char)
  | [] => [[]]
  | c :: cs =>
    match splitChars sep cs with
    | [] => [[c]]
    | w :: ws => if c = sep then [] :: w :: ws else (c :: w) :: ws

/-- Modelled from the spec: `StringUtils::Split(input, EXTENSION_SEPARATOR)`
with the separator "|"; an empty input has no pieces. -/
def Split (input : String) : List String :=
  if input.data = [] then [] else (splitChars '|' input.data).map String.mk

/-- Modelled from the spec: `StringUtils::ToLower` lies outside the sources;
extensions are compared without regard to letter case, so every upper-case
letter is replaced by its lower-case form. -/
def ToLower (s : String) : String := String.mk (s.data.map Char.toLower)

/-- The order of `std::string`: lexicographic on the character codes. -/
def lessChars : List Char → List Char → Bool
  | [], [] => false
  | [], _ :: _ => true
  | _ :: _, [] => false
  | a :: as, b :: bs =>
    if a.toNat < b.toNat then true
    else if b.toNat < a.toNat then false
    else lessChars as bs

/-- The comparison `a < b` on `std::string`. -/
def stringLess (a b : String) : Bool := lessChars a.data b.data

/-- The operation `extensions.insert(ext)` on a `std::set<std::string>`, kept
as the ascending list of its elements. -/
def setInsert (ext : String) : List String → List String
  | [] => [ext]
  | y :: ys =>
    if stringLess ext y then ext :: y :: ys
    else if ext = y then y :: ys
    else y :: setInsert ext ys

/-- Embeds `CGameClient::SetExtensions`: the set built from the list, which
replaces the previous contents of `extensions`. -/
def SetExtensions (strExtensionList : String) : List String :=
  (Split strExtensionList).foldl
    (fun extensions ext =>
      if ext.data = [] then extensions
      else
        let ext := ToLower ext
        let ext := if ext.data.head? ≠ some '.' then String.mk ('.' :: ext.data) else ext
        setInsert ext extensions)
    []

/-! ### Session operations -/

/-- Embeds `CGameClient::CloseFile`. -/
def CloseFile (env : Env) : Exec Unit := do
  let c ← getClient
  if c.m_bReadyToUse && c.m_bIsPlaying then
    let _ ← attempt (call .UnloadGame env.UnloadGame)
  modifyClient fun c => { c with m_bIsPlaying := false, m_filePath := "", m_player := none }

/-- Embeds `CGameClient::Destroy`.  The player's `CloseFile` is outside the
sources; it is logged and, when `env.playerClosesFile` says so, calls back into
`CGameClient::CloseFile`. -/
def Destroy (env : Env) : Exec Unit := do
  let c ← getClient
  if c.m_bIsPlaying && c.m_player.isSome then
    record .playerCloseFile
    if env.playerClosesFile then
      CloseFile env
  let c ← getClient
  if !c.m_bReadyToUse then
    return
  modifyClient fun c => { c with m_bReadyToUse := false }
  let _ ← attempt (call .dllDestroy env.dllDestroy)

/-- Embeds `CGameClient::GetAddonProperties`. -/
def GetAddonProperties (env : Env) : Exec Bool := do
  let some strClientName ← attempt (call .GetClientName env.GetClientName) | return false
  let some strClientVersion ← attempt (call .GetClientVersion env.GetClientVersion) | return false
  let some strValidExtensions ← attempt (call .GetValidExtensions env.GetValidExtensions)
    | return false
  let some bSupportsVFS ← attempt (call .SupportsVFS env.SupportsVFS) | return false
  let some bSupportsNoGame ← attempt (call .SupportsNoGame env.SupportsNoGame) | return false
  let c ← getClient
  let extensions := SetExtensions strValidExtensions
  if c.m_extensions ≠ extensions then
    return false
  if c.m_bSupportsVFS ≠ bSupportsVFS then
    return false
  if c.m_bSupportsNoGame ≠ bSupportsNoGame then
    return false
  modifyClient fun c =>
    { c with m_strClientName := strClientName, m_strClientVersion := strClientVersion }
  return true

/-- Embeds `CGameClient::Create`.  Inside the `try` block `status` is assigned
before `GetAddonProperties` runs, so an exception leaves `status` at what it
was and `bReadyToUse` false. -/
def Create (env : Env) : Exec ADDON_STATUS := do
  Destroy env
  let (status, bReadyToUse) ← tryCatch
    (do
      let status ← call .dllCreate env.dllCreate
      if status = .ADDON_STATUS_OK then
        tryCatch (do let b ← GetAddonProperties env; pure (status, b)) (pure (status, false))
      else
        pure (status, false))
    (pure (.ADDON_STATUS_UNKNOWN, false))
  modifyClient fun c => { c with m_bReadyToUse := bReadyToUse }
  return status

/-- Embeds `CGameClient::LoadGameInfo`. -/
def LoadGameInfo (env : Env) : Exec Bool := do
  let r ← attempt (call .GetSystemAVInfo env.GetSystemAVInfo)
  let (error, fps, sample_rate) := r.getD (.GAME_ERROR_FAILED, 0, 0)
  if error ≠ .GAME_ERROR_NO_ERROR then
    return false
  let some region ← attempt (call .GetRegion env.GetRegion) | return false
  modifyClient fun c =>
    { c with m_frameRate := fps, m_sampleRate := sample_rate, m_region := region }
  return true

/-- Embeds `CGameClient::OpenInternal`.  The resolution of the path (special
protocol, local zip, zip listing) only consults collaborators outside the
sources; its result is `env.translatedUrl file`. -/
def OpenInternal (env : Env) (file : CFileItem) : Exec Bool := do
  let strTranslatedUrl := env.translatedUrl file
  let r ← attempt (call (.LoadGame strTranslatedUrl) (env.LoadGame strTranslatedUrl))
  let error := r.getD .GAME_ERROR_FAILED
  if error ≠ .GAME_ERROR_NO_ERROR then
    return false
  if (← LoadGameInfo env) then
    modifyClient fun c => { c with m_filePath := strTranslatedUrl, m_bIsPlaying := true }
    return true
  return false

/-- Embeds `CGameClient::InitSerialization`. -/
def InitSerialization (env : Env) : Exec Bool := do
  let some serializeSize ← attempt (call .SerializeSize env.SerializeSize) | return false
  if serializeSize = 0 then
    return false
  modifyClient fun c =>
    { c with m_serializeSize := serializeSize, m_bRewindEnabled := env.enablerewind }
  if (← getClient).m_bRewindEnabled then
    record (.bufferInit serializeSize)
    let r ← attempt (call (.Serialize .GetState) env.Serialize)
    let error := r.getD .GAME_ERROR_FAILED
    if error ≠ .GAME_ERROR_NO_ERROR then
      modifyClient fun c => { c with m_serializeSize := 0, m_bRewindEnabled := false }
      record .bufferReset
      return false
  return true

/-- Embeds `CGameClient::SetDevice`. -/
def SetDevice (K : Consts) (env : Env) (port device : Nat) : Exec Unit := do
  if (← getClient).m_bIsPlaying then
    if port < K.GAMECLIENT_MAX_PLAYERS then
      if device ≤ K.GAME_DEVICE_ANALOG ∨
          device = K.GAME_DEVICE_JOYPAD_MULTITAP ∨
          device = K.GAME_DEVICE_LIGHTGUN_SUPER_SCOPE ∨
          device = K.GAME_DEVICE_LIGHTGUN_JUSTIFIER ∨
          device = K.GAME_DEVICE_LIGHTGUN_JUSTIFIERS then
        let _ ← attempt (call (.SetControllerPortDevice port device)
          (env.SetControllerPortDevice port device))

/-- Embeds `CGameClient::OpenFile`. -/
def OpenFile (K : Consts) (env : Env) (file : CFileItem) (player : Option Nat) : Exec Bool := do
  let c ← getClient
  if !c.m_bReadyToUse then
    return false
  if file.gameclient.isSome && file.gameclient ≠ some c.id then
    return false
  CloseFile env
  if (← OpenInternal env file) then
    modifyClient fun c => { c with m_player := player }
    let _ ← InitSerialization env
    SetDevice K env 0 K.GAME_DEVICE_JOYPAD
    return true
  return false

/-- Embeds `CGameClient::RunFrame`. -/
def RunFrame (env : Env) : Exec Bool := do
  if !(← getClient).m_bIsPlaying then
    return false
  let r ← attempt (call .Run env.Run)
  let error := r.getD .GAME_ERROR_FAILED
  if error ≠ .GAME_ERROR_NO_ERROR then
    return false
  if (← getClient).m_bRewindEnabled then
    let r ← attempt (call (.Serialize .GetNextState) env.Serialize)
    let error := r.getD .GAME_ERROR_FAILED
    if error ≠ .GAME_ERROR_NO_ERROR then
      modifyClient fun c => { c with m_bRewindEnabled := false }
      return false
    record .bufferAdvanceFrame
  return true

/-- Embeds `CGameClient::RewindFrames`. -/
def RewindFrames (env : Env) (frames : Nat) : Exec Nat := do
  let c ← getClient
  if c.m_bIsPlaying && c.m_bRewindEnabled then
    record (.bufferRewindFrames frames)
    let rewound := env.RewindFrames frames
    if rewound ≠ 0 then
      let _ ← attempt (call (.Deserialize .GetState) env.Deserialize)
    return rewound
  return 0

/-- Embeds `CGameClient::Reset`. -/
def Reset (env : Env) : Exec Unit := do
  if (← getClient).m_bIsPlaying then
    let _ ← attempt (call .Reset env.Reset)
    if (← getClient).m_bRewindEnabled then
      record .bufferReInit
      let r ← attempt (call (.Serialize .GetNextState) env.Serialize)
      let error := r.getD .GAME_ERROR_FAILED
      if error ≠ .GAME_ERROR_NO_ERROR then
        modifyClient fun c => { c with m_bRewindEnabled := false }

/-- Embeds `CGameClient::SetFrameRateCorrection`. -/
def SetFrameRateCorrection (correctionFactor : ℚ) : Exec Unit := do
  if correctionFactor ≠ 0 then
    modifyClient fun c => { c with m_frameRateCorrection := correctionFactor }
  if (← getClient).m_bRewindEnabled then
    record .bufferSetMaxFrames

end GameClient

namespace GameClient

/-- The condition under which `GetAddonProperties` succeeds: no property query
raises, and the reported extension set and the two flags equal the declared
ones. -/
def propertiesMatch (env : Env) (c : CGameClient) : Prop :=
  env.GetClientName ≠ .raises ∧ env.GetClientVersion ≠ .raises ∧
  (∃ e, env.GetValidExtensions = .returns e ∧ c.m_extensions = SetExtensions e) ∧
  env.SupportsVFS = .returns c.m_bSupportsVFS ∧
  env.SupportsNoGame = .returns c.m_bSupportsNoGame

/-- The passing of the two entry checks of `OpenFile`: the session is ready and
the "gameclient" property of the file is absent or names this client. -/
def entryChecksPass (c : CGameClient) (file : CFileItem) : Prop :=
  c.m_bReadyToUse = true ∧ (file.gameclient = none ∨ file.gameclient = some c.id)

instance (c : CGameClient) (file : CFileItem) : Decidable (entryChecksPass c file) := by
  unfold entryChecksPass; infer_instance

/-- The validity test of `SetDevice`: the session is playing, the port is below
`GAMECLIENT_MAX_PLAYERS` and the device is a base class or one of the four
named subclasses. -/
def deviceAccepted (K : Consts) (c : CGameClient) (port device : Nat) : Prop :=
  c.m_bIsPlaying = true ∧ port < K.GAMECLIENT_MAX_PLAYERS ∧
    (device ≤ K.GAME_DEVICE_ANALOG ∨
      device = K.GAME_DEVICE_JOYPAD_MULTITAP ∨
      device = K.GAME_DEVICE_LIGHTGUN_SUPER_SCOPE ∨
      device = K.GAME_DEVICE_LIGHTGUN_JUSTIFIER ∨
      device = K.GAME_DEVICE_LIGHTGUN_JUSTIFIERS)

instance (K : Consts) (c : CGameClient) (port device : Nat) :
    Decidable (deviceAccepted K c port device) := by
  unfold deviceAccepted; infer_instance

/-- The session calls that a playing session receives between `OpenFile` and
`CloseFile`, each with the answers of the collaborators during that call. -/
inductive Op where
  | RunFrame (env : Env)
  | RewindFrames (env : Env) (frames : Nat)
  | Reset (env : Env)
  | SetDevice (env : Env) (port device : Nat)
  | SetFrameRateCorrection (correctionFactor : ℚ)

/-- What a session call hands back to its caller. -/
inductive OpResult where
  | bool (b : Bool)
  | count (n : Nat)
  | void
deriving Repr, DecidableEq

/-- One session call. -/
def Op.exec (K : Consts) : Op → Exec OpResult
  | .RunFrame env => do let b ← GameClient.RunFrame env; pure (.bool b)
  | .RewindFrames env frames => do let n ← GameClient.RewindFrames env frames; pure (.count n)
  | .Reset env => do GameClient.Reset env; pure .void
  | .SetDevice env port device => do GameClient.SetDevice K env port device; pure .void
  | .SetFrameRateCorrection f => do GameClient.SetFrameRateCorrection f; pure .void

/-- A sequence of session calls, with how each of them ended. -/
def runOps (K : Consts) : List Op → Machine → List (Completion OpResult) × Machine
  | [], m => ([], m)
  | op :: ops, m =>
    let r := op.exec K m
    let rest := runOps K ops r.2
    (r.1 :: rest.1, rest.2)

/-- The calls that touch the rewind history: `Serialize`, `Deserialize`, and
the buffer operations `AdvanceFrame` and `RewindFrames`. -/
def Call.usesRewind : Call → Bool
  | .Serialize _ => true
  | .Deserialize _ => true
  | .bufferAdvanceFrame => true
  | .bufferRewindFrames _ => true
  | _ => false

/-- A core whose entry points all succeed: it reports the extension ".nes", a
serialize size of 1024 and 60 frames per second; rewind is enabled in the
settings and the buffer rewinds as many frames as it is asked to. -/
def sampleEnv : Env where
  dllCreate := .returns .ADDON_STATUS_OK
  dllDestroy := .returns ()
  GetClientName := .returns "Nestopia"
  GetClientVersion := .returns "1.0"
  GetValidExtensions := .returns ".nes"
  SupportsVFS := .returns false
  SupportsNoGame := .returns false
  LoadGame := fun _ => .returns .GAME_ERROR_NO_ERROR
  GetSystemAVInfo := .returns (.GAME_ERROR_NO_ERROR, 60, 48)
  GetRegion := .returns .GAME_REGION_NTSC
  SerializeSize := .returns 1024
  Serialize := .returns .GAME_ERROR_NO_ERROR
  Deserialize := .returns .GAME_ERROR_NO_ERROR
  Run := .returns .GAME_ERROR_NO_ERROR
  Reset := .returns .GAME_ERROR_NO_ERROR
  UnloadGame := .returns .GAME_ERROR_NO_ERROR
  SetControllerPortDevice := fun _ _ => .returns .GAME_ERROR_NO_ERROR
  translatedUrl := fun file => file.path
  enablerewind := true
  RewindFrames := fun frames => frames
  playerClosesFile := false

/-- The sample core, except that it reports the extensions ".nes|.unf". -/
def mismatchEnv : Env := { sampleEnv with GetValidExtensions := .returns ".nes|.unf" }

/-- The sample core, except that `Serialize` fails. -/
def serializeFailsEnv : Env := { sampleEnv with Serialize := .returns .GAME_ERROR_FAILED }

/-- The sample core, except that every entry point used while content is open
or being opened raises. -/
def raisingEnv : Env :=
  { sampleEnv with
    dllCreate := .raises
    dllDestroy := .raises
    GetClientName := .raises
    LoadGame := fun _ => .raises
    GetSystemAVInfo := .raises
    GetRegion := .raises
    SerializeSize := .raises
    Serialize := .raises
    Deserialize := .raises
    Run := .raises
    Reset := .raises
    UnloadGame := .raises
    SetControllerPortDevice := fun _ _ => .raises }

/-- A client as constructed from a descriptor that declares the extension
".nes". -/
def sampleClient : CGameClient := { id := "gameclient.nes", m_extensions := [".nes"] }

/-- The sample client while it plays "/roms/a.nes" with rewind enabled. -/
def playingClient : CGameClient :=
  { sampleClient with
    m_bReadyToUse := true
    m_bIsPlaying := true
    m_player := some 1
    m_serializeSize := 1024
    m_bRewindEnabled := true
    m_filePath := "/roms/a.nes" }

end GameClient

namespace GameManager

open GameClient

/-! ## The registry of game clients (`GameManager.cpp`) -/

/-- The type `GameClientMap`, a `std::map` from add-on id to client, kept as
the list of its entries in ascending order of the id. -/
abbrev GameClientMap := List (String × CGameClient)

/-- Lookup `m_gameClients.find(id)`. -/
def mapFind : GameClientMap → String → Option CGameClient
  | [], _ => none
  | (k, v) :: rest, id => if k = id then some v else mapFind rest id

/-- Assignment `m_gameClients[id] = client`. -/
def mapInsert (id : String) (client : CGameClient) : GameClientMap → GameClientMap
  | [] => [(id, client)]
  | (k, v) :: rest =>
    if stringLess id k then (id, client) :: (k, v) :: rest
    else if id = k then (k, client) :: rest
    else (k, v) :: mapInsert id client rest

/-- The member of `CGameManager` that registration reads and writes. -/
structure CGameManager where
  m_gameClients : GameClientMap := []
deriving DecidableEq

/-- The calls `RegisterAddon` makes to collaborators other than the client. -/
inductive HostCall where
  | QueueNotification (id : String)
  | DisableAddon (id : String)
  | Launch (id : String)
deriving Repr, DecidableEq

/-- The answers of the add-on system about one client: `client->Enabled()` and
`CAddonMgr::Get().IsAddonDisabled(client->ID())`. -/
structure AddonHost where
  Enabled : Bool
  IsAddonDisabled : Bool
deriving Repr, DecidableEq

/-- The outcome of `RegisterAddon`: the value returned (or an exception in
flight), the registry, the client object and the calls made to the host. -/
structure Registration where
  ret : Completion Bool
  manager : CGameManager
  client : Option Machine
  hostCalls : List HostCall := []

/-- Embeds `CGameManager::RegisterAddon`.  `wrapper` is the header constant
`LIBRETRO_WRAPPER_LIBRARY`; `envCreate` and `envDestroy` are the answers of the
core during `client->Create()` and `client->Destroy()`; `DisableAddon` and
`m_fileLauncher.Launch` are logged. -/
def RegisterAddon (wrapper : String) (host : AddonHost) (envCreate envDestroy : Env)
    (mgr : CGameManager) (client : Option Machine) : Registration :=
  match client with
  | none => { ret := .normal false, manager := mgr, client := none }
  | some cm =>
    if cm.client.id = wrapper then
      { ret := .normal false, manager := mgr, client := some cm }
    else if (!host.Enabled || host.IsAddonDisabled) = true then
      { ret := .normal false, manager := mgr, client := some cm }
    else if (mapFind mgr.m_gameClients cm.client.id).isSome = true then
      { ret := .normal true, manager := mgr, client := some cm }
    else
      match Create envCreate cm with
      | (.exception, cm1) => { ret := .exception, manager := mgr, client := some cm1 }
      | (.normal status, cm1) =>
        if status ≠ .ADDON_STATUS_OK then
          { ret := .normal false, manager := mgr, client := some cm1,
            hostCalls := [.QueueNotification cm1.client.id, .DisableAddon cm1.client.id] }
        else
          match Destroy envDestroy cm1 with
          | (.exception, cm2) => { ret := .exception, manager := mgr, client := some cm2 }
          | (.normal _, cm2) =>
            { ret := .normal true,
              manager := { mgr with
                m_gameClients := mapInsert cm2.client.id cm2.client mgr.m_gameClients },
              client := some cm2,
              hostCalls := [.Launch cm2.client.id] }

end GameManager
namespace GameClient

/-! ### Content matching -/

/-- Embeds `CGameClient::CanOpen`, whose body is `return true`. -/
def CanOpen (_c : CGameClient) (_file : CFileItem) : Bool := true

/-- Embeds `CGameClient::IsExtensionValid`. -/
def IsExtensionValid (c : CGameClient) (strExtension : String) : Bool :=
  if c.m_extensions = [] then true
  else if strExtension.data = [] then false
  else
    let strExtension2 := ToLower strExtension
    let strExtension2 :=
      if strExtension2.data.head? ≠ some '.' then String.mk ('.' :: strExtension2.data)
      else strExtension2
    decide (strExtension2 ∈ c.m_extensions)

/-- The form that both `SetExtensions` and `IsExtensionValid` give to a
non-empty entry before they touch the set: lower case, with a "." in front
unless the first character already is one. -/
def canonical (ext : String) : String :=
  if (ToLower ext).data.head? ≠ some '.' then String.mk ('.' :: (ToLower ext).data)
  else ToLower ext

/-- The sample core, except that it reports a serialize size of 0. -/
def noSerializeEnv : Env := { sampleEnv with SerializeSize := .returns 0 }

/-- The sample client after it played "/roms/a.nes" with rewind enabled and
closed it: ready, not playing, the serialization members as the earlier
content left them. -/
def closedClient : CGameClient :=
  { sampleClient with m_bReadyToUse := true, m_serializeSize := 1024, m_bRewindEnabled := true }

end GameClient

namespace GameManager

open GameClient

/-! ### Candidate lookup and the registry operations -/

/-- Removal `m_gameClients.erase(it)` of the entry with the given id. -/
def mapErase (id : String) : GameClientMap → GameClientMap
  | [] => []
  | (k, v) :: rest => if k = id then rest else (k, v) :: mapErase id rest

/-- Embeds `CGameManager::UnregisterAddonByID`: the registered client is
destroyed with the answers `envDestroy` and its entry erased. -/
def UnregisterAddonByID (envDestroy : Env) (mgr : CGameManager) (strClientId : String) :
    CGameManager :=
  match mapFind mgr.m_gameClients strClientId with
  | some client =>
    match Destroy envDestroy { client := client } with
    | (.normal _, _) => { mgr with m_gameClients := mapErase strClientId mgr.m_gameClients }
    | (.exception, _) => mgr
  | none => mgr

/-- Modelled from the spec: `file.GetProperty("gameclient").asString()`;
`CFileItem` and `CVariant` lie outside the sources, and a file without the
property makes the empty request. -/
def requestedClient (file : CFileItem) : String := file.gameclient.getD ""

/-- The loop of `CGameManager::GetGameClientIDs` over the entries of the
registry from the iterator on; `first` and `second` are `it->first` and
`it->second`. -/
def GetGameClientIDs_loop (file : CFileItem) (strRequestedClient : String) :
    GameClientMap → List String → List String
  | [], candidates => candidates
  | (first, second) :: rest, candidates =>
    if strRequestedClient.data ≠ [] ∧ strRequestedClient ≠ first then
      GetGameClientIDs_loop file strRequestedClient rest candidates
    else
      let candidates := if CanOpen second file then candidates ++ [second.id] else candidates
      if strRequestedClient.data ≠ [] then candidates
      else GetGameClientIDs_loop file strRequestedClient rest candidates

/-- Embeds `CGameManager::GetGameClientIDs`; the result is the vector
`candidates` after the call. -/
def GetGameClientIDs (mgr : CGameManager) (file : CFileItem) (candidates : List String) :
    List String :=
  GetGameClientIDs_loop file (requestedClient file) mgr.m_gameClients candidates

/-- The two members that change `m_gameClients`, with the answers of the
collaborators during the call. -/
inductive RegistryOp where
  | register (host : AddonHost) (envCreate envDestroy : Env) (client : Option Machine)
  | unregister (envDestroy : Env) (strClientId : String)

/-- One registry call. -/
def RegistryOp.exec (wrapper : String) (mgr : CGameManager) : RegistryOp → CGameManager
  | .register host envCreate envDestroy client =>
    (RegisterAddon wrapper host envCreate envDestroy mgr client).manager
  | .unregister envDestroy strClientId => UnregisterAddonByID envDestroy mgr strClientId

/-- A sequence of registry calls. -/
def runRegistry (wrapper : String) (mgr : CGameManager) (ops : List RegistryOp) : CGameManager :=
  ops.foldl (RegistryOp.exec wrapper) mgr

/-- The invariants of the registry: the ids of the entries ascend strictly
(the map holds each key once, in key order), and every entry is stored under
the id of its client. -/
def CGameManager.WF (mgr : CGameManager) : Prop :=
  (mgr.m_gameClients.map Prod.fst).Pairwise (fun a b => stringLess a b = true) ∧
  (∀ e ∈ mgr.m_gameClients, e.2.id = e.1)

instance (mgr : CGameManager) : Decidable mgr.WF := by
  unfold CGameManager.WF; infer_instance

/-- A registry with two clients. -/
def sampleManager : CGameManager :=
  { m_gameClients :=
      [("gameclient.nes", sampleClient),
       ("gameclient.snes", { id := "gameclient.snes", m_extensions := [".sfc", ".smc"] })] }

/-! ### The list of all game clients -/

/-- The part of an add-on that `GetAllGameClients` reads, `ID()`, and a name
that tells add-on objects with the same id apart. -/
structure Addon where
  id : String
  name : String := ""
deriving Repr, DecidableEq

/-- The loop of `GetAllGameClients` that removes duplicates, from the iterator
`it` on: `a` is `*it` and the list holds the elements after it.  The elements
before `it` are not touched again. -/
def removeDuplicatesFrom (a : Addon) : List Addon → List Addon
  | [] => [a]
  | b :: rest =>
    if a.id = b.id then removeDuplicatesFrom a rest else a :: removeDuplicatesFrom b rest

/-- The loop started at `addons.begin()`. -/
def removeDuplicates : List Addon → List Addon
  | [] => []
  | a :: rest => removeDuplicatesFrom a rest

/-- Embeds `CGameManager::GetAllGameClients`; the result is the vector `addons`
after the call.  `database` is what the add-on database returns (`none` when
it cannot be opened), `enabled` and `disabled` are the two answers of the
add-on manager, and `sort` is `std::sort` with the comparison by id. -/
def GetAllGameClients (sort : List Addon → List Addon) (database : Option (List Addon))
    (enabled disabled : List Addon) (addons : List Addon) : List Addon :=
  let addons :=
    match database with
    | some tempAddons => addons ++ tempAddons
    | none => addons
  let addons := addons ++ enabled
  let addons := addons ++ disabled
  if addons ≠ [] then removeDuplicates (sort addons) else addons

/-- What `std::sort` with `AddonSortByID` guarantees: the result is a
rearrangement of the input in which no element has a smaller id than an element
before it. -/
def SortsByID (sort : List Addon → List Addon) : Prop :=
  ∀ l, (sort l).Perm l ∧ (sort l).Pairwise (fun a b => stringLess b.id a.id = false)

/-- One sorting function with that guarantee: insertion sort. -/
def insertByID (a : Addon) : List Addon → List Addon
  | [] => [a]
  | b :: rest => if stringLess b.id a.id then b :: insertByID a rest else a :: b :: rest

/-- Insertion sort by id. -/
def sortByID : List Addon → List Addon
  | [] => []
  | a :: rest => insertByID a (sortByID rest)

end GameManager
namespace RetroPlayerInput

/-! ## Lemmas on the lookup table -/

theorem DeviceItem.equiv_iff (a b : DeviceItem) :
    a.equiv b = true ↔
      a.controllerID = b.controllerID ∧ a.key = b.key ∧ a.buttonID = b.buttonID ∧
        a.hatID = b.hatID ∧ a.hatDir = b.hatDir := by
  simp only [DeviceItem.equiv, DeviceItem.lt]
  split_ifs <;> simp_all <;> omega

theorem DeviceItem.equiv_congr_right {a b : DeviceItem} (h : a.equiv b = true) (k : DeviceItem) :
    k.equiv a = k.equiv b := by
  rw [DeviceItem.equiv_iff] at h
  rw [Bool.eq_iff_iff, DeviceItem.equiv_iff, DeviceItem.equiv_iff]
  obtain ⟨h1, h2, h3, h4, h5⟩ := h
  rw [h1, h2, h3, h4, h5]

theorem mapFind_mapAssign_of_equiv (m : DeviceMap) {a b : DeviceItem} (id : Int)
    (h : a.equiv b = true) : mapFind (mapAssign m a id) b = some id := by
  induction m with
  | nil => simp [mapAssign, mapFind, h]
  | cons e m ih =>
    obtain ⟨k, v⟩ := e
    by_cases hk : k.equiv a = true
    · have hb : k.equiv b = true := by rw [← DeviceItem.equiv_congr_right h k]; exact hk
      simp [mapAssign, mapFind, hk, hb]
    · have hb : ¬ k.equiv b = true := by rw [← DeviceItem.equiv_congr_right h k]; exact hk
      simp [mapAssign, mapFind, hk, hb, ih]

theorem mapFind_mapAssign_self (m : DeviceMap) (a : DeviceItem) (id : Int) :
    mapFind (mapAssign m a id) a = some id :=
  mapFind_mapAssign_of_equiv m id ((DeviceItem.equiv_iff a a).2 ⟨rfl, rfl, rfl, rfl, rfl⟩)

theorem mapFind_mapAssign_of_not_equiv (m : DeviceMap) {a b : DeviceItem} (id : Int)
    (h : ¬ a.equiv b = true) : mapFind (mapAssign m a id) b = mapFind m b := by
  induction m with
  | nil => simp [mapAssign, mapFind, h]
  | cons e m ih =>
    obtain ⟨k, v⟩ := e
    by_cases hk : k.equiv a = true
    · have hb : ¬ k.equiv b = true := by
        intro hkb
        apply h
        rw [DeviceItem.equiv_iff] at hk hkb ⊢
        obtain ⟨h1, h2, h3, h4, h5⟩ := hk
        obtain ⟨g1, g2, g3, g4, g5⟩ := hkb
        exact ⟨h1 ▸ g1, h2 ▸ g2, h3 ▸ g3, h4 ▸ g4, h5 ▸ g5⟩
      simp [mapAssign, mapFind, hk, hb]
    · by_cases hb : k.equiv b = true
      · simp [mapAssign, mapFind, hk, hb]
      · simp [mapAssign, mapFind, hk, hb, ih]

theorem mapFind_mapErase_of_not_equiv (m : DeviceMap) {a b : DeviceItem}
    (h : ¬ a.equiv b = true) : mapFind (mapErase m a) b = mapFind m b := by
  induction m with
  | nil => simp [mapErase, mapFind]
  | cons e m ih =>
    obtain ⟨k, v⟩ := e
    by_cases hk : k.equiv a = true
    · have hb : ¬ k.equiv b = true := by
        intro hkb
        apply h
        rw [DeviceItem.equiv_iff] at hk hkb ⊢
        obtain ⟨h1, h2, h3, h4, h5⟩ := hk
        obtain ⟨g1, g2, g3, g4, g5⟩ := hkb
        exact ⟨h1 ▸ g1, h2 ▸ g2, h3 ▸ g3, h4 ▸ g4, h5 ▸ g5⟩
      simp [mapErase, mapFind, hk, hb]
    · by_cases hb : k.equiv b = true
      · simp [mapErase, mapFind, hk, hb]
      · simp [mapErase, mapFind, hk, hb, ih]

/-! ## Lemmas on the state table -/

theorem writeCell_ok {K : Consts} (s : CRetroPlayerInput) {row : Nat} {col : Int} (v : Int)
    (h : inTable K row col) :
    writeCell K s row col v =
      .ok { s with m_joypadState := fun r c =>
              if r = row ∧ c = col.toNat then v else s.m_joypadState r c } := by
  simp [writeCell, h]

theorem writeCell_error {K : Consts} (s : CRetroPlayerInput) {row : Nat} {col : Int} (v : Int)
    (h : ¬ inTable K row col) :
    writeCell K s row col v = .error (.outOfBounds row col) := by
  simp [writeCell, h]

theorem writeCell_frame {K : Consts} {s s1 : CRetroPlayerInput} {row : Nat} {col v : Int}
    (h : writeCell K s row col v = .ok s1) (r c : Nat) (hne : (row, col) ≠ (r, (c : Int))) :
    s1.m_joypadState r c = s.m_joypadState r c := by
  unfold writeCell at h
  split_ifs at h with hin
  cases h
  have : ¬ (r = row ∧ c = col.toNat) := by
    rintro ⟨rfl, rfl⟩
    apply hne
    obtain ⟨_, h0, _⟩ := hin
    simp [Int.toNat_of_nonneg h0]
  simp [this]

theorem writeCell_items {K : Consts} {s s1 : CRetroPlayerInput} {row : Nat} {col v : Int}
    (h : writeCell K s row col v = .ok s1) : s1.m_deviceItems = s.m_deviceItems := by
  unfold writeCell at h
  split_ifs at h
  cases h
  rfl

/-! ## Lemmas on the analog conversion -/

theorem toInt16_of_mem {x : Int} (h1 : -32768 ≤ x) (h2 : x ≤ 32767) : toInt16 x = x := by
  unfold toInt16
  omega

theorem floatToInt_of_mem {q : ℚ} (h1 : -2 ^ 31 ≤ truncQ q) (h2 : truncQ q < 2 ^ 31) :
    floatToInt q = some (truncQ q) := by
  unfold floatToInt
  exact if_pos ⟨h1, h2⟩

theorem truncQ_intCast (m : Int) : truncQ (m : ℚ) = m := by
  unfold truncQ
  split_ifs <;> simp

theorem floatToInt_intCast (m : Int) (h1 : -2 ^ 31 ≤ m) (h2 : m < 2 ^ 31) :
    floatToInt (m : ℚ) = some m := by
  rw [floatToInt_of_mem (by rw [truncQ_intCast]; exact h1) (by rw [truncQ_intCast]; exact h2),
    truncQ_intCast]

theorem floatToInt_intCast_large (m : Int) (h : 2 ^ 31 ≤ m) : floatToInt (m : ℚ) = none := by
  unfold floatToInt
  have : ¬ (-2 ^ 31 ≤ m ∧ m < 2 ^ 31) := by omega
  simp only [truncQ_intCast, this, if_false]

theorem roundNearestEven_intCast (m : Int) : roundNearestEven (m : ℚ) = m := by
  simp [roundNearestEven]

theorem roundNearestEven_of_lt {q : ℚ} {f : Int} (h1 : (f : ℚ) ≤ q) (h2 : q - f < 1 / 2) :
    roundNearestEven q = f := by
  have hf : ⌊q⌋ = f := by
    rw [Int.floor_eq_iff]
    constructor
    · exact h1
    · linarith
  simp only [roundNearestEven, hf, h2, if_true]

theorem roundNearestEven_of_gt {q : ℚ} {f : Int} (h1 : q < (f : ℚ) + 1) (h2 : 1 / 2 < q - f) :
    roundNearestEven q = f + 1 := by
  have hf : ⌊q⌋ = f := by
    rw [Int.floor_eq_iff]
    constructor
    · linarith
    · exact h1
  have h3 : ¬ q - f < 1 / 2 := by linarith
  simp only [roundNearestEven, hf, h2, h3, if_true, if_false]

theorem log_eq {q : ℚ} {e : Int} (h1 : (2 : ℚ) ^ e ≤ q) (h2 : q < (2 : ℚ) ^ (e + 1)) :
    Int.log 2 q = e := by
  have hq : 0 < q := lt_of_lt_of_le (zpow_pos (by norm_num) e) h1
  apply le_antisymm
  · have := (Int.lt_zpow_iff_log_lt (b := 2) (by norm_num) hq).1 (by exact_mod_cast h2)
    omega
  · exact (Int.zpow_le_iff_le_log (b := 2) (by norm_num) hq).1 (by exact_mod_cast h1)

theorem roundF32_eq {q : ℚ} (e m : Int) (h1 : (2 : ℚ) ^ e ≤ |q|) (h2 : |q| < (2 : ℚ) ^ (e + 1))
    (hm : roundNearestEven (q / 2 ^ (e - 23)) = m) :
    roundF32 q = m * 2 ^ (e - 23) := by
  have hq : q ≠ 0 := by
    intro h
    rw [h, abs_zero] at h1
    exact absurd h1 (not_le.2 (zpow_pos (by norm_num) e))
  simp only [roundF32, hq, if_false, log_eq h1 h2, hm]

theorem roundF32_32767 : roundF32 32767 = 32767 := by
  have hm : roundNearestEven ((32767 : ℚ) / 2 ^ ((14 : Int) - 23)) = 16776704 := by
    have : (32767 : ℚ) / 2 ^ ((14 : Int) - 23) = ((16776704 : Int) : ℚ) := by norm_num
    rw [this, roundNearestEven_intCast]
  rw [roundF32_eq 14 16776704 (by norm_num) (by norm_num) hm]
  norm_num

theorem roundF32_large : roundF32 3276700000 = 3276699904 := by
  have hm : roundNearestEven ((3276700000 : ℚ) / 2 ^ ((31 : Int) - 23)) = 12799609 := by
    apply roundNearestEven_of_lt <;> norm_num
  rw [roundF32_eq 31 12799609 (by norm_num) (by norm_num) hm]
  norm_num

theorem roundF32_min : roundF32 (-32768) = -32768 := by
  have hm : roundNearestEven ((-32768 : ℚ) / 2 ^ ((15 : Int) - 23)) = -8388608 := by
    have : (-32768 : ℚ) / 2 ^ ((15 : Int) - 23) = ((-8388608 : Int) : ℚ) := by norm_num
    rw [this, roundNearestEven_intCast]
  rw [roundF32_eq 15 (-8388608) (by norm_num) (by norm_num) hm]
  norm_num

theorem roundF32_half : roundF32 (98301 / 2) = 98301 / 2 := by
  have hm : roundNearestEven ((98301 / 2 : ℚ) / 2 ^ ((15 : Int) - 23)) = 12582528 := by
    have : (98301 / 2 : ℚ) / 2 ^ ((15 : Int) - 23) = ((12582528 : Int) : ℚ) := by norm_num
    rw [this, roundNearestEven_intCast]
  rw [roundF32_eq 15 12582528 (by norm_num [abs_of_pos]) (by norm_num [abs_of_pos]) hm]
  norm_num

theorem roundF32_up : roundF32 (1073741823 / 65536) = 16384 := by
  have hm : roundNearestEven ((1073741823 / 65536 : ℚ) / 2 ^ ((13 : Int) - 23)) =
      16777215 + 1 := by
    apply roundNearestEven_of_gt <;> norm_num
  rw [roundF32_eq 13 (16777215 + 1) (by norm_num [abs_of_pos]) (by norm_num [abs_of_pos]) hm]
  norm_num

/-- The constant `DEAD_ZONE` is 1/100 rounded to binary32. -/
theorem roundF32_dead_zone : roundF32 (1 / 100) = DEAD_ZONE := by
  have hm : roundNearestEven ((1 / 100 : ℚ) / 2 ^ ((-7 : Int) - 23)) = 10737418 := by
    apply roundNearestEven_of_lt <;> norm_num
  rw [roundF32_eq (-7) 10737418 (by norm_num [abs_of_pos]) (by norm_num [abs_of_pos]) hm]
  norm_num [DEAD_ZONE]

theorem analogValue_pos {a : ℚ} (h1 : ¬ |a| ≤ DEAD_ZONE) (h2 : a > 0) :
    analogValue a =
      (floatToInt (roundF32 (32767 * a))).map fun value2 =>
        toInt16 (if value2 > GAME_ANALOG_MAX then GAME_ANALOG_MAX else value2) := by
  have : ((GAME_ANALOG_MAX : Int) : ℚ) = 32767 := by norm_num [GAME_ANALOG_MAX]
  simp only [analogValue, h1, h2, if_true, if_false, this]

theorem analogValue_neg {a : ℚ} (h1 : ¬ |a| ≤ DEAD_ZONE) (h2 : ¬ a > 0) :
    analogValue a =
      (floatToInt (roundF32 (-32768 * -a))).map fun value2 =>
        toInt16 (if value2 < GAME_ANALOG_MIN then GAME_ANALOG_MIN else value2) := by
  have : ((GAME_ANALOG_MIN : Int) : ℚ) = -32768 := by norm_num [GAME_ANALOG_MIN]
  simp only [analogValue, h1, h2, if_false, this]

theorem analogValue_one : analogValue 1 = some 32767 := by
  rw [analogValue_pos (by norm_num [DEAD_ZONE, abs_le]) (by norm_num), mul_one, roundF32_32767]
  have h : (32767 : ℚ) = ((32767 : Int) : ℚ) := by norm_num
  rw [h, floatToInt_intCast _ (by norm_num) (by norm_num)]
  rfl

theorem analogValue_100000 : analogValue 100000 = none := by
  have hp : (32767 : ℚ) * 100000 = 3276700000 := by norm_num
  rw [analogValue_pos (by norm_num [DEAD_ZONE, abs_le]) (by norm_num), hp, roundF32_large]
  have h : (3276699904 : ℚ) = ((3276699904 : Int) : ℚ) := by norm_num
  rw [h, floatToInt_intCast_large _ (by norm_num)]
  rfl

theorem analogSpec_mem (a : ℚ) : -32768 ≤ analogSpec a ∧ analogSpec a ≤ 32767 := by
  unfold analogSpec
  split_ifs with h1 h2
  · omega
  · have : 0 ≤ truncQ (32767 * a) := by
      have ha : (0 : ℚ) ≤ 32767 * a := by linarith
      simp only [truncQ, ha, if_true]
      exact Int.floor_nonneg.2 ha
    omega
  · have : truncQ (32768 * a) ≤ 0 := by
      have ha : a < 0 := by
        by_contra hcon
        push_neg at hcon
        apply h1
        rw [abs_of_nonneg hcon]
        linarith
      have ha2 : ¬ (0 : ℚ) ≤ 32768 * a := by linarith
      simp only [truncQ, ha2, if_false]
      apply Int.ceil_le.2
      push_cast
      linarith
    omega

/-! ## Lemmas on the handlers -/

theorem processDown_ok {K : Consts} (s : CRetroPlayerInput) {c i : Nat} (item : DeviceItem)
    {a : CAction} (hc : c < K.ports) (hi : i < K.width) (ha : TranslateActionID K a.id = i) :
    processDown K s c item a =
      .ok { m_joypadState := fun r col => if r = c ∧ col = i then 1 else s.m_joypadState r col,
            m_deviceItems := mapAssign s.m_deviceItems item i } := by
  have hin : inTable K c (i : Int) := ⟨hc, by omega, by exact_mod_cast hi⟩
  have hcond : (0 : Int) ≤ i ∧ (i : Int) < K.width := ⟨by omega, by exact_mod_cast hi⟩
  simp only [processDown, ha, hcond, and_self, if_true, writeCell_ok _ _ hin, Int.toNat_ofNat]

theorem processUp_ok {K : Consts} (s : CRetroPlayerInput) {c i : Nat} (item : DeviceItem)
    (hc : c < K.ports) (hi : i < K.width) (hf : mapFind s.m_deviceItems item = some (i : Int)) :
    processUp K s c item =
      .ok { m_joypadState := fun r col => if r = c ∧ col = i then 0 else s.m_joypadState r col,
            m_deviceItems := mapErase s.m_deviceItems item } := by
  have hin : inTable K c (i : Int) := ⟨hc, by omega, by exact_mod_cast hi⟩
  simp only [processUp, hf, writeCell_ok _ _ hin, Int.toNat_ofNat]
  rfl

theorem processDown_frame {K : Consts} {s s1 : CRetroPlayerInput} {c : Nat} {item : DeviceItem}
    {a : CAction} (h : processDown K s c item a = .ok s1) (r col : Nat)
    (hne : downTarget K c a ≠ some (r, (col : Int))) :
    s1.m_joypadState r col = s.m_joypadState r col := by
  unfold processDown at h
  unfold downTarget at hne
  simp only at h hne
  split_ifs at h hne with hv
  · rw [writeCell_frame h r col (fun e => hne (by rw [e]))]
  · cases h
    rfl

theorem processUp_frame {K : Consts} {s s1 : CRetroPlayerInput} {c : Nat} {item : DeviceItem}
    (h : processUp K s c item = .ok s1) (r col : Nat)
    (hne : upTarget s c item ≠ some (r, (col : Int))) :
    s1.m_joypadState r col = s.m_joypadState r col := by
  unfold processUp at h
  unfold upTarget at hne
  cases hf : mapFind s.m_deviceItems item with
  | none =>
    rw [hf] at h
    cases h
    rfl
  | some id =>
    rw [hf] at h hne
    simp only [Option.map_some'] at hne
    dsimp only at h
    cases hw : writeCell K s c id 0 with
    | error f => rw [hw] at h; cases h
    | ok s2 =>
      rw [hw] at h
      cases h
      exact writeCell_frame hw r col (fun e => hne (by rw [e]))

theorem step_frame {K : Consts} {s s1 : CRetroPlayerInput} {e : Event}
    (h : step K s e = .ok s1) (r col : Nat) (hne : e.target K s ≠ some (r, (col : Int))) :
    s1.m_joypadState r col = s.m_joypadState r col := by
  cases e with
  | keyDown c k a => exact processDown_frame h r col hne
  | keyUp c k => exact processUp_frame h r col hne
  | buttonDown c b a => exact processDown_frame h r col hne
  | buttonUp c b => exact processUp_frame h r col hne
  | digitalAxisDown c b a => exact processDown_frame h r col hne
  | digitalAxisUp c b => exact processUp_frame h r col hne
  | hatDown c hh d a => exact processDown_frame h r col hne
  | hatUp c hh d => exact processUp_frame h r col hne
  | analogAxis c x a =>
    simp only [step, ProcessAnalogAxis] at h
    simp only [Event.target] at hne
    cases hv : analogValue a.amount with
    | none => rw [hv] at h; cases h
    | some value =>
      rw [hv] at h hne
      simp only at h hne
      by_cases hz : value ≠ 0
      · rw [if_pos hz] at h hne
        unfold downTarget at hne
        simp only at hne
        split_ifs at h hne with hvalid
        · exact writeCell_frame h r col (fun e => hne (by rw [e]))
        · cases h
          rfl
      · rw [if_neg hz] at h hne
        exact processUp_frame h r col hne

theorem run_frame {K : Consts} (es : List Event) :
    ∀ {s s1 : CRetroPlayerInput}, run K s es = .ok s1 → ∀ r col : Nat,
      (r, (col : Int)) ∉ runTargets K s es → s1.m_joypadState r col = s.m_joypadState r col := by
  induction es with
  | nil =>
    intro s s1 h r col _
    simp only [run] at h
    cases h
    rfl
  | cons e es ih =>
    intro s s1 h r col hne
    simp only [run] at h
    simp only [runTargets] at hne
    cases hs : step K s e with
    | error f => rw [hs] at h; cases h
    | ok s2 =>
      rw [hs] at h hne
      simp only [List.mem_append, Option.mem_toList, Option.mem_def, not_or] at h hne
      rw [ih h r col hne.2, step_frame hs r col hne.1]

theorem GetInput_joypad {K : Consts} (hK : K.WF) (s : CRetroPlayerInput) {c j : Nat}
    (index : Nat) (hc : c < K.ports) (hj : j ≤ 15) :
    GetInput K s c K.GAME_DEVICE_JOYPAD index j =
      .ok (s.m_joypadState c (K.ACTION_JOYPAD_B - K.ACTION_GAME_CONTROL_START + j)) := by
  obtain ⟨_, _, hSB, hR3, hR3E, hE, hW, hmask, _⟩ := hK
  have hoff : toU32 ((K.ACTION_JOYPAD_B : Int) - K.ACTION_GAME_CONTROL_START) =
      K.ACTION_JOYPAD_B - K.ACTION_GAME_CONTROL_START := by
    unfold toU32
    omega
  have hcol : (j + (K.ACTION_JOYPAD_B - K.ACTION_GAME_CONTROL_START)) % 2 ^ 32 =
      K.ACTION_JOYPAD_B - K.ACTION_GAME_CONTROL_START + j := by
    omega
  have hin : inTable K c ((K.ACTION_JOYPAD_B - K.ACTION_GAME_CONTROL_START + j : Nat) : Int) :=
    ⟨hc, by omega, by omega⟩
  have hid : j ≤ K.ACTION_JOYPAD_R3 := by omega
  simp only [GetInput, hc, if_true, hmask, hid, hoff, hcol, readCell, hin, Int.toNat_ofNat]

theorem TranslateActionID_joypad {K : Consts} (hK : K.WF) {j : Nat} (hj : j ≤ 15) :
    TranslateActionID K ((K.ACTION_JOYPAD_B : Int) + j) =
      ((K.ACTION_JOYPAD_B - K.ACTION_GAME_CONTROL_START + j : Nat) : Int) := by
  obtain ⟨_, _, hSB, hR3, hR3E, hE, hW, hmask, _⟩ := hK
  unfold TranslateActionID TRANSLATE_INTERVAL
  rw [if_pos (by omega)]
  omega

theorem joypad_col_lt {K : Consts} (hK : K.WF) {j : Nat} (hj : j ≤ 15) :
    K.ACTION_JOYPAD_B - K.ACTION_GAME_CONTROL_START + j < K.width := by
  obtain ⟨_, _, hSB, hR3, hR3E, hE, hW, hmask, _⟩ := hK
  omega

/-- Down followed by the matching Up, for an arbitrary lookup identity bound to
a joypad action: `GetInput` reads 1 after the Down and 0 after the Up. -/
theorem down_up_joypad {K : Consts} (hK : K.WF) (s : CRetroPlayerInput) {c j : Nat}
    (item : DeviceItem) (amount : ℚ) (hc : c < K.ports) (hj : j ≤ 15) :
    ∃ s1 s2, processDown K s c item { id := (K.ACTION_JOYPAD_B : Int) + j, amount := amount }
        = .ok s1 ∧
      GetInput K s1 c K.GAME_DEVICE_JOYPAD 0 j = .ok 1 ∧
      processUp K s1 c item = .ok s2 ∧
      GetInput K s2 c K.GAME_DEVICE_JOYPAD 0 j = .ok 0 := by
  have hcol := joypad_col_lt hK hj
  have hd := processDown_ok s item
    (a := { id := (K.ACTION_JOYPAD_B : Int) + j, amount := amount }) hc hcol
    (TranslateActionID_joypad hK hj)
  refine ⟨_, _, hd, ?_, processUp_ok _ item hc hcol (mapFind_mapAssign_self _ _ _), ?_⟩
  · rw [GetInput_joypad hK _ 0 hc hj]
    simp
  · rw [GetInput_joypad hK _ 0 hc hj]
    simp

/-! ## Properties of the input state table -/

/-- C1 (violated by the code): a button-0 Down bound to control `i`, then an
analog-axis event of the same controller with amount 1 bound to another control
`j`, then the button-0 Up, all run without fault and leave cell `[c][i]` at 1.
The axis item is equivalent to the button item under `operator <`, which never
compares `axisID`, so the axis event overwrites the recorded control id and the
Up event clears cell `[c][j]` instead of `[c][i]`. -/
theorem button_cell_stuck_after_axis_event (K : Consts) (s : CRetroPlayerInput)
    (c axisID i j : Nat) (down move : CAction)
    (hc : c < K.ports) (hi : i < K.width) (hj : j < K.width) (hij : i ≠ j)
    (hdown : TranslateActionID K down.id = i) (hmove : TranslateActionID K move.id = j)
    (hamount : move.amount = 1) :
    ∃ s3, run K s [.buttonDown c 0 down, .analogAxis c axisID move, .buttonUp c 0] = .ok s3 ∧
      s3.m_joypadState c i = 1 ∧ s3.m_joypadState c j = 0 := by
  have hinj : inTable K c (j : Int) := ⟨hc, by omega, by exact_mod_cast hj⟩
  have hvalid : (0 : Int) ≤ j ∧ (j : Int) < K.width := ⟨by omega, by exact_mod_cast hj⟩
  have hne : (32767 : Int) ≠ 0 := by decide
  have heq : DeviceItem.equiv { controllerID := c, axisID := axisID % 256 }
      { controllerID := c, buttonID := 0 } = true :=
    (DeviceItem.equiv_iff _ _).2 ⟨rfl, rfl, rfl, rfl, rfl⟩
  have hji : ¬ j = i := fun e => hij e.symm
  simp only [run, step, ProcessButtonDown, processDown_ok s _ hc hi hdown, ProcessAnalogAxis,
    hamount, analogValue_one, ne_eq, hne, not_false_eq_true, if_true, hmove, hvalid, and_self,
    writeCell_ok _ _ hinj, Int.toNat_ofNat, ProcessButtonUp]
  rw [processUp_ok _ _ hc hj (mapFind_mapAssign_of_equiv _ _ heq)]
  refine ⟨_, rfl, ?_, ?_⟩
  · simp [hij]
  · simp

/-- Witness for `button_cell_stuck_after_axis_event`: port 0, button 0 bound to
`ACTION_JOYPAD_B`, axis 2 bound to the action after it. -/
theorem button_cell_stuck_after_axis_event_witness :
    ∃ s3, run sampleConsts initial
        [.buttonDown 0 0 { id := 250 }, .analogAxis 0 2 { id := 251, amount := 1 },
          .buttonUp 0 0] = .ok s3 ∧
      s3.m_joypadState 0 0 = 1 ∧ s3.m_joypadState 0 1 = 0 :=
  button_cell_stuck_after_axis_event sampleConsts initial 0 2 0 1 { id := 250 }
    { id := 251, amount := 1 } (by decide) (by decide) (by decide) (by decide)
    (by decide) (by decide) rfl

/-- C2: for a valid port `c` and a joypad id `j ≤ 15`, a key, button or hat
Down event bound to action `ACTION_JOYPAD_B + j` succeeds and makes
`GetInput(c, GAME_DEVICE_JOYPAD, 0, j)` return 1, the matching Up event
succeeds and makes it return 0, and after `Reset` followed by any fault-free
sequence of events none of which assigns the cell, it returns 0. -/
theorem GetInput_joypad_reports_last_event (K : Consts) (hK : K.WF) (s : CRetroPlayerInput)
    (c j : Nat) (hc : c < K.ports) (hj : j ≤ 15) (amount : ℚ) :
    (∀ key, ∃ s1 s2,
      ProcessKeyDown K s c key { id := (K.ACTION_JOYPAD_B : Int) + j, amount := amount } = .ok s1 ∧
      GetInput K s1 c K.GAME_DEVICE_JOYPAD 0 j = .ok 1 ∧
      ProcessKeyUp K s1 c key = .ok s2 ∧
      GetInput K s2 c K.GAME_DEVICE_JOYPAD 0 j = .ok 0) ∧
    (∀ buttonID, ∃ s1 s2,
      ProcessButtonDown K s c buttonID { id := (K.ACTION_JOYPAD_B : Int) + j, amount := amount }
        = .ok s1 ∧
      GetInput K s1 c K.GAME_DEVICE_JOYPAD 0 j = .ok 1 ∧
      ProcessButtonUp K s1 c buttonID = .ok s2 ∧
      GetInput K s2 c K.GAME_DEVICE_JOYPAD 0 j = .ok 0) ∧
    (∀ hatID hatDir, ∃ s1 s2,
      ProcessHatDown K s c hatID hatDir { id := (K.ACTION_JOYPAD_B : Int) + j, amount := amount }
        = .ok s1 ∧
      GetInput K s1 c K.GAME_DEVICE_JOYPAD 0 j = .ok 1 ∧
      ProcessHatUp K s1 c hatID hatDir = .ok s2 ∧
      GetInput K s2 c K.GAME_DEVICE_JOYPAD 0 j = .ok 0) ∧
    (∀ es s1, run K (Reset s) es = .ok s1 →
      (c, ((K.ACTION_JOYPAD_B - K.ACTION_GAME_CONTROL_START + j : Nat) : Int)) ∉
        runTargets K (Reset s) es →
      GetInput K s1 c K.GAME_DEVICE_JOYPAD 0 j = .ok 0) := by
  refine ⟨fun key => ?_, fun buttonID => ?_, fun hatID hatDir => ?_, fun es s1 hrun hno => ?_⟩
  · exact down_up_joypad hK s _ amount hc hj
  · exact down_up_joypad hK s _ amount hc hj
  · exact down_up_joypad hK s _ amount hc hj
  · rw [GetInput_joypad hK s1 0 hc hj, run_frame es hrun _ _ hno]
    rfl

/-- Witness for `GetInput_joypad_reports_last_event`: port 0, button 3 bound to
`ACTION_JOYPAD_B + 4`. -/
theorem GetInput_joypad_reports_last_event_witness :
    sampleConsts.WF ∧ 0 < sampleConsts.ports ∧ 4 ≤ 15 ∧
    ∃ s1 s2,
      ProcessButtonDown sampleConsts initial 0 3
        { id := (sampleConsts.ACTION_JOYPAD_B : Int) + (4 : Nat), amount := 0 } = .ok s1 ∧
      GetInput sampleConsts s1 0 sampleConsts.GAME_DEVICE_JOYPAD 0 4 = .ok 1 ∧
      ProcessButtonUp sampleConsts s1 0 3 = .ok s2 ∧
      GetInput sampleConsts s2 0 sampleConsts.GAME_DEVICE_JOYPAD 0 4 = .ok 0 :=
  ⟨by decide, by decide, by decide,
    (GetInput_joypad_reports_last_event sampleConsts (by decide) initial 0 4 (by decide)
      (by decide) 0).2.1 3⟩

/-- C3 (violated by the code): on a valid port `GetInput` reads outside the
state table.  The joypad branch admits every id up to the action id
`ACTION_JOYPAD_R3` and reads column `id + offset`, and the analog branch builds
its offset from the device id `GAME_DEVICE_ID_ANALOG_Y`, which wraps around in
unsigned arithmetic; both columns lie beyond the per-port array. -/
theorem GetInput_reads_outside_table (K : Consts) (hK : K.WF) (s : CRetroPlayerInput) (c : Nat)
    (hc : c < K.ports)
    (hJ : K.ACTION_GAME_CONTROL_END < 2 * K.ACTION_JOYPAD_B + 15)
    (hY : K.GAME_DEVICE_ID_ANALOG_Y < K.ACTION_GAME_CONTROL_START)
    (hR : K.GAME_DEVICE_INDEX_ANALOG_RIGHT ≠ 0) :
    GetInput K s c K.GAME_DEVICE_JOYPAD 0 K.ACTION_JOYPAD_R3 =
      .error (.outOfBounds c
        ((K.ACTION_JOYPAD_R3 + (K.ACTION_JOYPAD_B - K.ACTION_GAME_CONTROL_START) : Nat) : Int)) ∧
    GetInput K s c K.GAME_DEVICE_ANALOG 0 0 =
      .error (.outOfBounds c
        ((2 ^ 32 + K.GAME_DEVICE_ID_ANALOG_Y - K.ACTION_GAME_CONTROL_START : Nat) : Int)) := by
  obtain ⟨_, _, hSB, hR3, hR3E, hE, hW, hmaskJ, hmaskA, hAJ, hAM, hAL⟩ := hK
  constructor
  · have hoff : toU32 ((K.ACTION_JOYPAD_B : Int) - K.ACTION_GAME_CONTROL_START) =
        K.ACTION_JOYPAD_B - K.ACTION_GAME_CONTROL_START := by
      unfold toU32
      omega
    have hcol : (K.ACTION_JOYPAD_R3 + (K.ACTION_JOYPAD_B - K.ACTION_GAME_CONTROL_START)) % 2 ^ 32
        = K.ACTION_JOYPAD_R3 + (K.ACTION_JOYPAD_B - K.ACTION_GAME_CONTROL_START) := by
      omega
    have hout : ¬ inTable K c
        ((K.ACTION_JOYPAD_R3 + (K.ACTION_JOYPAD_B - K.ACTION_GAME_CONTROL_START) : Nat) : Int) := by
      rintro ⟨_, _, h3⟩
      omega
    simp only [GetInput, hc, if_true, hmaskJ, le_refl, hoff, hcol, readCell, hout, if_false]
  · have hoff : toU32 ((K.GAME_DEVICE_ID_ANALOG_Y : Int) - K.ACTION_GAME_CONTROL_START) =
        2 ^ 32 + K.GAME_DEVICE_ID_ANALOG_Y - K.ACTION_GAME_CONTROL_START := by
      unfold toU32
      omega
    have hcol : (0 + (2 ^ 32 + K.GAME_DEVICE_ID_ANALOG_Y - K.ACTION_GAME_CONTROL_START)) % 2 ^ 32
        = 2 ^ 32 + K.GAME_DEVICE_ID_ANALOG_Y - K.ACTION_GAME_CONTROL_START := by
      omega
    have hout : ¬ inTable K c
        ((2 ^ 32 + K.GAME_DEVICE_ID_ANALOG_Y - K.ACTION_GAME_CONTROL_START : Nat) : Int) := by
      rintro ⟨_, _, h3⟩
      omega
    have hR' : ¬ 0 = K.GAME_DEVICE_INDEX_ANALOG_RIGHT := fun e => hR e.symm
    simp only [GetInput, hc, if_true, hmaskA, hAJ, hAM, hAL, if_false, Nat.zero_le, and_self,
      hoff, hR', hcol, readCell, hout]

/-- Witness for `GetInput_reads_outside_table`: port 0 of the concrete
constants, where the two reads go to columns 265 and 4294967047 of a row of
31 cells. -/
theorem GetInput_reads_outside_table_witness :
    sampleConsts.WF ∧ 0 < sampleConsts.ports ∧
    GetInput sampleConsts initial 0 sampleConsts.GAME_DEVICE_JOYPAD 0 sampleConsts.ACTION_JOYPAD_R3 =
      .error (.outOfBounds 0 265) ∧
    GetInput sampleConsts initial 0 sampleConsts.GAME_DEVICE_ANALOG 0 0 =
      .error (.outOfBounds 0 4294967047) :=
  ⟨by decide, by decide,
    GetInput_reads_outside_table sampleConsts (by decide) initial 0 (by decide) (by decide)
      (by decide) (by decide)⟩

theorem ProcessAnalogAxis_undefined {K : Consts} (s : CRetroPlayerInput) (c axisID : Nat)
    {a : CAction} (h : analogValue a.amount = none) :
    ProcessAnalogAxis K s c axisID a = .error .undefinedConversion := by
  simp only [ProcessAnalogAxis, h]

/-- C4 (violated by the code): for the amount 100000 the product
`GAME_ANALOG_MAX * amount` is 3276700000 (3276699904 once rounded to binary32),
which no 32-bit `int` holds, so the cast `(int)` in `ProcessAnalogAxis` has no
defined result and the clamp that follows it never sees the value; the
specified result would be 32767. -/
theorem analogValue_large_amount_undefined :
    analogValue 100000 = none ∧ analogSpec 100000 = 32767 ∧
    ∀ (K : Consts) (s : CRetroPlayerInput) (c axisID : Nat) (id : Int),
      ProcessAnalogAxis K s c axisID { id := id, amount := 100000 } =
        .error .undefinedConversion := by
  have h1 : analogValue 100000 = none := analogValue_100000
  refine ⟨h1, ?_, fun K s c axisID id => ProcessAnalogAxis_undefined s c axisID h1⟩
  have h : ¬ |(100000 : ℚ)| ≤ 1 / 100 := by norm_num [abs_le]
  have h2 : (100000 : ℚ) > 1 / 100 := by norm_num
  have h3 : truncQ (32767 * 100000) = 3276700000 := by
    have : ((32767 : ℚ) * 100000) = ((3276700000 : Int) : ℚ) := by norm_num
    rw [this]
    simp [truncQ]
  rw [analogSpec, if_neg h, if_pos h2, h3]
  decide

/-- The four sample amounts of the specification: inside the dead zone, full
deflection in both directions, and an amount above 1 that the clamp cuts
off. -/
theorem analogValue_samples :
    analogValue (5 / 1000) = some 0 ∧ analogValue 1 = some 32767 ∧
    analogValue (-1) = some (-32768) ∧ analogValue (3 / 2) = some 32767 := by
  refine ⟨?_, analogValue_one, ?_, ?_⟩
  · have h : |(5 / 1000 : ℚ)| ≤ DEAD_ZONE := by norm_num [DEAD_ZONE, abs_le]
    simp only [analogValue, h, if_true]
  · have hp : (-32768 : ℚ) * -(-1) = -32768 := by norm_num
    rw [analogValue_neg (by norm_num [DEAD_ZONE, abs_le]) (by norm_num), hp, roundF32_min]
    have h : (-32768 : ℚ) = ((-32768 : Int) : ℚ) := by norm_num
    rw [h, floatToInt_intCast _ (by norm_num) (by norm_num)]
    rfl
  · have hp : (32767 : ℚ) * (3 / 2) = 98301 / 2 := by norm_num
    rw [analogValue_pos (by norm_num [DEAD_ZONE, abs_le]) (by norm_num), hp, roundF32_half]
    have ht : truncQ (98301 / 2) = 49150 := by
      have h0 : (0 : ℚ) ≤ 98301 / 2 := by norm_num
      simp only [truncQ, h0, if_true]
      rw [Int.floor_eq_iff]
      norm_num
    rw [floatToInt_of_mem (by rw [ht]; norm_num) (by rw [ht]; norm_num), ht]
    rfl

/-- Inside the range of `int` the handler truncates the product as rounded to
binary32, not the exact product: for the amount 32769/65536 the exact product
is 16383.99998, the `float` product is 16384, and the value stored is 16384
where truncation of the exact product gives 16383. -/
theorem analogValue_product_is_rounded :
    analogValue (32769 / 65536) = some 16384 ∧ analogSpec (32769 / 65536) = 16383 := by
  constructor
  · have hp : (32767 : ℚ) * (32769 / 65536) = 1073741823 / 65536 := by norm_num
    rw [analogValue_pos (by norm_num [DEAD_ZONE, abs_le]) (by norm_num), hp, roundF32_up]
    have h : (16384 : ℚ) = ((16384 : Int) : ℚ) := by norm_num
    rw [h, floatToInt_intCast _ (by norm_num) (by norm_num)]
    rfl
  · have h : ¬ |(32769 / 65536 : ℚ)| ≤ 1 / 100 := by norm_num [abs_le]
    have h2 : (32769 / 65536 : ℚ) > 1 / 100 := by norm_num
    have ht : truncQ (32767 * (32769 / 65536)) = 16383 := by
      have h0 : (0 : ℚ) ≤ 32767 * (32769 / 65536) := by norm_num
      simp only [truncQ, h0, if_true]
      rw [Int.floor_eq_iff]
      norm_num
    rw [analogSpec, if_neg h, if_pos h2, ht]
    decide

/-- C5 (violated by the code): with at most `DIGITAL_AXIS_MASK` ports,
`ProcessDigitalAxisDown` on a valid port `c` with an action that translates to
a valid control id `i` assigns `m_joypadState[c + 1000][i]`, a cell outside the
table, instead of `m_joypadState[c][i]`. -/
theorem ProcessDigitalAxisDown_writes_outside_table (K : Consts) (s : CRetroPlayerInput)
    (c buttonID i : Nat) (action : CAction)
    (hports : K.ports ≤ DIGITAL_AXIS_MASK) (hc : c < K.ports) (hi : i < K.width)
    (ha : TranslateActionID K action.id = i) :
    ProcessDigitalAxisDown K s c buttonID action =
      .error (.outOfBounds (c + DIGITAL_AXIS_MASK) i) ∧
    Event.target K s (.digitalAxisDown c buttonID action) = some (c + DIGITAL_AXIS_MASK, (i : Int)) ∧
    ¬ inTable K (c + DIGITAL_AXIS_MASK) i := by
  have hmod : (c + DIGITAL_AXIS_MASK) % 2 ^ 32 = c + DIGITAL_AXIS_MASK := by
    unfold DIGITAL_AXIS_MASK at *
    omega
  have hout : ¬ inTable K (c + DIGITAL_AXIS_MASK) (i : Int) := by
    rintro ⟨h1, _, _⟩
    omega
  have hvalid : (0 : Int) ≤ i ∧ (i : Int) < K.width := ⟨by omega, by exact_mod_cast hi⟩
  refine ⟨?_, ?_, hout⟩
  · simp only [ProcessDigitalAxisDown, ProcessButtonDown, processDown, hmod, ha, hvalid,
      and_self, if_true, writeCell_error _ _ hout]
  · simp only [Event.target, downTarget, hmod, ha, hvalid, and_self, if_true]

/-- Whatever the number of ports, `ProcessDigitalAxisDown` never assigns a cell
of row `controllerID`: when it does not fault, that row is as it was. -/
theorem ProcessDigitalAxisDown_leaves_row (K : Consts) (s s1 : CRetroPlayerInput)
    (c buttonID col : Nat) (action : CAction) (hc : c + DIGITAL_AXIS_MASK < 2 ^ 32)
    (h : ProcessDigitalAxisDown K s c buttonID action = .ok s1) :
    s1.m_joypadState c col = s.m_joypadState c col := by
  have hmod : (c + DIGITAL_AXIS_MASK) % 2 ^ 32 = c + DIGITAL_AXIS_MASK := Nat.mod_eq_of_lt hc
  apply processDown_frame h c col
  unfold downTarget
  simp only [hmod]
  split_ifs
  · intro e
    have h1 := congrArg (fun o => o.map Prod.fst) e
    simp only [Option.map_some'] at h1
    have h2 : c + DIGITAL_AXIS_MASK = c := Option.some.inj h1
    unfold DIGITAL_AXIS_MASK at h2
    omega
  · exact fun e => Option.noConfusion e

/-- Witness for `ProcessDigitalAxisDown_writes_outside_table`: port 0, button
0, action `ACTION_JOYPAD_B`; the assignment goes to row 1000 of 8. -/
theorem ProcessDigitalAxisDown_writes_outside_table_witness :
    ProcessDigitalAxisDown sampleConsts initial 0 0 { id := 250 } =
      .error (.outOfBounds (0 + DIGITAL_AXIS_MASK) (0 : Nat)) ∧
    Event.target sampleConsts initial (.digitalAxisDown 0 0 { id := 250 }) =
      some (0 + DIGITAL_AXIS_MASK, ((0 : Nat) : Int)) ∧
    ¬ inTable sampleConsts (0 + DIGITAL_AXIS_MASK) (0 : Nat) :=
  ProcessDigitalAxisDown_writes_outside_table sampleConsts initial 0 0 0 { id := 250 }
    (by decide) (by decide) (by decide) (by decide)

theorem processDown_find {K : Consts} {s s1 : CRetroPlayerInput} {c : Nat} {item k : DeviceItem}
    {a : CAction} (h : processDown K s c item a = .ok s1) (hne : ¬ item.equiv k = true) :
    mapFind s1.m_deviceItems k = mapFind s.m_deviceItems k := by
  unfold processDown at h
  simp only at h
  split_ifs at h
  · rw [writeCell_items h]
    exact mapFind_mapAssign_of_not_equiv _ _ hne
  · cases h
    rfl

theorem processUp_find {K : Consts} {s s1 : CRetroPlayerInput} {c : Nat} {item k : DeviceItem}
    (h : processUp K s c item = .ok s1) (hne : ¬ item.equiv k = true) :
    mapFind s1.m_deviceItems k = mapFind s.m_deviceItems k := by
  unfold processUp at h
  cases hf : mapFind s.m_deviceItems item with
  | none =>
    rw [hf] at h
    cases h
    rfl
  | some id =>
    rw [hf] at h
    dsimp only at h
    cases hw : writeCell K s c id 0 with
    | error f => rw [hw] at h; cases h
    | ok s2 =>
      rw [hw] at h
      cases h
      show mapFind (mapErase s2.m_deviceItems item) k = _
      rw [writeCell_items hw]
      exact mapFind_mapErase_of_not_equiv _ hne

theorem step_find {K : Consts} {s s1 : CRetroPlayerInput} {e : Event} {k : DeviceItem}
    (h : step K s e = .ok s1) (hne : ¬ e.item.equiv k = true) :
    mapFind s1.m_deviceItems k = mapFind s.m_deviceItems k := by
  cases e with
  | keyDown c key a => exact processDown_find h hne
  | keyUp c key => exact processUp_find h hne
  | buttonDown c b a => exact processDown_find h hne
  | buttonUp c b => exact processUp_find h hne
  | digitalAxisDown c b a => exact processDown_find h hne
  | digitalAxisUp c b => exact processUp_find h hne
  | hatDown c hh d a => exact processDown_find h hne
  | hatUp c hh d => exact processUp_find h hne
  | analogAxis c x a =>
    simp only [step, ProcessAnalogAxis] at h
    cases hv : analogValue a.amount with
    | none => rw [hv] at h; cases h
    | some value =>
      rw [hv] at h
      simp only at h
      by_cases hz : value ≠ 0
      · rw [if_pos hz] at h
        split_ifs at h
        · rw [writeCell_items h]
          exact mapFind_mapAssign_of_not_equiv _ _ hne
        · cases h
          rfl
      · rw [if_neg hz] at h
        exact processUp_find h hne

theorem run_find {K : Consts} {k : DeviceItem} (es : List Event) :
    ∀ {s s1 : CRetroPlayerInput}, run K s es = .ok s1 →
      (∀ e ∈ es, ¬ e.item.equiv k = true) →
      mapFind s1.m_deviceItems k = mapFind s.m_deviceItems k := by
  induction es with
  | nil =>
    intro s s1 h _
    simp only [run] at h
    cases h
    rfl
  | cons e es ih =>
    intro s s1 h hne
    simp only [run] at h
    cases hs : step K s e with
    | error f => rw [hs] at h; cases h
    | ok s2 =>
      rw [hs] at h
      dsimp only at h
      rw [ih h (fun e' he' => hne e' (List.mem_cons_of_mem _ he')),
        step_find hs (hne e (List.mem_cons_self _ _))]

/-- What the lookup table does guarantee: a Down recorded under `item` for
control `i` on a valid port, then any fault-free sequence of events whose
items are all inequivalent to `item` under `operator <`, then the matching Up:
the Up succeeds and leaves cell `[c][i]` at 0. -/
theorem down_up_nets_zero_of_inequivalent (K : Consts) (s s2 : CRetroPlayerInput) (c i : Nat)
    (item : DeviceItem) (a : CAction) (es : List Event)
    (hc : c < K.ports) (hi : i < K.width) (ha : TranslateActionID K a.id = i)
    (hmid : ∀ e ∈ es, ¬ e.item.equiv item = true)
    (hrun : (processDown K s c item a).bind (fun s1 => run K s1 es) = .ok s2) :
    ∃ s3, processUp K s2 c item = .ok s3 ∧ s3.m_joypadState c i = 0 := by
  rw [processDown_ok s item hc hi ha] at hrun
  have hfind := run_find es hrun hmid
  rw [mapFind_mapAssign_self] at hfind
  rw [processUp_ok s2 item hc hi hfind]
  exact ⟨_, rfl, by simp⟩

end RetroPlayerInput

namespace LibretroEnvironment

/-! ## Properties of the environment bridge -/

theorem EnvironmentCallback_of_initialised (fe : Frontend) {s : CLibretroEnvironment}
    {bridge : CClientBridge} (msg : Message) (hf : s.m_frontend = true)
    (hb : s.m_clientBridge = some bridge) :
    EnvironmentCallback fe s msg = dispatch fe s bridge msg := by
  simp only [EnvironmentCallback, hf, hb]

theorem EnvironmentCallback_of_uninitialised (fe : Frontend) {s : CLibretroEnvironment}
    (msg : Message) (h : s.m_frontend = false ∨ s.m_clientBridge = none) :
    EnvironmentCallback fe s msg = .ok { ret := false, state := s } := by
  unfold EnvironmentCallback
  rcases h with h | h
  · rw [h]
  · rw [h]
    cases s.m_frontend <;> rfl

theorem stringQuery_ret {s : CLibretroEnvironment} (data : Bool) (query : Call)
    (answer : Option (List Nat)) (hx : s.m_xbmc = true) :
    ∃ o, stringQuery s data query answer = .ok o ∧ o.ret = true ∧ o.state = s := by
  unfold stringQuery
  cases data
  · exact ⟨_, rfl, rfl, rfl⟩
  · cases answer with
    | none => exact ⟨_, rfl, rfl, rfl⟩
    | some str =>
      simp only [if_true, hx]
      exact ⟨_, rfl, rfl, rfl⟩

/-- C6 (as stated, fails): before `Initialize` the callback returns false for
`SET_ROTATION`, a tag other than `SET_PIXEL_FORMAT` and `SET_SYSTEM_AV_INFO`,
although the frontend would accept everything. -/
theorem EnvironmentCallback_false_before_Initialize :
    ∃ o, EnvironmentCallback acceptingFrontend uninitialised (.SET_ROTATION (some 0)) = .ok o ∧
      o.ret = false ∧
      (Message.SET_ROTATION (some 0)).cmd ≠ .SET_PIXEL_FORMAT ∧
      (Message.SET_ROTATION (some 0)).cmd ≠ .SET_SYSTEM_AV_INFO :=
  ⟨_, rfl, rfl, by decide, by decide⟩

/-- C6 (amended): once the three handles are non-null the callback returns
true for every message whose tag is neither `SET_PIXEL_FORMAT` nor
`SET_SYSTEM_AV_INFO`, whatever the payload and the frontend's answers, tags
without a case label included; while `m_frontend` or `m_clientBridge` is null
it returns false for every message. -/
theorem EnvironmentCallback_ret (fe : Frontend) (s : CLibretroEnvironment) (msg : Message) :
    (s.m_xbmc = true → s.m_frontend = true → s.m_clientBridge ≠ none →
      msg.cmd ≠ .SET_PIXEL_FORMAT → msg.cmd ≠ .SET_SYSTEM_AV_INFO →
      ∃ o, EnvironmentCallback fe s msg = .ok o ∧ o.ret = true) ∧
    (s.m_frontend = false ∨ s.m_clientBridge = none →
      ∃ o, EnvironmentCallback fe s msg = .ok o ∧ o.ret = false) := by
  constructor
  · intro hx hf hb h1 h2
    obtain ⟨bridge, hb⟩ := Option.ne_none_iff_exists'.1 hb
    rw [EnvironmentCallback_of_initialised fe msg hf hb]
    cases msg with
    | SET_PIXEL_FORMAT data => exact absurd rfl h1
    | SET_SYSTEM_AV_INFO data => exact absurd rfl h2
    | GET_SYSTEM_DIRECTORY data =>
      obtain ⟨o, ho, hr, _⟩ := stringQuery_ret data .EnvironmentGetSystemDirectory
        fe.EnvironmentGetSystemDirectory hx
      exact ⟨o, ho, hr⟩
    | GET_LIBRETRO_PATH data =>
      obtain ⟨o, ho, hr, _⟩ := stringQuery_ret data .EnvironmentGetLibretroPath
        fe.EnvironmentGetLibretroPath hx
      exact ⟨o, ho, hr⟩
    | GET_CONTENT_DIRECTORY data =>
      obtain ⟨o, ho, hr, _⟩ := stringQuery_ret data .EnvironmentGetLibretroPath
        fe.EnvironmentGetLibretroPath hx
      exact ⟨o, ho, hr⟩
    | GET_SAVE_DIRECTORY data =>
      obtain ⟨o, ho, hr, _⟩ := stringQuery_ret data .EnvironmentGetLibretroPath
        fe.EnvironmentGetLibretroPath hx
      exact ⟨o, ho, hr⟩
    | SET_MESSAGE data =>
      cases data with
      | none => exact ⟨_, rfl, rfl⟩
      | some typedData =>
        simp only [dispatch, hx, if_true]
        exact ⟨_, rfl, rfl⟩
    | SET_INPUT_DESCRIPTORS data =>
      cases data with
      | none => exact ⟨_, rfl, rfl⟩
      | some typedData =>
        simp only [dispatch]
        split_ifs <;> exact ⟨_, rfl, rfl⟩
    | SET_VARIABLES data =>
      cases data with
      | none => exact ⟨_, rfl, rfl⟩
      | some typedData =>
        simp only [dispatch]
        split_ifs <;> exact ⟨_, rfl, rfl⟩
    | SET_ROTATION data => cases data <;> exact ⟨_, rfl, rfl⟩
    | SET_PERFORMANCE_LEVEL data => cases data <;> exact ⟨_, rfl, rfl⟩
    | SET_KEYBOARD_CALLBACK data => cases data <;> exact ⟨_, rfl, rfl⟩
    | SET_DISK_CONTROL_INTERFACE data => cases data <;> exact ⟨_, rfl, rfl⟩
    | SET_HW_RENDER data => cases data <;> exact ⟨_, rfl, rfl⟩
    | GET_VARIABLE data => cases data <;> exact ⟨_, rfl, rfl⟩
    | SET_SUPPORT_NO_GAME data => cases data <;> exact ⟨_, rfl, rfl⟩
    | SET_AUDIO_CALLBACK data => cases data <;> exact ⟨_, rfl, rfl⟩
    | SET_FRAME_TIME_CALLBACK data => cases data <;> exact ⟨_, rfl, rfl⟩
    | GET_CAMERA_INTERFACE data => cases data <;> exact ⟨_, rfl, rfl⟩
    | GET_OVERSCAN data => cases data <;> exact ⟨_, rfl, rfl⟩
    | GET_CAN_DUPE data => cases data <;> exact ⟨_, rfl, rfl⟩
    | GET_VARIABLE_UPDATE data => cases data <;> exact ⟨_, rfl, rfl⟩
    | GET_RUMBLE_INTERFACE data => cases data <;> exact ⟨_, rfl, rfl⟩
    | GET_INPUT_DEVICE_CAPABILITIES data => cases data <;> exact ⟨_, rfl, rfl⟩
    | GET_SENSOR_INTERFACE data => cases data <;> exact ⟨_, rfl, rfl⟩
    | GET_LOG_INTERFACE data => cases data <;> exact ⟨_, rfl, rfl⟩
    | GET_PERF_INTERFACE data => cases data <;> exact ⟨_, rfl, rfl⟩
    | GET_LOCATION_INTERFACE data => cases data <;> exact ⟨_, rfl, rfl⟩
    | SHUTDOWN data => exact ⟨_, rfl, rfl⟩
    | other cmd data => exact ⟨_, rfl, rfl⟩
  · intro h
    exact ⟨_, EnvironmentCallback_of_uninitialised fe msg h, rfl⟩

/-- Witness for `EnvironmentCallback_ret`: an unrecognised tag on the
initialised bridge, with a frontend that rejects whatever it is asked. -/
theorem EnvironmentCallback_ret_witness :
    initialised.m_xbmc = true ∧ initialised.m_frontend = true ∧
    initialised.m_clientBridge ≠ none ∧
    (Message.other 4711 true).cmd ≠ .SET_PIXEL_FORMAT ∧
    (Message.other 4711 true).cmd ≠ .SET_SYSTEM_AV_INFO ∧
    ∃ o, EnvironmentCallback rejectingFrontend initialised (.other 4711 true) = .ok o ∧
      o.ret = true :=
  ⟨rfl, rfl, by decide, by decide, by decide,
    (EnvironmentCallback_ret rejectingFrontend initialised (.other 4711 true)).1 rfl rfl
      (by decide) (by decide) (by decide)⟩

/-- C7 (as stated, fails): on the initialised bridge `SET_PIXEL_FORMAT` with a
null payload returns false, and so does `SET_SYSTEM_AV_INFO`. -/
theorem null_payload_returns_false :
    (∃ o, EnvironmentCallback acceptingFrontend initialised (.SET_PIXEL_FORMAT none) = .ok o ∧
      o.ret = false) ∧
    (∃ o, EnvironmentCallback acceptingFrontend initialised (.SET_SYSTEM_AV_INFO none) = .ok o ∧
      o.ret = false) ∧
    (Message.SET_PIXEL_FORMAT none).dataIsNull = true ∧
    (Message.SET_SYSTEM_AV_INFO none).dataIsNull = true ∧
    (Message.SET_PIXEL_FORMAT none).cmd.carriesPayload = true ∧
    (Message.SET_SYSTEM_AV_INFO none).cmd.carriesPayload = true :=
  ⟨⟨_, rfl, rfl⟩, ⟨_, rfl, rfl⟩, rfl, rfl, rfl, rfl⟩

/-- C7 (amended): on a bridge whose frontend and client-bridge handles are
non-null, a message whose tag carries a payload and whose payload pointer is
null makes no call, writes nothing, and leaves the whole bridge state (callback
table, frame rate, frame-rate flag) unchanged; it returns false for
`SET_PIXEL_FORMAT` and `SET_SYSTEM_AV_INFO` and true for every other tag. -/
theorem null_payload_is_skipped (fe : Frontend) (s : CLibretroEnvironment) (msg : Message)
    (hf : s.m_frontend = true) (hb : s.m_clientBridge ≠ none)
    (hp : msg.cmd.carriesPayload = true) (hnull : msg.dataIsNull = true) :
    ∃ o, EnvironmentCallback fe s msg = .ok o ∧ o.calls = [] ∧ o.written = none ∧
      o.state = s ∧
      (o.ret = false ↔ msg.cmd = .SET_PIXEL_FORMAT ∨ msg.cmd = .SET_SYSTEM_AV_INFO) := by
  obtain ⟨bridge, hb⟩ := Option.ne_none_iff_exists'.1 hb
  rw [EnvironmentCallback_of_initialised fe msg hf hb]
  cases msg with
  | SHUTDOWN data => exact absurd hp (by simp [Message.cmd, Cmd.carriesPayload])
  | other cmd data => exact absurd hp (by simp [Message.cmd, Cmd.carriesPayload])
  | SET_PIXEL_FORMAT data =>
    cases data with
    | none => exact ⟨_, rfl, rfl, rfl, rfl, by simp [Message.cmd]⟩
    | some v => exact absurd hnull (by simp [Message.dataIsNull])
  | SET_SYSTEM_AV_INFO data =>
    cases data with
    | none => exact ⟨_, rfl, rfl, rfl, rfl, by simp [Message.cmd]⟩
    | some v => exact absurd hnull (by simp [Message.dataIsNull])
  | GET_SYSTEM_DIRECTORY data =>
    cases data with
    | false => exact ⟨_, rfl, rfl, rfl, rfl, by simp [Message.cmd]⟩
    | true => exact absurd hnull (by simp [Message.dataIsNull])
  | GET_LIBRETRO_PATH data =>
    cases data with
    | false => exact ⟨_, rfl, rfl, rfl, rfl, by simp [Message.cmd]⟩
    | true => exact absurd hnull (by simp [Message.dataIsNull])
  | GET_CONTENT_DIRECTORY data =>
    cases data with
    | false => exact ⟨_, rfl, rfl, rfl, rfl, by simp [Message.cmd]⟩
    | true => exact absurd hnull (by simp [Message.dataIsNull])
  | GET_SAVE_DIRECTORY data =>
    cases data with
    | false => exact ⟨_, rfl, rfl, rfl, rfl, by simp [Message.cmd]⟩
    | true => exact absurd hnull (by simp [Message.dataIsNull])
  | SET_MESSAGE data =>
    cases data with
    | none => exact ⟨_, rfl, rfl, rfl, rfl, by simp [Message.cmd]⟩
    | some v => exact absurd hnull (by simp [Message.dataIsNull])
  | SET_INPUT_DESCRIPTORS data =>
    cases data with
    | none => exact ⟨_, rfl, rfl, rfl, rfl, by simp [Message.cmd]⟩
    | some v => exact absurd hnull (by simp [Message.dataIsNull])
  | SET_VARIABLES data =>
    cases data with
    | none => exact ⟨_, rfl, rfl, rfl, rfl, by simp [Message.cmd]⟩
    | some v => exact absurd hnull (by simp [Message.dataIsNull])
  | SET_ROTATION data =>
    cases data with
    | none => exact ⟨_, rfl, rfl, rfl, rfl, by simp [Message.cmd]⟩
    | some v => exact absurd hnull (by simp [Message.dataIsNull])
  | SET_PERFORMANCE_LEVEL data =>
    cases data with
    | none => exact ⟨_, rfl, rfl, rfl, rfl, by simp [Message.cmd]⟩
    | some v => exact absurd hnull (by simp [Message.dataIsNull])
  | SET_KEYBOARD_CALLBACK data =>
    cases data with
    | none => exact ⟨_, rfl, rfl, rfl, rfl, by simp [Message.cmd]⟩
    | some v => exact absurd hnull (by simp [Message.dataIsNull])
  | SET_DISK_CONTROL_INTERFACE data =>
    cases data with
    | none => exact ⟨_, rfl, rfl, rfl, rfl, by simp [Message.cmd]⟩
    | some v => exact absurd hnull (by simp [Message.dataIsNull])
  | SET_HW_RENDER data =>
    cases data with
    | none => exact ⟨_, rfl, rfl, rfl, rfl, by simp [Message.cmd]⟩
    | some v => exact absurd hnull (by simp [Message.dataIsNull])
  | GET_VARIABLE data =>
    cases data with
    | none => exact ⟨_, rfl, rfl, rfl, rfl, by simp [Message.cmd]⟩
    | some v => exact absurd hnull (by simp [Message.dataIsNull])
  | SET_SUPPORT_NO_GAME data =>
    cases data with
    | none => exact ⟨_, rfl, rfl, rfl, rfl, by simp [Message.cmd]⟩
    | some v => exact absurd hnull (by simp [Message.dataIsNull])
  | SET_AUDIO_CALLBACK data =>
    cases data with
    | none => exact ⟨_, rfl, rfl, rfl, rfl, by simp [Message.cmd]⟩
    | some v => exact absurd hnull (by simp [Message.dataIsNull])
  | SET_FRAME_TIME_CALLBACK data =>
    cases data with
    | none => exact ⟨_, rfl, rfl, rfl, rfl, by simp [Message.cmd]⟩
    | some v => exact absurd hnull (by simp [Message.dataIsNull])
  | GET_CAMERA_INTERFACE data =>
    cases data with
    | none => exact ⟨_, rfl, rfl, rfl, rfl, by simp [Message.cmd]⟩
    | some v => exact absurd hnull (by simp [Message.dataIsNull])
  | GET_OVERSCAN data =>
    cases data with
    | false => exact ⟨_, rfl, rfl, rfl, rfl, by simp [Message.cmd]⟩
    | true => exact absurd hnull (by simp [Message.dataIsNull])
  | GET_CAN_DUPE data =>
    cases data with
    | false => exact ⟨_, rfl, rfl, rfl, rfl, by simp [Message.cmd]⟩
    | true => exact absurd hnull (by simp [Message.dataIsNull])
  | GET_VARIABLE_UPDATE data =>
    cases data with
    | false => exact ⟨_, rfl, rfl, rfl, rfl, by simp [Message.cmd]⟩
    | true => exact absurd hnull (by simp [Message.dataIsNull])
  | GET_RUMBLE_INTERFACE data =>
    cases data with
    | false => exact ⟨_, rfl, rfl, rfl, rfl, by simp [Message.cmd]⟩
    | true => exact absurd hnull (by simp [Message.dataIsNull])
  | GET_INPUT_DEVICE_CAPABILITIES data =>
    cases data with
    | false => exact ⟨_, rfl, rfl, rfl, rfl, by simp [Message.cmd]⟩
    | true => exact absurd hnull (by simp [Message.dataIsNull])
  | GET_SENSOR_INTERFACE data =>
    cases data with
    | false => exact ⟨_, rfl, rfl, rfl, rfl, by simp [Message.cmd]⟩
    | true => exact absurd hnull (by simp [Message.dataIsNull])
  | GET_LOG_INTERFACE data =>
    cases data with
    | false => exact ⟨_, rfl, rfl, rfl, rfl, by simp [Message.cmd]⟩
    | true => exact absurd hnull (by simp [Message.dataIsNull])
  | GET_PERF_INTERFACE data =>
    cases data with
    | false => exact ⟨_, rfl, rfl, rfl, rfl, by simp [Message.cmd]⟩
    | true => exact absurd hnull (by simp [Message.dataIsNull])
  | GET_LOCATION_INTERFACE data =>
    cases data with
    | false => exact ⟨_, rfl, rfl, rfl, rfl, by simp [Message.cmd]⟩
    | true => exact absurd hnull (by simp [Message.dataIsNull])

/-- Witness for `null_payload_is_skipped`: `SET_KEYBOARD_CALLBACK` with a null
payload on the initialised bridge. -/
theorem null_payload_is_skipped_witness :
    initialised.m_frontend = true ∧ initialised.m_clientBridge ≠ none ∧
    (Message.SET_KEYBOARD_CALLBACK none).cmd.carriesPayload = true ∧
    (Message.SET_KEYBOARD_CALLBACK none).dataIsNull = true ∧
    ∃ o, EnvironmentCallback rejectingFrontend initialised (.SET_KEYBOARD_CALLBACK none) = .ok o ∧
      o.calls = [] ∧ o.written = none ∧ o.state = initialised ∧
      (o.ret = false ↔
        (Message.SET_KEYBOARD_CALLBACK none).cmd = .SET_PIXEL_FORMAT ∨
        (Message.SET_KEYBOARD_CALLBACK none).cmd = .SET_SYSTEM_AV_INFO) :=
  ⟨rfl, by decide, rfl, rfl,
    null_payload_is_skipped rejectingFrontend initialised (.SET_KEYBOARD_CALLBACK none) rfl
      (by decide) rfl rfl⟩

/-- The struct translation of `SET_SYSTEM_AV_INFO`, field by field. -/
theorem translate_av_info (typedData : retro_system_av_info) :
    ({ geometry :=
        { base_width := typedData.geometry.base_width
          base_height := typedData.geometry.base_height
          max_width := typedData.geometry.max_width
          max_height := typedData.geometry.max_height
          aspect_ratio := typedData.geometry.aspect_ratio },
       timing :=
        { fps := typedData.timing.fps, sample_rate := typedData.timing.sample_rate } } :
      game_system_av_info) = { geometry := typedData.geometry, timing := typedData.timing } :=
  rfl

/-- C8: for `SET_SYSTEM_AV_INFO` with a non-null payload on a bridge whose
frontend and client-bridge handles are non-null, the frontend is handed the
translated info; if it rejects, the callback returns false and leaves `m_fps`
and `m_bFramerateKnown` as they were; if it accepts, the callback returns true,
`m_fps` is the payload's `timing.fps` and `m_bFramerateKnown` is set. -/
theorem SET_SYSTEM_AV_INFO_updates_frame_rate (fe : Frontend) (s : CLibretroEnvironment)
    (typedData : retro_system_av_info)
    (hf : s.m_frontend = true) (hb : s.m_clientBridge ≠ none) :
    (fe.EnvironmentSetSystemAvInfo
        { geometry := typedData.geometry, timing := typedData.timing } = false →
      ∃ o, EnvironmentCallback fe s (.SET_SYSTEM_AV_INFO (some typedData)) = .ok o ∧
        o.calls = [.EnvironmentSetSystemAvInfo
                    { geometry := typedData.geometry, timing := typedData.timing }] ∧
        o.ret = false ∧ o.state.m_fps = s.m_fps ∧
        o.state.m_bFramerateKnown = s.m_bFramerateKnown) ∧
    (fe.EnvironmentSetSystemAvInfo
        { geometry := typedData.geometry, timing := typedData.timing } = true →
      ∃ o, EnvironmentCallback fe s (.SET_SYSTEM_AV_INFO (some typedData)) = .ok o ∧
        o.calls = [.EnvironmentSetSystemAvInfo
                    { geometry := typedData.geometry, timing := typedData.timing }] ∧
        o.ret = true ∧ o.state.m_fps = typedData.timing.fps ∧
        o.state.m_bFramerateKnown = true) := by
  obtain ⟨bridge, hb⟩ := Option.ne_none_iff_exists'.1 hb
  rw [EnvironmentCallback_of_initialised fe _ hf hb]
  constructor
  · intro h
    simp only [dispatch, translate_av_info, h, Bool.not_false, if_true]
    exact ⟨_, rfl, rfl, rfl, rfl, rfl⟩
  · intro h
    simp only [dispatch, translate_av_info, h, Bool.not_true, Bool.false_eq_true, if_false]
    exact ⟨_, rfl, rfl, rfl, rfl, rfl⟩

/-- Witness for `SET_SYSTEM_AV_INFO_updates_frame_rate`: the sample AV info on
the initialised bridge, once rejected and once accepted. -/
theorem SET_SYSTEM_AV_INFO_updates_frame_rate_witness :
    initialised.m_frontend = true ∧ initialised.m_clientBridge ≠ none ∧
    (∃ o, EnvironmentCallback rejectingFrontend initialised
        (.SET_SYSTEM_AV_INFO (some sampleAvInfo)) = .ok o ∧
      o.calls = [.EnvironmentSetSystemAvInfo
                  { geometry := sampleAvInfo.geometry, timing := sampleAvInfo.timing }] ∧
      o.ret = false ∧ o.state.m_fps = initialised.m_fps ∧
      o.state.m_bFramerateKnown = initialised.m_bFramerateKnown) ∧
    (∃ o, EnvironmentCallback acceptingFrontend initialised
        (.SET_SYSTEM_AV_INFO (some sampleAvInfo)) = .ok o ∧
      o.calls = [.EnvironmentSetSystemAvInfo
                  { geometry := sampleAvInfo.geometry, timing := sampleAvInfo.timing }] ∧
      o.ret = true ∧ o.state.m_fps = sampleAvInfo.timing.fps ∧
      o.state.m_bFramerateKnown = true) :=
  ⟨rfl, by decide,
    (SET_SYSTEM_AV_INFO_updates_frame_rate rejectingFrontend initialised sampleAvInfo rfl
      (by decide)).1 rfl,
    (SET_SYSTEM_AV_INFO_updates_frame_rate acceptingFrontend initialised sampleAvInfo rfl
      (by decide)).2 rfl⟩

theorem translateDescriptors_cons (first : retro_input_descriptor)
    (rest : List retro_input_descriptor) (count : Nat) :
    translateDescriptors (first :: rest) count =
      List.replicate count
        { port := first.port, device := first.device, index := first.index, id := first.id,
          description := first.description } := by
  simp [translateDescriptors]

/-- C9 (violated by the code): for a core array whose first descriptor has a
description, the frontend receives the right count, but every element of the
translated array is a copy of the first descriptor: the loop reads
`typedData->port` and so on instead of `typedData[i].port`. -/
theorem SET_INPUT_DESCRIPTORS_repeats_first (fe : Frontend) (s : CLibretroEnvironment)
    (first : retro_input_descriptor) (rest : List retro_input_descriptor)
    (hf : s.m_frontend = true) (hb : s.m_clientBridge ≠ none)
    (hd : first.description.isSome = true) :
    ∃ o, EnvironmentCallback fe s (.SET_INPUT_DESCRIPTORS (some (first :: rest))) = .ok o ∧
      o.calls = [.EnvironmentSetInputDescriptors
        (List.replicate (countDescriptors (first :: rest))
          { port := first.port, device := first.device, index := first.index, id := first.id,
            description := first.description })
        (countDescriptors (first :: rest))] := by
  obtain ⟨bridge, hb⟩ := Option.ne_none_iff_exists'.1 hb
  rw [EnvironmentCallback_of_initialised fe _ hf hb]
  have hc : countDescriptors (first :: rest) ≠ 0 := by
    simp [countDescriptors, hd]
  simp only [dispatch, ne_eq, hc, not_false_eq_true, if_true, translateDescriptors_cons]
  exact ⟨_, rfl, rfl⟩

/-- Witness for `SET_INPUT_DESCRIPTORS_repeats_first`: of the two sample
descriptors the frontend receives the first one twice; the translation of the
second, with id 8 and description "A", is not in the array. -/
theorem SET_INPUT_DESCRIPTORS_repeats_first_witness :
    initialised.m_frontend = true ∧ initialised.m_clientBridge ≠ none ∧
    (∃ o, EnvironmentCallback acceptingFrontend initialised
        (.SET_INPUT_DESCRIPTORS (some sampleDescriptors)) = .ok o ∧
      o.calls = [.EnvironmentSetInputDescriptors
        [ { port := 0, device := 1, index := 0, id := 0, description := some "B" },
          { port := 0, device := 1, index := 0, id := 0, description := some "B" } ] 2]) ∧
    ({ port := 0, device := 1, index := 0, id := 8, description := some "A" } :
        game_input_descriptor) ≠
      { port := 0, device := 1, index := 0, id := 0, description := some "B" } :=
  ⟨rfl, by decide,
    SET_INPUT_DESCRIPTORS_repeats_first acceptingFrontend initialised
      { port := 0, device := 1, index := 0, id := 0, description := some "B" }
      [ { port := 0, device := 1, index := 0, id := 8, description := some "A" },
        { port := 0, device := 0, index := 0, id := 0, description := none } ]
      rfl (by decide) rfl,
    by decide⟩

theorem takeWhile_nonzero {str : List Nat} (h : ∀ b ∈ str, b ≠ 0) :
    str.takeWhile (fun b => decide (b ≠ 0)) = str := by
  rw [List.takeWhile_eq_self_iff]
  intro b hb
  simpa using h b hb

theorem strncpy_full {str : List Nat} (h : ∀ b ∈ str, b ≠ 0) (hlen : BUFFER_SIZE ≤ str.length) :
    strncpy (memsetZero BUFFER_SIZE) str BUFFER_SIZE = str.take BUFFER_SIZE := by
  unfold strncpy
  simp only [takeWhile_nonzero h, memsetZero]
  rw [Nat.sub_eq_zero_of_le hlen, List.drop_eq_nil_of_le (by simp)]
  simp

theorem strncpy_fits {str : List Nat} (h : ∀ b ∈ str, b ≠ 0) (hlen : str.length < BUFFER_SIZE) :
    strncpy (memsetZero BUFFER_SIZE) str BUFFER_SIZE =
      str ++ List.replicate (BUFFER_SIZE - str.length) 0 := by
  unfold strncpy
  simp only [takeWhile_nonzero h, memsetZero]
  rw [List.drop_eq_nil_of_le (by simp), List.take_of_length_le (le_of_lt hlen)]
  simp

theorem stringQuery_full {s : CLibretroEnvironment} (query : Call) {str : List Nat}
    (hx : s.m_xbmc = true) (h : ∀ b ∈ str, b ≠ 0) (hlen : BUFFER_SIZE ≤ str.length) :
    ∃ o buffer, stringQuery s true query (some str) = .ok o ∧
      o.written = some (.string (some buffer)) ∧ buffer = str.take BUFFER_SIZE ∧
      buffer.length = BUFFER_SIZE ∧ 0 ∉ buffer ∧ readCString buffer = none := by
  have hnot : 0 ∉ str.take BUFFER_SIZE := fun hmem => h 0 (List.mem_of_mem_take hmem) rfl
  refine ⟨{ ret := true, state := s, calls := [query, .FreeString str],
            written := some (.string (some (str.take BUFFER_SIZE))) },
    str.take BUFFER_SIZE, ?_, rfl, rfl, ?_, hnot, ?_⟩
  · simp only [stringQuery, if_true, hx, strncpy_full h hlen]
  · rw [List.length_take]
    exact Nat.min_eq_left hlen
  · simp only [readCString, hnot, if_false]

/-- C10 (violated by the code): when the frontend returns a string of
`BUFFER_SIZE` or more bytes, each of the four string queries hands the core a
buffer of `BUFFER_SIZE` bytes that holds the first `BUFFER_SIZE` bytes of the
string and no NUL byte: `strncpy` is given the full size of the buffer, so
nothing of the preceding `memset` survives and the string is not terminated
inside the buffer. -/
theorem string_query_buffer_unterminated (fe : Frontend) (s : CLibretroEnvironment)
    (msg : Message) (str : List Nat)
    (hx : s.m_xbmc = true) (hf : s.m_frontend = true) (hb : s.m_clientBridge ≠ none)
    (hmsg : (msg = .GET_SYSTEM_DIRECTORY true ∧ fe.EnvironmentGetSystemDirectory = some str) ∨
      ((msg = .GET_LIBRETRO_PATH true ∨ msg = .GET_CONTENT_DIRECTORY true ∨
          msg = .GET_SAVE_DIRECTORY true) ∧ fe.EnvironmentGetLibretroPath = some str))
    (hstr : ∀ b ∈ str, b ≠ 0) (hlen : BUFFER_SIZE ≤ str.length) :
    ∃ o buffer, EnvironmentCallback fe s msg = .ok o ∧
      o.written = some (.string (some buffer)) ∧ buffer = str.take BUFFER_SIZE ∧
      buffer.length = BUFFER_SIZE ∧ 0 ∉ buffer ∧ readCString buffer = none := by
  obtain ⟨bridge, hb⟩ := Option.ne_none_iff_exists'.1 hb
  rw [EnvironmentCallback_of_initialised fe _ hf hb]
  rcases hmsg with ⟨rfl, ha⟩ | ⟨rfl | rfl | rfl, ha⟩
  · simp only [dispatch, ha]
    exact stringQuery_full _ hx hstr hlen
  · simp only [dispatch, ha]
    exact stringQuery_full _ hx hstr hlen
  · simp only [dispatch, ha]
    exact stringQuery_full _ hx hstr hlen
  · simp only [dispatch, ha]
    exact stringQuery_full _ hx hstr hlen

/-- Witness for `string_query_buffer_unterminated`: a system directory of
exactly `BUFFER_SIZE` slashes. -/
theorem string_query_buffer_unterminated_witness :
    initialised.m_xbmc = true ∧ initialised.m_frontend = true ∧
    initialised.m_clientBridge ≠ none ∧
    BUFFER_SIZE ≤ (List.replicate BUFFER_SIZE 47).length ∧
    ∃ o buffer, EnvironmentCallback longPathFrontend initialised (.GET_SYSTEM_DIRECTORY true)
        = .ok o ∧
      o.written = some (.string (some buffer)) ∧
      buffer = (List.replicate BUFFER_SIZE 47).take BUFFER_SIZE ∧
      buffer.length = BUFFER_SIZE ∧ 0 ∉ buffer ∧ readCString buffer = none :=
  ⟨rfl, rfl, by decide, le_of_eq (List.length_replicate _ _).symm,
    string_query_buffer_unterminated longPathFrontend initialised (.GET_SYSTEM_DIRECTORY true)
      (List.replicate BUFFER_SIZE 47) rfl rfl (by decide) (Or.inl ⟨rfl, rfl⟩)
      (fun b hb => by rw [List.eq_of_mem_replicate hb]; decide)
      (le_of_eq (List.length_replicate _ _).symm)⟩

/-- The remaining parts of the string-query contract hold: a string shorter
than the buffer arrives complete and terminated, the frontend's allocation is
freed exactly once, and a null string is passed on as `NULL` without a free. -/
theorem string_query_short_or_null (s : CLibretroEnvironment) (query : Call)
    (hx : s.m_xbmc = true) :
    (∀ str : List Nat, (∀ b ∈ str, b ≠ 0) → str.length < BUFFER_SIZE →
      ∃ o buffer, stringQuery s true query (some str) = .ok o ∧
        o.written = some (.string (some buffer)) ∧ buffer.length = BUFFER_SIZE ∧
        readCString buffer = some str ∧ o.calls = [query, .FreeString str]) ∧
    (∃ o, stringQuery s true query none = .ok o ∧ o.written = some (.string none) ∧
      o.calls = [query]) := by
  constructor
  · intro str hstr hlen
    refine ⟨{ ret := true, state := s, calls := [query, .FreeString str],
              written := some (.string (some (str ++ List.replicate (BUFFER_SIZE - str.length) 0))) },
      str ++ List.replicate (BUFFER_SIZE - str.length) 0, ?_, rfl, ?_, ?_, rfl⟩
    · simp only [stringQuery, if_true, hx, strncpy_fits hstr hlen]
    · rw [List.length_append, List.length_replicate]
      omega
    · have hpos : 0 < BUFFER_SIZE - str.length := by omega
      have hmem : 0 ∈ str ++ List.replicate (BUFFER_SIZE - str.length) 0 := by
        rw [List.mem_append]
        right
        exact List.mem_replicate.2 ⟨by omega, rfl⟩
      obtain ⟨k, hk⟩ : ∃ k, BUFFER_SIZE - str.length = k + 1 := ⟨_, (Nat.succ_pred_eq_of_pos hpos).symm⟩
      simp only [readCString, hmem, if_true]
      rw [hk, List.replicate_succ, List.takeWhile_append_of_pos (by simpa using hstr)]
      simp
  · exact ⟨_, rfl, rfl, rfl⟩

end LibretroEnvironment

namespace GameClient

/-! ## Lemmas on session computations -/

theorem run_bind {α β : Type} (x : Exec α) (f : α → Exec β) (m : Machine) :
    (x >>= f) m =
      match x m with
      | (.normal a, m1) => f a m1
      | (.exception, m1) => (.exception, m1) := rfl

theorem run_pure {α : Type} (a : α) (m : Machine) : (pure a : Exec α) m = (.normal a, m) := rfl

theorem run_getClient (m : Machine) : getClient m = (.normal m.client, m) := rfl

theorem run_modifyClient (f : CGameClient → CGameClient) (m : Machine) :
    modifyClient f m = (.normal (), { m with client := f m.client }) := rfl

theorem run_record (c : Call) (m : Machine) :
    record c m = (.normal (), { m with trace := m.trace ++ [c] }) := rfl

theorem run_attempt_call {α : Type} (c : Call) (r : CoreResult α) (m : Machine) :
    attempt (call c r) m =
      (.normal (match r with | .returns v => some v | .raises => none),
        { m with trace := m.trace ++ [c] }) := by
  cases r <;> rfl

theorem CloseFile_run (env : Env) (m : Machine) :
    CloseFile env m =
      (.normal (),
        { client := { m.client with m_bIsPlaying := false, m_filePath := "", m_player := none },
          trace := if m.client.m_bReadyToUse = true ∧ m.client.m_bIsPlaying = true
                   then m.trace ++ [.UnloadGame] else m.trace }) := by
  unfold CloseFile
  simp only [run_bind, run_getClient]
  by_cases h : m.client.m_bReadyToUse = true ∧ m.client.m_bIsPlaying = true
  · simp [h, run_bind, run_pure, run_attempt_call, run_modifyClient]
  · simp [h, run_bind, run_pure, run_modifyClient]

end GameClient

namespace GameClient

theorem SetDevice_run (K : Consts) (env : Env) (port device : Nat) (m : Machine) :
    SetDevice K env port device m =
      (.normal (),
        { m with trace :=
            if m.client.m_bIsPlaying = true ∧ port < K.GAMECLIENT_MAX_PLAYERS ∧
                (device ≤ K.GAME_DEVICE_ANALOG ∨
                  device = K.GAME_DEVICE_JOYPAD_MULTITAP ∨
                  device = K.GAME_DEVICE_LIGHTGUN_SUPER_SCOPE ∨
                  device = K.GAME_DEVICE_LIGHTGUN_JUSTIFIER ∨
                  device = K.GAME_DEVICE_LIGHTGUN_JUSTIFIERS)
            then m.trace ++ [.SetControllerPortDevice port device] else m.trace }) := by
  unfold SetDevice
  simp only [run_bind, run_getClient]
  by_cases h1 : m.client.m_bIsPlaying = true
  · by_cases h2 : port < K.GAMECLIENT_MAX_PLAYERS
    · by_cases h3 : device ≤ K.GAME_DEVICE_ANALOG ∨
          device = K.GAME_DEVICE_JOYPAD_MULTITAP ∨
          device = K.GAME_DEVICE_LIGHTGUN_SUPER_SCOPE ∨
          device = K.GAME_DEVICE_LIGHTGUN_JUSTIFIER ∨
          device = K.GAME_DEVICE_LIGHTGUN_JUSTIFIERS
      · simp [h1, h2, h3, run_bind, run_pure, run_attempt_call]
      · simp [h1, h2, h3, run_pure]
    · simp [h1, h2, run_pure]
  · simp [h1, run_pure]

theorem RewindFrames_run (env : Env) (frames : Nat) (m : Machine) :
    RewindFrames env frames m =
      if m.client.m_bIsPlaying = true ∧ m.client.m_bRewindEnabled = true then
        (.normal (env.RewindFrames frames),
          { m with trace :=
              if env.RewindFrames frames ≠ 0
              then m.trace ++ [.bufferRewindFrames frames, .Deserialize .GetState]
              else m.trace ++ [.bufferRewindFrames frames] })
      else (.normal 0, m) := by
  unfold RewindFrames
  simp only [run_bind, run_getClient]
  by_cases h : m.client.m_bIsPlaying = true ∧ m.client.m_bRewindEnabled = true
  · by_cases h0 : env.RewindFrames frames = 0
    · simp [h, h0, run_bind, run_pure, run_record]
    · simp [h, h0, run_bind, run_pure, run_record, run_attempt_call]
  · simp [h, run_bind, run_pure]

theorem RunFrame_run (env : Env) (m : Machine) :
    RunFrame env m =
      if m.client.m_bIsPlaying = true then
        if env.Run = .returns .GAME_ERROR_NO_ERROR then
          if m.client.m_bRewindEnabled = true then
            if env.Serialize = .returns .GAME_ERROR_NO_ERROR then
              (.normal true,
                { m with trace := m.trace ++
                    [.Run, .Serialize .GetNextState, .bufferAdvanceFrame] })
            else
              (.normal false,
                { client := { m.client with m_bRewindEnabled := false },
                  trace := m.trace ++ [.Run, .Serialize .GetNextState] })
          else (.normal true, { m with trace := m.trace ++ [.Run] })
        else (.normal false, { m with trace := m.trace ++ [.Run] })
      else (.normal false, m) := by
  unfold RunFrame
  simp only [run_bind, run_getClient]
  by_cases h1 : m.client.m_bIsPlaying = true
  · rcases hr : env.Run with e | _
    · cases e <;>
      by_cases h2 : m.client.m_bRewindEnabled = true <;>
      rcases hs : env.Serialize with e2 | _ <;>
      first
        | (cases e2 <;>
            simp [h1, h2, hr, hs, run_bind, run_pure, run_record, run_attempt_call,
              run_modifyClient, run_getClient])
        | simp [h1, h2, hr, hs, run_bind, run_pure, run_record, run_attempt_call,
            run_modifyClient, run_getClient]
    · simp [h1, hr, run_bind, run_pure, run_attempt_call]
  · simp [h1, run_pure]

end GameClient

namespace GameClient

theorem Reset_run (env : Env) (m : Machine) :
    Reset env m =
      if m.client.m_bIsPlaying = true then
        if m.client.m_bRewindEnabled = true then
          if env.Serialize = .returns .GAME_ERROR_NO_ERROR then
            (.normal (),
              { m with trace := m.trace ++ [.Reset, .bufferReInit, .Serialize .GetNextState] })
          else
            (.normal (),
              { client := { m.client with m_bRewindEnabled := false },
                trace := m.trace ++ [.Reset, .bufferReInit, .Serialize .GetNextState] })
        else (.normal (), { m with trace := m.trace ++ [.Reset] })
      else (.normal (), m) := by
  unfold Reset
  simp only [run_bind, run_getClient]
  by_cases h1 : m.client.m_bIsPlaying = true
  · by_cases h2 : m.client.m_bRewindEnabled = true
    · rcases hs : env.Serialize with e2 | _
      · cases e2 <;>
          simp [h1, h2, hs, run_bind, run_pure, run_record, run_attempt_call,
            run_modifyClient, run_getClient]
      · simp [h1, h2, hs, run_bind, run_pure, run_record, run_attempt_call,
          run_modifyClient, run_getClient]
    · simp [h1, h2, run_bind, run_pure, run_record, run_attempt_call,
          run_modifyClient, run_getClient]
  · simp [h1, run_pure]

theorem SetFrameRateCorrection_run (correctionFactor : ℚ) (m : Machine) :
    SetFrameRateCorrection correctionFactor m =
      (.normal (),
        { client := if correctionFactor ≠ 0
                    then { m.client with m_frameRateCorrection := correctionFactor }
                    else m.client,
          trace := if m.client.m_bRewindEnabled = true
                   then m.trace ++ [.bufferSetMaxFrames] else m.trace }) := by
  unfold SetFrameRateCorrection
  by_cases h1 : correctionFactor = 0 <;> by_cases h2 : m.client.m_bRewindEnabled = true <;>
    simp [h1, h2, run_bind, run_pure, run_record, run_modifyClient, run_getClient]

theorem LoadGameInfo_spec (env : Env) (m : Machine) :
    ∃ b m1, LoadGameInfo env m = (.normal b, m1) ∧
      (b = false → m1.client = m.client) ∧
      (env.GetSystemAVInfo = .raises → b = false) ∧
      (env.GetRegion = .raises → b = false) ∧
      m1.client = { m.client with
        m_frameRate := m1.client.m_frameRate, m_sampleRate := m1.client.m_sampleRate,
        m_region := m1.client.m_region } := by
  unfold LoadGameInfo
  rcases h1 : env.GetSystemAVInfo with ⟨e, fps, sr⟩ | _
  · rcases h2 : env.GetRegion with r | _ <;> cases e <;>
      simp [h1, h2, run_bind, run_pure, run_attempt_call, run_modifyClient]
  · simp [h1, run_bind, run_pure, run_attempt_call, run_modifyClient]

end GameClient

namespace GameClient

theorem InitSerialization_run (env : Env) (m : Machine) :
    InitSerialization env m =
      match env.SerializeSize with
      | .raises => (.normal false, { m with trace := m.trace ++ [.SerializeSize] })
      | .returns serializeSize =>
        if serializeSize = 0 then
          (.normal false, { m with trace := m.trace ++ [.SerializeSize] })
        else if env.enablerewind = true then
          if env.Serialize = .returns .GAME_ERROR_NO_ERROR then
            (.normal true,
              { client := { m.client with
                  m_serializeSize := serializeSize, m_bRewindEnabled := true },
                trace := m.trace ++
                  [.SerializeSize, .bufferInit serializeSize, .Serialize .GetState] })
          else
            (.normal false,
              { client := { m.client with m_serializeSize := 0, m_bRewindEnabled := false },
                trace := m.trace ++
                  [.SerializeSize, .bufferInit serializeSize, .Serialize .GetState,
                    .bufferReset] })
        else
          (.normal true,
            { client := { m.client with
                m_serializeSize := serializeSize, m_bRewindEnabled := false },
              trace := m.trace ++ [.SerializeSize] }) := by
  unfold InitSerialization
  rcases h1 : env.SerializeSize with sz | _
  · by_cases h0 : sz = 0
    · simp [h1, h0, run_bind, run_pure, run_attempt_call]
    · by_cases h2 : env.enablerewind = true
      · rcases hs : env.Serialize with e2 | _
        · cases e2 <;>
            simp [h1, h0, h2, hs, run_bind, run_pure, run_record, run_attempt_call,
              run_modifyClient, run_getClient]
        · simp [h1, h0, h2, hs, run_bind, run_pure, run_record, run_attempt_call,
            run_modifyClient, run_getClient]
      · simp [h1, h0, h2, run_bind, run_pure, run_record, run_attempt_call,
            run_modifyClient, run_getClient]
  · simp [h1, run_bind, run_pure, run_attempt_call]

theorem InitSerialization_spec (env : Env) (m : Machine) :
    ∃ b m1, InitSerialization env m = (.normal b, m1) ∧
      m1.client = { m.client with
        m_serializeSize := m1.client.m_serializeSize,
        m_bRewindEnabled := m1.client.m_bRewindEnabled } := by
  rw [InitSerialization_run]
  rcases env.SerializeSize with sz | _
  · by_cases h0 : sz = 0
    · simp [h0]
    · by_cases h2 : env.enablerewind = true
      · by_cases hs : env.Serialize = .returns .GAME_ERROR_NO_ERROR <;> simp [h0, h2, hs]
      · simp [h0, h2]
  · simp

theorem OpenInternal_spec (env : Env) (file : CFileItem) (m : Machine) :
    ∃ b m1, OpenInternal env file m = (.normal b, m1) ∧
      (b = false → m1.client = m.client) ∧
      (b = true → m1.client.m_bIsPlaying = true ∧
        m1.client.m_filePath = env.translatedUrl file ∧
        m1.client.m_bReadyToUse = m.client.m_bReadyToUse ∧
        m1.client.m_player = m.client.m_player ∧
        m1.client.m_bRewindEnabled = m.client.m_bRewindEnabled ∧
        m1.client.id = m.client.id) ∧
      (env.LoadGame (env.translatedUrl file) = .raises → b = false) ∧
      (env.GetSystemAVInfo = .raises → b = false) ∧
      (env.GetRegion = .raises → b = false) := by
  unfold OpenInternal LoadGameInfo
  rcases h0 : env.LoadGame (env.translatedUrl file) with e0 | _
  · by_cases he0 : e0 = .GAME_ERROR_NO_ERROR
    · subst he0
      rcases h1 : env.GetSystemAVInfo with ⟨e, fps, sr⟩ | _
      · by_cases he : e = .GAME_ERROR_NO_ERROR
        · subst he
          rcases h2 : env.GetRegion with r | _ <;>
            simp [h0, h1, h2, run_bind, run_pure, run_attempt_call, run_modifyClient]
        · simp [h0, h1, he, run_bind, run_pure, run_attempt_call, run_modifyClient]
      · simp [h0, h1, run_bind, run_pure, run_attempt_call, run_modifyClient]
    · simp [h0, he0, run_bind, run_pure, run_attempt_call, run_modifyClient]
  · simp [h0, run_bind, run_pure, run_attempt_call, run_modifyClient]

end GameClient

namespace GameClient

theorem OpenFile_entry_fail (K : Consts) (env : Env) (file : CFileItem) (player : Option Nat)
    (m : Machine)
    (h : m.client.m_bReadyToUse = false ∨ ∃ g, file.gameclient = some g ∧ g ≠ m.client.id) :
    OpenFile K env file player m = (.normal false, m) := by
  unfold OpenFile
  rcases h with h | ⟨g, hg, hne⟩
  · simp [h, run_bind, run_pure, run_getClient]
  · by_cases hr : m.client.m_bReadyToUse = true
    · simp [hr, hg, hne, run_bind, run_pure, run_getClient]
    · simp [hr, run_bind, run_pure, run_getClient]

theorem OpenFile_spec (K : Consts) (env : Env) (file : CFileItem) (player : Option Nat)
    (m : Machine) (hready : m.client.m_bReadyToUse = true)
    (hprop : file.gameclient = none ∨ file.gameclient = some m.client.id) :
    ∃ b m1, OpenFile K env file player m = (.normal b, m1) ∧
      (b = false → m1.client =
        { m.client with m_bIsPlaying := false, m_filePath := "", m_player := none }) ∧
      (b = true → m1.client.m_bIsPlaying = true ∧
        m1.client.m_filePath = env.translatedUrl file ∧ m1.client.m_player = player ∧
        m1.client.m_bReadyToUse = true) ∧
      (env.LoadGame (env.translatedUrl file) = .raises → b = false) ∧
      (env.GetSystemAVInfo = .raises → b = false) ∧
      (env.GetRegion = .raises → b = false) := by
  have hcheck : (file.gameclient.isSome && decide (file.gameclient ≠ some m.client.id)) = false := by
    rcases hprop with h | h <;> simp [h]
  rcases hC : CloseFile env m with ⟨c1, m1⟩
  have hC1 := CloseFile_run env m
  rw [hC] at hC1
  obtain ⟨hc1, hm1⟩ := Prod.mk.inj hC1
  have hclient : m1.client =
      { m.client with m_bIsPlaying := false, m_filePath := "", m_player := none } := by
    rw [hm1]
  subst hc1
  obtain ⟨b, m2, hO, hOf, hOt, hL, hA, hR⟩ := OpenInternal_spec env file m1
  unfold OpenFile
  simp only [run_bind, run_getClient, hready, Bool.not_true, Bool.false_eq_true, if_false,
    hcheck, run_pure, hC, hO]
  cases b with
  | false =>
    refine ⟨false, m2, ?_, fun _ => ?_, fun h => absurd h (by decide), fun _ => rfl,
      fun _ => rfl, fun _ => rfl⟩
    · simp [run_bind, run_pure]
    · rw [hOf rfl, hclient]
      simp [hready]
  | true =>
    obtain ⟨hp, hpath, hrd, _, _, _⟩ := hOt rfl
    obtain ⟨b3, m3, hI, hIc⟩ := InitSerialization_spec env
      { client := { m2.client with m_player := player }, trace := m2.trace }
    simp only [if_true, run_modifyClient, run_bind, hI, SetDevice_run, run_pure]
    refine ⟨true, _, rfl, fun h => absurd h (by decide), fun _ => ?_, ?_, ?_, ?_⟩
    · rw [hIc]
      refine ⟨hp, hpath, rfl, ?_⟩
      show m2.client.m_bReadyToUse = true
      rw [hrd, hclient]
      exact hready
    · intro h; exact absurd (hL h) (by decide)
    · intro h; exact absurd (hA h) (by decide)
    · intro h; exact absurd (hR h) (by decide)

theorem OpenFile_false_state_aux (K : Consts) (env : Env) (file : CFileItem)
    (player : Option Nat) (m : Machine) (h : ¬ entryChecksPass m.client file) :
    ∃ b m1, OpenFile K env file player m = (.normal b, m1) ∧ m1 = m ∧ b = false := by
  refine ⟨false, m, OpenFile_entry_fail K env file player m ?_, rfl, rfl⟩
  unfold entryChecksPass at h
  by_cases hr : m.client.m_bReadyToUse = true
  · right
    cases hg : file.gameclient with
    | none => exact absurd ⟨hr, Or.inl hg⟩ h
    | some g =>
      refine ⟨g, rfl, fun hid => h ⟨hr, Or.inr ?_⟩⟩
      rw [hg, hid]
  · left
    simpa using hr

end GameClient

namespace GameClient

theorem Destroy_spec (env : Env) (m : Machine) :
    ∃ m1, Destroy env m = (.normal (), m1) ∧
      m1.client = { m.client with
        m_bReadyToUse := false, m_bIsPlaying := m1.client.m_bIsPlaying,
        m_filePath := m1.client.m_filePath, m_player := m1.client.m_player } := by
  rcases m with ⟨⟨id, ext, vfs, nog, nm, ver, rdy, ply, plr, rgn, fr, frc, sr, ssz, rw, fp⟩, tr⟩
  unfold Destroy
  simp only [run_bind, run_getClient]
  rcases hd : env.dllDestroy with u | _ <;> cases hc : env.playerClosesFile <;>
    cases rdy <;> cases ply <;> cases plr <;>
    simp [hc, hd, run_bind, run_pure, run_record, run_attempt_call,
      run_modifyClient, run_getClient, CloseFile_run]

theorem GetAddonProperties_spec (env : Env) (m : Machine) :
    ∃ b m1, GetAddonProperties env m = (.normal b, m1) ∧
      (b = true ↔ propertiesMatch env m.client) ∧
      (b = false → m1.client = m.client) ∧
      m1.client = { m.client with
        m_strClientName := m1.client.m_strClientName,
        m_strClientVersion := m1.client.m_strClientVersion } := by
  rcases m with ⟨⟨id, ext, vfs, nog, nm, ver, rdy, ply, plr, rgn, fr, frc, sr, ssz, rw, fp⟩, tr⟩
  unfold GetAddonProperties propertiesMatch
  rcases h1 : env.GetClientName with n | _
  · rcases h2 : env.GetClientVersion with v | _
    · rcases h3 : env.GetValidExtensions with e | _
      · rcases h4 : env.SupportsVFS with b4 | _
        · rcases h5 : env.SupportsNoGame with b5 | _
          · by_cases he : ext = SetExtensions e
            · subst he
              by_cases hv : vfs = b4
              · subst hv
                by_cases hn : nog = b5
                · subst hn
                  simp [h1, h2, h3, h4, h5, run_bind, run_pure, run_attempt_call,
                    run_modifyClient, run_getClient]
                · have hn' : ¬ b5 = nog := fun h => hn h.symm
                  simp [h1, h2, h3, h4, h5, hn, hn', run_bind, run_pure,
                    run_attempt_call, run_modifyClient, run_getClient]
              · have hv' : ¬ b4 = vfs := fun h => hv h.symm
                simp [h1, h2, h3, h4, h5, hv, hv', run_bind, run_pure, run_attempt_call,
                  run_modifyClient, run_getClient]
            · simp [h1, h2, h3, h4, h5, he, run_bind, run_pure, run_attempt_call,
                run_modifyClient, run_getClient]
          · simp [h1, h2, h3, h4, h5, run_bind, run_pure, run_attempt_call,
              run_modifyClient, run_getClient]
        · simp [h1, h2, h3, h4, run_bind, run_pure, run_attempt_call,
            run_modifyClient, run_getClient]
      · simp [h1, h2, h3, run_bind, run_pure, run_attempt_call,
          run_modifyClient, run_getClient]
    · simp [h1, h2, run_bind, run_pure, run_attempt_call, run_modifyClient, run_getClient]
  · simp [h1, run_bind, run_pure, run_attempt_call, run_modifyClient, run_getClient]

end GameClient

namespace GameClient

theorem run_call {α : Type} (c : Call) (r : CoreResult α) (m : Machine) :
    call c r m =
      match r with
      | .returns v => (.normal v, { client := m.client, trace := m.trace ++ [c] })
      | .raises => (.exception, { client := m.client, trace := m.trace ++ [c] }) := by
  cases r <;> rfl

theorem run_tryCatch {α : Type} (body handler : Exec α) (m : Machine) :
    tryCatch body handler m =
      match body m with
      | (.normal a, m1) => (.normal a, m1)
      | (.exception, m1) => handler m1 := rfl

theorem propertiesMatch_congr (env : Env) {c c1 : CGameClient}
    (h1 : c1.m_extensions = c.m_extensions) (h2 : c1.m_bSupportsVFS = c.m_bSupportsVFS)
    (h3 : c1.m_bSupportsNoGame = c.m_bSupportsNoGame) :
    propertiesMatch env c1 ↔ propertiesMatch env c := by
  unfold propertiesMatch
  rw [h1, h2, h3]

theorem Create_spec (env : Env) (m : Machine) :
    ∃ status m1, Create env m = (.normal status, m1) ∧
      status = (match env.dllCreate with
                | .returns s => s
                | .raises => .ADDON_STATUS_UNKNOWN) ∧
      (m1.client.m_bReadyToUse = true ↔
        env.dllCreate = .returns .ADDON_STATUS_OK ∧ propertiesMatch env m.client) ∧
      m1.client.id = m.client.id ∧ m1.client.m_extensions = m.client.m_extensions ∧
      m1.client.m_bRewindEnabled = m.client.m_bRewindEnabled := by
  obtain ⟨md, hD, hDc⟩ := Destroy_spec env m
  have hpm : propertiesMatch env md.client ↔ propertiesMatch env m.client :=
    propertiesMatch_congr env (by rw [hDc]) (by rw [hDc]) (by rw [hDc])
  have hid : md.client.id = m.client.id := by rw [hDc]
  have hext : md.client.m_extensions = m.client.m_extensions := by rw [hDc]
  have hrw : md.client.m_bRewindEnabled = m.client.m_bRewindEnabled := by rw [hDc]
  unfold Create
  simp only [run_bind, hD, run_tryCatch, run_call]
  rcases hc : env.dllCreate with st | _
  · by_cases hok : st = .ADDON_STATUS_OK
    · subst hok
      obtain ⟨b, mg, hG, hGb, _, hGc⟩ := GetAddonProperties_spec env
        { client := md.client, trace := md.trace ++ [.dllCreate] }
      simp only [if_true, run_tryCatch, run_bind, hG, run_pure, run_modifyClient]
      refine ⟨_, _, rfl, rfl, ?_, ?_, ?_, ?_⟩
      · show b = true ↔ _
        rw [hGb]
        simp [hpm]
      · show mg.client.id = _
        rw [hGc]
        exact hid
      · show mg.client.m_extensions = _
        rw [hGc]
        exact hext
      · show mg.client.m_bRewindEnabled = _
        rw [hGc]
        exact hrw
    · simp only [hok, if_false, run_pure, run_bind, run_modifyClient]
      refine ⟨_, _, rfl, rfl, ?_, hid, hext, hrw⟩
      simp [hok]
  · simp only [run_pure, run_bind, run_modifyClient]
    exact ⟨_, _, rfl, rfl, by simp, hid, hext, hrw⟩

end GameClient

namespace GameManager

open GameClient

theorem mapFind_mapInsert_self (id : String) (client : CGameClient) (l : GameClientMap) :
    mapFind (mapInsert id client l) id = some client := by
  induction l with
  | nil => simp [mapInsert, mapFind]
  | cons e rest ih =>
    obtain ⟨k, v⟩ := e
    unfold mapInsert
    by_cases h1 : stringLess id k = true
    · simp [h1, mapFind]
    · by_cases h2 : id = k
      · subst h2
        simp [h1, mapFind]
      · have h3 : ¬ k = id := fun h => h2 h.symm
        simp [h1, h2, h3, mapFind, ih]

theorem RegisterAddon_registers (wrapper : String) (host : AddonHost)
    (envCreate envDestroy : Env) (mgr : CGameManager) (cm : Machine)
    (hw : cm.client.id ≠ wrapper) (he : host.Enabled = true) (hd : host.IsAddonDisabled = false)
    (hnew : mapFind mgr.m_gameClients cm.client.id = none)
    (hok : envCreate.dllCreate = .returns .ADDON_STATUS_OK) :
    (RegisterAddon wrapper host envCreate envDestroy mgr (some cm)).ret = .normal true ∧
    (mapFind (RegisterAddon wrapper host envCreate envDestroy mgr (some cm)).manager.m_gameClients
      cm.client.id).isSome = true := by
  obtain ⟨status, m1, hC, hst, _, hid, _⟩ := Create_spec envCreate cm
  rw [hok] at hst
  subst hst
  obtain ⟨m2, hD, hDc⟩ := Destroy_spec envDestroy m1
  have hid2 : m2.client.id = cm.client.id := by rw [hDc]; exact hid
  unfold RegisterAddon
  simp only [hw, if_false, he, hd, Bool.not_true, Bool.or_self, Bool.false_eq_true, hnew,
    Option.isSome_none, hC, ne_eq, not_true_eq_false, hD, hid2, mapFind_mapInsert_self,
    Option.isSome_some, and_self]

end GameManager

namespace GameClient

open GameManager

/-! ## Properties of the game client session -/

theorem SetExtensions_mismatch : SetExtensions ".nes|.unf" ≠ sampleClient.m_extensions := by
  decide

/-- C11 (as stated, fails): the sample client declares the extension set
{.nes} and the core reports ".nes|.unf"; `Create` leaves the session not ready
but returns `ADDON_STATUS_OK`, the status of the library load, and
`RegisterAddon` on an empty registry returns true and registers the client. -/
theorem Create_returns_OK_on_extension_mismatch :
    SetExtensions ".nes|.unf" = [".nes", ".unf"] ∧ sampleClient.m_extensions = [".nes"] ∧
    (∃ m1, Create mismatchEnv { client := sampleClient } = (.normal .ADDON_STATUS_OK, m1) ∧
      m1.client.m_bReadyToUse = false) ∧
    (RegisterAddon "game.libretro" { Enabled := true, IsAddonDisabled := false }
        mismatchEnv mismatchEnv {} (some { client := sampleClient })).ret = .normal true ∧
    (mapFind (RegisterAddon "game.libretro" { Enabled := true, IsAddonDisabled := false }
        mismatchEnv mismatchEnv {} (some { client := sampleClient })).manager.m_gameClients
      "gameclient.nes").isSome = true := by
  refine ⟨by decide, rfl, ?_, ?_⟩
  · obtain ⟨status, m1, hC, hst, hready, _⟩ := Create_spec mismatchEnv { client := sampleClient }
    have hs : status = .ADDON_STATUS_OK := hst
    subst hs
    refine ⟨m1, hC, ?_⟩
    cases hr : m1.client.m_bReadyToUse with
    | false => rfl
    | true =>
      obtain ⟨_, _, _, ⟨e, he, hm⟩, _⟩ := hready.1 hr
      have he' : e = ".nes|.unf" := (CoreResult.returns.inj he).symm
      subst he'
      exact absurd hm.symm SetExtensions_mismatch
  · exact RegisterAddon_registers "game.libretro" { Enabled := true, IsAddonDisabled := false }
      mismatchEnv mismatchEnv {} { client := sampleClient } (by decide) rfl rfl rfl rfl

/-- C11 (amended): whenever the extension set the core reports differs, after
normalisation, from the declared set, `Create` ends normally and leaves the
session not ready to use; the status it returns is the status of the library
load (`ADDON_STATUS_UNKNOWN` when the load raised), and `RegisterAddon`, which
tests only that status, registers an enabled client that is not yet registered
when the load succeeded. -/
theorem Create_extension_mismatch (env : Env) (m : Machine) (e : String)
    (hext : env.GetValidExtensions = .returns e)
    (hne : SetExtensions e ≠ m.client.m_extensions) :
    (∃ status m1, Create env m = (.normal status, m1) ∧
      m1.client.m_bReadyToUse = false ∧
      status = (match env.dllCreate with
                | .returns s => s
                | .raises => .ADDON_STATUS_UNKNOWN)) ∧
    (∀ (wrapper : String) (host : AddonHost) (envDestroy : Env) (mgr : CGameManager),
      m.client.id ≠ wrapper → host.Enabled = true → host.IsAddonDisabled = false →
      mapFind mgr.m_gameClients m.client.id = none →
      env.dllCreate = .returns .ADDON_STATUS_OK →
      (RegisterAddon wrapper host env envDestroy mgr (some m)).ret = .normal true ∧
      (mapFind (RegisterAddon wrapper host env envDestroy mgr (some m)).manager.m_gameClients
        m.client.id).isSome = true) := by
  constructor
  · obtain ⟨status, m1, hC, hst, hready, _⟩ := Create_spec env m
    refine ⟨status, m1, hC, ?_, hst⟩
    cases hr : m1.client.m_bReadyToUse with
    | false => rfl
    | true =>
      obtain ⟨_, _, _, ⟨e', he', hm⟩, _⟩ := hready.1 hr
      rw [hext] at he'
      have : e = e' := CoreResult.returns.inj he'
      subst this
      exact absurd hm.symm hne
  · intro wrapper host envDestroy mgr hw he hd hnew hok
    exact RegisterAddon_registers wrapper host env envDestroy mgr m hw he hd hnew hok

/-- Witness for `Create_extension_mismatch`: the sample client with the core
that reports ".nes|.unf". -/
theorem Create_extension_mismatch_witness :
    mismatchEnv.GetValidExtensions = .returns ".nes|.unf" ∧
    SetExtensions ".nes|.unf" ≠ sampleClient.m_extensions ∧
    ∃ status m1, Create mismatchEnv { client := sampleClient } = (.normal status, m1) ∧
      m1.client.m_bReadyToUse = false ∧
      status = (match mismatchEnv.dllCreate with
                | .returns s => s
                | .raises => .ADDON_STATUS_UNKNOWN) :=
  ⟨rfl, by decide,
    (Create_extension_mismatch mismatchEnv { client := sampleClient } ".nes|.unf" rfl
      (by decide)).1⟩

end GameClient

namespace GameClient

/-- C12 (as stated, fails): the sample session is ready and plays
"/roms/a.nes"; `OpenFile` for a file whose "gameclient" property names another
client returns false and leaves the session as it was, still playing, with
its content path "/roms/a.nes". -/
theorem OpenFile_false_keeps_previous_content :
    OpenFile sampleConsts sampleEnv
        { path := "/roms/b.nes", gameclient := some "gameclient.other" } (some 2)
        { client := playingClient } =
      (.normal false, { client := playingClient }) ∧
    playingClient.m_bIsPlaying = true ∧ playingClient.m_filePath = "/roms/a.nes" :=
  ⟨OpenFile_entry_fail sampleConsts sampleEnv _ _ _
      (Or.inr ⟨"gameclient.other", rfl, by decide⟩), rfl, rfl⟩

/-- C12 (amended): `OpenFile` always ends normally.  When it returns false
after passing its two entry checks (session ready, "gameclient" property absent
or naming this client), which covers a failing `LoadGame` and a failing
`GetSystemAVInfo` or `GetRegion` after a successful `LoadGame`, the session has
no content loaded: it is not playing and its content path is empty.  When it
returns false at an entry check, the session is exactly as it was before the
call. -/
theorem OpenFile_false_state (K : Consts) (env : Env) (file : CFileItem) (player : Option Nat)
    (m : Machine) :
    ∃ b m1, OpenFile K env file player m = (.normal b, m1) ∧
      (b = false → entryChecksPass m.client file →
        m1.client.m_bIsPlaying = false ∧ m1.client.m_filePath = "") ∧
      (¬ entryChecksPass m.client file → b = false ∧ m1 = m) := by
  by_cases h : entryChecksPass m.client file
  · obtain ⟨b, m1, hO, hf, _⟩ := OpenFile_spec K env file player m h.1 h.2
    refine ⟨b, m1, hO, fun hb _ => ?_, fun hn => absurd h hn⟩
    rw [hf hb]
    exact ⟨rfl, rfl⟩
  · refine ⟨false, m, OpenFile_entry_fail K env file player m ?_, fun _ hp => absurd hp h,
      fun _ => ⟨rfl, rfl⟩⟩
    unfold entryChecksPass at h
    by_cases hr : m.client.m_bReadyToUse = true
    · right
      cases hg : file.gameclient with
      | none => exact absurd ⟨hr, Or.inl hg⟩ h
      | some g =>
        refine ⟨g, rfl, fun hid => h ⟨hr, Or.inr ?_⟩⟩
        rw [hg, hid]
    · left
      simpa using hr

/-- Witness for `OpenFile_false_state`: the sample session, ready and not
playing, opens a file while `LoadGame` raises. -/
theorem OpenFile_false_state_witness :
    entryChecksPass { sampleClient with m_bReadyToUse := true } { path := "/roms/b.nes" } ∧
    ∃ b m1, OpenFile sampleConsts raisingEnv { path := "/roms/b.nes" } (some 2)
        { client := { sampleClient with m_bReadyToUse := true } } = (.normal b, m1) ∧
      (b = false →
        entryChecksPass { sampleClient with m_bReadyToUse := true } { path := "/roms/b.nes" } →
        m1.client.m_bIsPlaying = false ∧ m1.client.m_filePath = "") ∧
      (¬ entryChecksPass { sampleClient with m_bReadyToUse := true } { path := "/roms/b.nes" } →
        b = false ∧ m1 = { client := { sampleClient with m_bReadyToUse := true } }) :=
  ⟨by decide,
    OpenFile_false_state sampleConsts raisingEnv { path := "/roms/b.nes" } (some 2)
      { client := { sampleClient with m_bReadyToUse := true } }⟩

/-- C13 (violated by the code): in a playing session with rewind enabled, when
`Run` succeeds and the following `Serialize` fails or raises, `RunFrame`
disables rewind and does not advance the rewind buffer, but it returns false:
the frame that was run is reported as failed. -/
theorem RunFrame_false_when_Serialize_fails (env : Env) (m : Machine)
    (hp : m.client.m_bIsPlaying = true) (hr : m.client.m_bRewindEnabled = true)
    (hrun : env.Run = .returns .GAME_ERROR_NO_ERROR)
    (hs : env.Serialize ≠ .returns .GAME_ERROR_NO_ERROR) :
    RunFrame env m =
      (.normal false,
        { client := { m.client with m_bRewindEnabled := false },
          trace := m.trace ++ [.Run, .Serialize .GetNextState] }) := by
  rw [RunFrame_run]
  simp only [hp, hr, hrun, hs, if_true, if_false]

/-- Witness for `RunFrame_false_when_Serialize_fails`: the sample session with
a core whose `Serialize` returns `GAME_ERROR_FAILED`. -/
theorem RunFrame_false_when_Serialize_fails_witness :
    playingClient.m_bIsPlaying = true ∧ playingClient.m_bRewindEnabled = true ∧
    serializeFailsEnv.Run = .returns .GAME_ERROR_NO_ERROR ∧
    serializeFailsEnv.Serialize ≠ .returns .GAME_ERROR_NO_ERROR ∧
    RunFrame serializeFailsEnv { client := playingClient } =
      (.normal false,
        { client := { playingClient with m_bRewindEnabled := false },
          trace := [] ++ [.Run, .Serialize .GetNextState] }) :=
  ⟨rfl, rfl, rfl, by decide,
    RunFrame_false_when_Serialize_fails serializeFailsEnv { client := playingClient } rfl rfl rfl
      (by decide)⟩

/-- C14: when the session is not playing or rewind is disabled, `RewindFrames`
returns 0 and makes no call; otherwise it asks the rewind buffer, returns the
count `r` the buffer reports, and calls `Deserialize` once when `r` is not 0 and
not at all when `r` is 0.  The result does not depend on what `Deserialize`
does, and the members of the client are untouched. -/
theorem RewindFrames_result (env : Env) (frames : Nat) (m : Machine) :
    (¬ (m.client.m_bIsPlaying = true ∧ m.client.m_bRewindEnabled = true) →
      RewindFrames env frames m = (.normal 0, m)) ∧
    (m.client.m_bIsPlaying = true ∧ m.client.m_bRewindEnabled = true →
      (env.RewindFrames frames = 0 →
        RewindFrames env frames m =
          (.normal 0, { m with trace := m.trace ++ [.bufferRewindFrames frames] })) ∧
      (env.RewindFrames frames ≠ 0 →
        RewindFrames env frames m =
          (.normal (env.RewindFrames frames),
            { m with trace :=
                m.trace ++ [.bufferRewindFrames frames, .Deserialize .GetState] }))) := by
  rw [RewindFrames_run]
  refine ⟨fun h => by simp only [h, if_false], fun h => ⟨fun h0 => ?_, fun h0 => ?_⟩⟩
  · simp only [h, and_self, if_true, h0, ne_eq, not_true_eq_false, if_false]
  · simp only [h, and_self, if_true, h0, ne_eq, not_false_eq_true]

/-- Witness for `RewindFrames_result`: the sample session rewinds 3 frames
while `Deserialize` raises. -/
theorem RewindFrames_result_witness :
    (playingClient.m_bIsPlaying = true ∧ playingClient.m_bRewindEnabled = true) ∧
    raisingEnv.RewindFrames 3 ≠ 0 ∧
    RewindFrames raisingEnv 3 { client := playingClient } =
      (.normal (raisingEnv.RewindFrames 3),
        { client := playingClient,
          trace := [] ++ [.bufferRewindFrames 3, .Deserialize .GetState] }) :=
  ⟨⟨rfl, rfl⟩, by decide,
    ((RewindFrames_result raisingEnv 3 { client := playingClient }).2 ⟨rfl, rfl⟩).2 (by decide)⟩

/-- C15: from any state and whatever `UnloadGame` does, `CloseFile` ends
normally and leaves the session not playing, with an empty content path and a
null player, all other members (the ready-to-use flag among them) as they were;
`UnloadGame` is called, once, exactly when the session was ready and playing. -/
theorem CloseFile_result (env : Env) (m : Machine) :
    ∃ m1, CloseFile env m = (.normal (), m1) ∧
      m1.client.m_bIsPlaying = false ∧ m1.client.m_filePath = "" ∧
      m1.client.m_player = none ∧ m1.client.m_bReadyToUse = m.client.m_bReadyToUse ∧
      m1.client = { m.client with m_bIsPlaying := false, m_filePath := "", m_player := none } ∧
      m1.trace = (if m.client.m_bReadyToUse = true ∧ m.client.m_bIsPlaying = true
                  then m.trace ++ [.UnloadGame] else m.trace) := by
  rw [CloseFile_run]
  exact ⟨_, rfl, rfl, rfl, rfl, rfl, rfl, rfl⟩

/-- C16: `SetDevice` ends normally and never changes a member of the client; it
calls `SetControllerPortDevice`, once and with the port and device it was
given, exactly when the session is playing, the port is below
`GAMECLIENT_MAX_PLAYERS` and the device is at most `GAME_DEVICE_ANALOG` or one
of the four named subclasses; otherwise it makes no call. -/
theorem SetDevice_result (K : Consts) (env : Env) (port device : Nat) (m : Machine) :
    SetDevice K env port device m =
      (.normal (),
        { client := m.client,
          trace := if deviceAccepted K m.client port device
                   then m.trace ++ [.SetControllerPortDevice port device] else m.trace }) := by
  rw [SetDevice_run]
  rfl

end GameClient

namespace GameClient

theorem OpenFile_total (K : Consts) (env : Env) (file : CFileItem) (player : Option Nat)
    (m : Machine) :
    ∃ b m1, OpenFile K env file player m = (.normal b, m1) ∧
      (env.LoadGame (env.translatedUrl file) = .raises ∨ env.GetSystemAVInfo = .raises ∨
        env.GetRegion = .raises → b = false) := by
  by_cases h : entryChecksPass m.client file
  · obtain ⟨b, m1, hO, _, _, hL, hA, hR⟩ := OpenFile_spec K env file player m h.1 h.2
    refine ⟨b, m1, hO, ?_⟩
    rintro (h1 | h1 | h1)
    · exact hL h1
    · exact hA h1
    · exact hR h1
  · obtain ⟨b, m1, hO, _, hn⟩ := OpenFile_false_state_aux K env file player m h
    exact ⟨b, m1, hO, fun _ => hn⟩

/-- C17: whatever the entry points of the core do, return or raise, each of
`Create`, `Destroy`, `OpenFile`, `RunFrame`, `RewindFrames`, `Reset`,
`SetDevice` and `CloseFile` ends normally, with no exception in flight;
`OpenFile` returns false when `LoadGame`, `GetSystemAVInfo` or `GetRegion`
raises, and `RunFrame` returns false when `Run` raises. -/
theorem session_contains_core_faults (K : Consts) (env : Env) (m : Machine) (file : CFileItem)
    (player : Option Nat) (frames port device : Nat) :
    (∃ status m1, Create env m = (.normal status, m1)) ∧
    (∃ m1, Destroy env m = (.normal (), m1)) ∧
    (∃ b m1, OpenFile K env file player m = (.normal b, m1) ∧
      (env.LoadGame (env.translatedUrl file) = .raises ∨ env.GetSystemAVInfo = .raises ∨
        env.GetRegion = .raises → b = false)) ∧
    (∃ b m1, RunFrame env m = (.normal b, m1) ∧ (env.Run = .raises → b = false)) ∧
    (∃ n m1, RewindFrames env frames m = (.normal n, m1)) ∧
    (∃ m1, Reset env m = (.normal (), m1)) ∧
    (∃ m1, SetDevice K env port device m = (.normal (), m1)) ∧
    (∃ m1, CloseFile env m = (.normal (), m1)) := by
  refine ⟨?_, ?_, OpenFile_total K env file player m, ?_, ?_, ?_, ?_, ?_⟩
  · obtain ⟨status, m1, h, _⟩ := Create_spec env m
    exact ⟨status, m1, h⟩
  · obtain ⟨m1, h, _⟩ := Destroy_spec env m
    exact ⟨m1, h⟩
  · rw [RunFrame_run]
    by_cases h1 : m.client.m_bIsPlaying = true
    · by_cases h2 : env.Run = .returns .GAME_ERROR_NO_ERROR
      · by_cases h3 : m.client.m_bRewindEnabled = true
        · by_cases h4 : env.Serialize = .returns .GAME_ERROR_NO_ERROR
          · simp only [h1, h2, h3, h4, if_true]
            exact ⟨_, _, rfl, fun h => CoreResult.noConfusion h⟩
          · simp only [h1, h2, h3, h4, if_true, if_false]
            exact ⟨_, _, rfl, fun _ => rfl⟩
        · simp only [h1, h2, h3, if_true, if_false]
          exact ⟨_, _, rfl, fun h => CoreResult.noConfusion h⟩
      · simp only [h1, h2, if_true, if_false]
        exact ⟨_, _, rfl, fun _ => rfl⟩
    · simp only [h1, if_false]
      exact ⟨_, _, rfl, fun _ => rfl⟩
  · rw [RewindFrames_run]
    split <;> exact ⟨_, _, rfl⟩
  · rw [Reset_run]
    split_ifs <;> exact ⟨_, rfl⟩
  · rw [SetDevice_run]
    exact ⟨_, rfl⟩
  · rw [CloseFile_run]
    exact ⟨_, rfl⟩

/-- Witness for `session_contains_core_faults`: the playing sample session with
a core whose entry points all raise; `OpenFile` and `RunFrame` end normally
with false. -/
theorem session_contains_core_faults_witness :
    raisingEnv.Run = .raises ∧
    (∃ b m1, OpenFile sampleConsts raisingEnv { path := "/roms/b.nes" } (some 2)
        { client := playingClient } = (.normal b, m1) ∧
      (raisingEnv.LoadGame (raisingEnv.translatedUrl { path := "/roms/b.nes" }) = .raises ∨
        raisingEnv.GetSystemAVInfo = .raises ∨ raisingEnv.GetRegion = .raises → b = false)) ∧
    (∃ b m1, RunFrame raisingEnv { client := playingClient } = (.normal b, m1) ∧
      (raisingEnv.Run = .raises → b = false)) :=
  ⟨rfl,
    (session_contains_core_faults sampleConsts raisingEnv { client := playingClient }
      { path := "/roms/b.nes" } (some 2) 1 0 1).2.2.1,
    (session_contains_core_faults sampleConsts raisingEnv { client := playingClient }
      { path := "/roms/b.nes" } (some 2) 1 0 1).2.2.2.1⟩

/-- C18 (violated by the code): in a playing session with rewind enabled,
`Reset` calls the core's reset entry point, re-initialises the rewind buffer
and serialises the baseline into the slot `GetNextState()`, not into
`GetState()`, the slot `InitSerialization` fills at session start; a failing
`Serialize` disables rewind. -/
theorem Reset_serializes_into_GetNextState (env : Env) (m : Machine)
    (hp : m.client.m_bIsPlaying = true) (hr : m.client.m_bRewindEnabled = true) :
    (∃ m1, Reset env m = (.normal (), m1) ∧
      m1.trace = m.trace ++ [.Reset, .bufferReInit, .Serialize .GetNextState] ∧
      (m1.client.m_bRewindEnabled = true ↔ env.Serialize = .returns .GAME_ERROR_NO_ERROR)) ∧
    (∀ serializeSize, env.SerializeSize = .returns serializeSize → serializeSize ≠ 0 →
      env.enablerewind = true → env.Serialize = .returns .GAME_ERROR_NO_ERROR →
      ∃ m1, InitSerialization env m = (.normal true, m1) ∧
        m1.trace = m.trace ++
          [.SerializeSize, .bufferInit serializeSize, .Serialize .GetState]) := by
  constructor
  · rw [Reset_run]
    by_cases hs : env.Serialize = .returns .GAME_ERROR_NO_ERROR
    · simp only [hp, hr, hs, if_true]
      exact ⟨_, rfl, rfl, by simp [hr]⟩
    · simp only [hp, hr, hs, if_true, if_false]
      exact ⟨_, rfl, rfl, by simp [hs]⟩
  · intro sz h1 h0 h2 h3
    rw [InitSerialization_run]
    simp only [h1, h0, h2, h3, if_true, if_false]
    exact ⟨_, rfl, rfl⟩

/-- Witness for `Reset_serializes_into_GetNextState`: the playing sample
session with the sample core. -/
theorem Reset_serializes_into_GetNextState_witness :
    playingClient.m_bIsPlaying = true ∧ playingClient.m_bRewindEnabled = true ∧
    (∃ m1, Reset sampleEnv { client := playingClient } = (.normal (), m1) ∧
      m1.trace = [] ++ [.Reset, .bufferReInit, .Serialize .GetNextState] ∧
      (m1.client.m_bRewindEnabled = true ↔
        sampleEnv.Serialize = .returns .GAME_ERROR_NO_ERROR)) ∧
    (∃ m1, InitSerialization sampleEnv { client := playingClient } = (.normal true, m1) ∧
      m1.trace = [] ++ [.SerializeSize, .bufferInit 1024, .Serialize .GetState]) :=
  ⟨rfl, rfl,
    (Reset_serializes_into_GetNextState sampleEnv { client := playingClient } rfl rfl).1,
    (Reset_serializes_into_GetNextState sampleEnv { client := playingClient } rfl rfl).2
      1024 rfl (by decide) rfl rfl⟩

end GameClient

namespace GameClient

theorem Op.exec_rewind_disabled (K : Consts) (op : Op) (m : Machine)
    (h : m.client.m_bRewindEnabled = false) :
    ∃ res m1 new, op.exec K m = (.normal res, m1) ∧
      m1.client.m_bRewindEnabled = false ∧
      m1.trace = m.trace ++ new ∧ (∀ c ∈ new, c.usesRewind = false) ∧
      (∀ n, res = .count n → n = 0) := by
  cases op with
  | RunFrame env =>
    simp only [Op.exec, run_bind, RunFrame_run, h, Bool.false_eq_true, if_false]
    by_cases h1 : m.client.m_bIsPlaying = true
    · by_cases h2 : env.Run = .returns .GAME_ERROR_NO_ERROR
      · simp only [h1, h2, if_true, run_pure]
        exact ⟨_, _, [.Run], rfl, h, rfl, by simp [Call.usesRewind], fun n hn => by cases hn⟩
      · simp only [h1, h2, if_true, if_false, run_pure]
        exact ⟨_, _, [.Run], rfl, h, rfl, by simp [Call.usesRewind], fun n hn => by cases hn⟩
    · simp only [h1, if_false, run_pure]
      exact ⟨_, _, [], rfl, h, by simp, by simp, fun n hn => by cases hn⟩
  | RewindFrames env frames =>
    simp only [Op.exec, run_bind, RewindFrames_run, h, Bool.false_eq_true, and_false, if_false,
      run_pure]
    refine ⟨_, _, [], rfl, h, by simp, by simp, fun n hn => ?_⟩
    cases hn
    rfl
  | Reset env =>
    simp only [Op.exec, run_bind, Reset_run, h, Bool.false_eq_true, if_false]
    by_cases h1 : m.client.m_bIsPlaying = true
    · simp only [h1, if_true, run_pure]
      exact ⟨_, _, [.Reset], rfl, h, rfl, by simp [Call.usesRewind], fun n hn => by cases hn⟩
    · simp only [h1, if_false, run_pure]
      exact ⟨_, _, [], rfl, h, by simp, by simp, fun n hn => by cases hn⟩
  | SetDevice env port device =>
    simp only [Op.exec, run_bind, SetDevice_run, run_pure]
    split_ifs
    · exact ⟨_, _, [.SetControllerPortDevice port device], rfl, h, rfl,
        by simp [Call.usesRewind], fun n hn => by cases hn⟩
    · exact ⟨_, _, [], rfl, h, by simp, by simp, fun n hn => by cases hn⟩
  | SetFrameRateCorrection f =>
    simp only [Op.exec, run_bind, SetFrameRateCorrection_run, h, Bool.false_eq_true, if_false,
      run_pure]
    refine ⟨_, _, [], rfl, ?_, by simp, by simp, fun n hn => by cases hn⟩
    split_ifs <;> first | exact h | rfl

/-- C20: once the rewind flag is false, no sequence of `RunFrame`,
`RewindFrames`, `Reset`, `SetDevice` and `SetFrameRateCorrection` calls sets it
again, whatever the core answers: after the sequence the flag is false, none
of the calls made during it is a `Serialize`, a `Deserialize`, an
`AdvanceFrame` or a buffer `RewindFrames`, every call of the sequence ended
normally, and every `RewindFrames` of the sequence returned 0. -/
theorem rewind_stays_disabled (K : Consts) (ops : List Op) (m : Machine)
    (h : m.client.m_bRewindEnabled = false) :
    (runOps K ops m).2.client.m_bRewindEnabled = false ∧
    (∃ new, (runOps K ops m).2.trace = m.trace ++ new ∧ ∀ c ∈ new, c.usesRewind = false) ∧
    (∀ r ∈ (runOps K ops m).1, r ≠ .exception ∧ ∀ n, r = .normal (.count n) → n = 0) := by
  induction ops generalizing m with
  | nil =>
    simp only [runOps]
    exact ⟨h, ⟨[], by simp, by simp⟩, by simp⟩
  | cons op ops ih =>
    obtain ⟨res, m1, new, hE, hflag, htrace, hnew, hcount⟩ := Op.exec_rewind_disabled K op m h
    obtain ⟨ih1, ⟨new2, ih2, ih3⟩, ih4⟩ := ih m1 hflag
    simp only [runOps, hE]
    refine ⟨ih1, ⟨new ++ new2, ?_, ?_⟩, ?_⟩
    · rw [ih2, htrace, List.append_assoc]
    · intro c hc
      rcases List.mem_append.1 hc with hc | hc
      · exact hnew c hc
      · exact ih3 c hc
    · intro r hr
      rcases List.mem_cons.1 hr with hr | hr
      · subst hr
        exact ⟨fun hx => Completion.noConfusion hx,
          fun n hn => hcount n (Completion.normal.inj hn)⟩
      · exact ih4 r hr

/-- Witness for `rewind_stays_disabled`: the sample session with rewind
disabled runs a frame, rewinds, resets and runs another frame. -/
theorem rewind_stays_disabled_witness :
    ({ playingClient with m_bRewindEnabled := false } : CGameClient).m_bRewindEnabled = false ∧
    (runOps sampleConsts
      [.RunFrame sampleEnv, .RewindFrames sampleEnv 5, .Reset sampleEnv, .RunFrame sampleEnv]
      { client := { playingClient with m_bRewindEnabled := false } }).2.client.m_bRewindEnabled
      = false ∧
    (∃ new, (runOps sampleConsts
        [.RunFrame sampleEnv, .RewindFrames sampleEnv 5, .Reset sampleEnv, .RunFrame sampleEnv]
        { client := { playingClient with m_bRewindEnabled := false } }).2.trace =
          [] ++ new ∧ ∀ c ∈ new, c.usesRewind = false) ∧
    (∀ r ∈ (runOps sampleConsts
        [.RunFrame sampleEnv, .RewindFrames sampleEnv 5, .Reset sampleEnv, .RunFrame sampleEnv]
        { client := { playingClient with m_bRewindEnabled := false } }).1,
      r ≠ .exception ∧ ∀ n, r = .normal (.count n) → n = 0) :=
  ⟨rfl,
    rewind_stays_disabled sampleConsts
      [.RunFrame sampleEnv, .RewindFrames sampleEnv 5, .Reset sampleEnv, .RunFrame sampleEnv]
      { client := { playingClient with m_bRewindEnabled := false } } rfl⟩

/-- The other members that do not go through `InitSerialization` leave the
rewind flag as it is: `CloseFile`, `Destroy` and `Create`. -/
theorem lifecycle_keeps_rewind_flag (env : Env) (m : Machine) :
    (CloseFile env m).2.client.m_bRewindEnabled = m.client.m_bRewindEnabled ∧
    (Destroy env m).2.client.m_bRewindEnabled = m.client.m_bRewindEnabled ∧
    (Create env m).2.client.m_bRewindEnabled = m.client.m_bRewindEnabled := by
  refine ⟨?_, ?_, ?_⟩
  · rw [CloseFile_run]
  · obtain ⟨m1, h, hc⟩ := Destroy_spec env m
    rw [h]
    show m1.client.m_bRewindEnabled = _
    rw [hc]
  · obtain ⟨st, m1, h, _, _, _, _, hrw⟩ := Create_spec env m
    rw [h]
    exact hrw

/-- The member `OpenFile` reaches `InitSerialization` and can enable rewind:
with the sample core the ready sample session ends up playing with the rewind
flag set. -/
theorem OpenFile_can_enable_rewind :
    ∃ m1, OpenFile sampleConsts sampleEnv { path := "/roms/a.nes" } (some 1)
        { client := { sampleClient with m_bReadyToUse := true } } = (.normal true, m1) ∧
      m1.client.m_bRewindEnabled = true ∧ m1.client.m_bIsPlaying = true :=
  ⟨_, rfl, rfl, rfl⟩

end GameClient

namespace LibretroEnvironment

theorem countVariables_eq (arr : List retro_variable) :
    ∀ n : Nat,
      (∀ i, i < n → ∃ v, arr.get? i = some v ∧ v.key.isSome = true ∧ v.value.isSome = true) →
      (∃ t, arr.get? n = some t ∧ ¬ (t.key.isSome = true ∧ t.value.isSome = true)) →
      countVariables arr = n := by
  induction arr with
  | nil =>
    intro n _ hterm
    obtain ⟨t, ht, _⟩ := hterm
    simp at ht
  | cons a rest ih =>
    intro n hpre hterm
    cases n with
    | zero =>
      obtain ⟨t, ht, hnull⟩ := hterm
      simp only [List.get?_cons_zero, Option.some.injEq] at ht
      subst ht
      simp only [countVariables, hnull, if_false]
    | succ k =>
      obtain ⟨v, hv, hk, hval⟩ := hpre 0 (Nat.succ_pos k)
      simp only [List.get?_cons_zero, Option.some.injEq] at hv
      subst hv
      have hrest := ih k
        (fun i hi => by simpa using hpre (i + 1) (Nat.succ_lt_succ hi))
        (by simpa using hterm)
      simp only [countVariables, hk, hval, and_self, if_true, hrest]

theorem translateVariables_eq (arr : List retro_variable) :
    ∀ n : Nat, n ≤ arr.length →
      translateVariables arr n =
        (arr.take n).map fun v => ({ key := v.key, value := v.value } : game_variable) := by
  intro n
  induction n with
  | zero => intro _; simp [translateVariables]
  | succ k ih =>
    intro hk
    have hlt : k < arr.length := hk
    have ih' := ih (Nat.le_of_lt hlt)
    unfold translateVariables at ih' ⊢
    rw [List.range_succ, List.filterMap_append, ih']
    simp only [List.filterMap_cons, List.filterMap_nil, List.get?_eq_getElem?,
      List.getElem?_eq_getElem hlt, Option.map_some']
    rw [List.take_succ, List.map_append, List.getElem?_eq_getElem hlt]
    rfl

/-- C19 (as stated, fails): the sample array has two variables and its
terminating entry at position 2, yet before `Initialize`, with the frontend and
client-bridge handles null, `SET_VARIABLES` with that array returns false and
the frontend receives nothing. -/
theorem SET_VARIABLES_false_before_Initialize :
    countVariables sampleVariables = 2 ∧
    (∀ i, i < 2 → ∃ v, sampleVariables.get? i = some v ∧
      v.key.isSome = true ∧ v.value.isSome = true) ∧
    (∃ t, sampleVariables.get? 2 = some t ∧ ¬ (t.key.isSome = true ∧ t.value.isSome = true)) ∧
    uninitialised.m_frontend = false ∧ uninitialised.m_clientBridge = none ∧
    ∃ o, EnvironmentCallback acceptingFrontend uninitialised
        (.SET_VARIABLES (some sampleVariables)) = .ok o ∧
      o.ret = false ∧ o.calls = [] := by
  refine ⟨rfl, fun i hi => ?_, ⟨_, rfl, by decide⟩, rfl, rfl, _, rfl, rfl, rfl⟩
  rcases i with _ | _ | i
  · exact ⟨_, rfl, rfl, rfl⟩
  · exact ⟨_, rfl, rfl, rfl⟩
  · omega

/-- C19 (amended): on a bridge whose frontend and client-bridge handles are non-null,
`SET_VARIABLES` with a core array whose first entry with a null key or a null
value is at position `n` returns true and leaves the bridge state as it was;
for `n ≥ 1` the frontend receives count `n` and an array of `n` elements whose
`i`-th element has the key and the value of the core's `i`-th variable, and for
`n = 0`, as for a null payload, the frontend is not called. -/
theorem SET_VARIABLES_translates (fe : Frontend) (s : CLibretroEnvironment)
    (hf : s.m_frontend = true) (hb : s.m_clientBridge ≠ none) :
    (∀ (arr : List retro_variable) (n : Nat),
      (∀ i, i < n → ∃ v, arr.get? i = some v ∧ v.key.isSome = true ∧ v.value.isSome = true) →
      (∃ t, arr.get? n = some t ∧ ¬ (t.key.isSome = true ∧ t.value.isSome = true)) →
      ∃ o, EnvironmentCallback fe s (.SET_VARIABLES (some arr)) = .ok o ∧
        o.ret = true ∧ o.state = s ∧
        (n = 0 → o.calls = []) ∧
        (1 ≤ n → ∃ vars, o.calls = [.EnvironmentSetVariables vars n] ∧ vars.length = n ∧
          ∀ i, i < n → ∃ v, arr.get? i = some v ∧
            vars.get? i = some { key := v.key, value := v.value })) ∧
    (∃ o, EnvironmentCallback fe s (.SET_VARIABLES none) = .ok o ∧
      o.ret = true ∧ o.state = s ∧ o.calls = []) := by
  obtain ⟨bridge, hb⟩ := Option.ne_none_iff_exists'.1 hb
  constructor
  · intro arr n hpre hterm
    have hcount := countVariables_eq arr n hpre hterm
    have hle : n ≤ arr.length := by
      obtain ⟨t, ht, _⟩ := hterm
      have := List.get?_eq_some.1 ht
      obtain ⟨h, _⟩ := this
      exact Nat.le_of_lt h
    rw [EnvironmentCallback_of_initialised fe _ hf hb]
    by_cases h0 : n = 0
    · subst h0
      simp only [dispatch, hcount, ne_eq, not_true_eq_false, if_false]
      exact ⟨_, rfl, rfl, rfl, fun _ => rfl, fun h => absurd h (by decide)⟩
    · simp only [dispatch, hcount, ne_eq, h0, not_false_eq_true, if_true,
        translateVariables_eq arr n hle]
      refine ⟨_, rfl, rfl, rfl, fun h => False.elim h, fun _ => ⟨_, rfl, ?_, ?_⟩⟩
      · simp [List.length_take, hle]
      · intro i hi
        obtain ⟨v, hv, _⟩ := hpre i hi
        refine ⟨v, hv, ?_⟩
        rw [List.get?_eq_getElem?] at hv ⊢
        simp [List.getElem?_map, List.getElem?_take, hi, hv]
  · rw [EnvironmentCallback_of_initialised fe _ hf hb]
    exact ⟨_, rfl, rfl, rfl, rfl⟩

end LibretroEnvironment

namespace LibretroEnvironment

/-- Witness for `SET_VARIABLES_translates`: the two sample variables arrive in
order, each with its own key and value. -/
theorem SET_VARIABLES_translates_witness :
    initialised.m_frontend = true ∧ initialised.m_clientBridge ≠ none ∧
    ∃ o, EnvironmentCallback acceptingFrontend initialised
        (.SET_VARIABLES (some sampleVariables)) = .ok o ∧
      o.ret = true ∧ o.state = initialised ∧
      ((2 : Nat) = 0 → o.calls = []) ∧
      (1 ≤ 2 → ∃ vars, o.calls = [.EnvironmentSetVariables vars 2] ∧ vars.length = 2 ∧
        ∀ i, i < 2 → ∃ v, sampleVariables.get? i = some v ∧
          vars.get? i = some { key := v.key, value := v.value }) :=
  ⟨rfl, by decide,
    (SET_VARIABLES_translates acceptingFrontend initialised rfl (by decide)).1
      sampleVariables 2
      (fun i hi => by
        rcases i with _ | _ | i
        · exact ⟨_, rfl, rfl, rfl⟩
        · exact ⟨_, rfl, rfl, rfl⟩
        · omega)
      ⟨_, rfl, by decide⟩⟩

end LibretroEnvironment

namespace GameClient

/-! ## Lemmas on characters and on the order of strings -/

theorem toLower_cases (c : Char) :
    (c.toLower = c ∧ ¬ (65 ≤ c.toNat ∧ c.toNat ≤ 90)) ∨
    (65 ≤ c.toNat ∧ c.toNat ≤ 90 ∧ c.toLower.toNat = c.toNat + 32) := by
  by_cases h : 65 ≤ c.toNat ∧ c.toNat ≤ 90
  · right
    refine ⟨h.1, h.2, ?_⟩
    have hc : c = Char.ofNat c.toNat := (Char.ofNat_toNat c).symm
    obtain ⟨h1, h2⟩ := h
    generalize c.toNat = n at hc h1 h2
    subst hc
    interval_cases n <;> rfl
  · left
    refine ⟨?_, h⟩
    unfold Char.toLower
    simp only [ge_iff_le, h, if_false]

theorem toNat_inj {a b : Char} (h : a.toNat = b.toNat) : a = b := by
  rw [← Char.ofNat_toNat a, ← Char.ofNat_toNat b, h]

theorem toLower_idem (c : Char) : c.toLower.toLower = c.toLower := by
  rcases toLower_cases c with ⟨h, _⟩ | ⟨h1, h2, h3⟩
  · rw [h, h]
  · rcases toLower_cases c.toLower with ⟨h, _⟩ | ⟨g1, g2, _⟩
    · exact h
    · omega

theorem toLower_eq_dot (c : Char) : c.toLower = '.' ↔ c = '.' := by
  constructor
  · intro h
    rcases toLower_cases c with ⟨h0, _⟩ | ⟨h1, h2, h3⟩
    · rw [← h0, h]
    · rw [h] at h3
      have : ('.' : Char).toNat = 46 := rfl
      omega
  · intro h
    subst h
    rfl

theorem lessChars_irrefl (a : List Char) : lessChars a a = false := by
  induction a with
  | nil => rfl
  | cons x xs ih => simp [lessChars, ih]

theorem lessChars_trans : ∀ (a b c : List Char),
    lessChars a b = true → lessChars b c = true → lessChars a c = true := by
  intro a
  induction a with
  | nil =>
    intro b c h1 h2
    cases b with
    | nil => simp [lessChars] at h1
    | cons y ys =>
      cases c with
      | nil => simp [lessChars] at h2
      | cons z zs => rfl
  | cons x xs ih =>
    intro b c h1 h2
    cases b with
    | nil => simp [lessChars] at h1
    | cons y ys =>
      cases c with
      | nil => simp [lessChars] at h2
      | cons z zs =>
        simp only [lessChars] at h1 h2 ⊢
        by_cases hxy : x.toNat < y.toNat
        · by_cases hyz : y.toNat < z.toNat
          · have : x.toNat < z.toNat := by omega
            simp [this]
          · by_cases hzy : z.toNat < y.toNat
            · simp [hyz, hzy] at h2
            · have : x.toNat < z.toNat := by omega
              simp [this]
        · by_cases hyx : y.toNat < x.toNat
          · simp [hxy, hyx] at h1
          · simp only [hxy, hyx, if_false] at h1
            by_cases hyz : y.toNat < z.toNat
            · have : x.toNat < z.toNat := by omega
              simp [this]
            · by_cases hzy : z.toNat < y.toNat
              · simp [hyz, hzy] at h2
              · simp only [hyz, hzy, if_false] at h2
                have e1 : ¬ x.toNat < z.toNat := by omega
                have e2 : ¬ z.toNat < x.toNat := by omega
                simp only [e1, e2, if_false]
                exact ih ys zs h1 h2

theorem lessChars_total : ∀ (a b : List Char),
    lessChars a b = false → lessChars b a = false → a = b := by
  intro a
  induction a with
  | nil =>
    intro b h1 h2
    cases b with
    | nil => rfl
    | cons y ys => simp [lessChars] at h1
  | cons x xs ih =>
    intro b h1 h2
    cases b with
    | nil => simp [lessChars] at h2
    | cons y ys =>
      simp only [lessChars] at h1 h2
      by_cases hxy : x.toNat < y.toNat
      · simp [hxy] at h1
      · by_cases hyx : y.toNat < x.toNat
        · simp [hyx] at h2
        · simp only [hxy, hyx, if_false] at h1 h2
          have : x = y := toNat_inj (by omega)
          rw [this, ih ys h1 h2]

theorem stringLess_irrefl (a : String) : stringLess a a = false := lessChars_irrefl _

theorem stringLess_trans {a b c : String} (h1 : stringLess a b = true)
    (h2 : stringLess b c = true) : stringLess a c = true := lessChars_trans _ _ _ h1 h2

theorem stringLess_total {a b : String} (h1 : stringLess a b = false)
    (h2 : stringLess b a = false) : a = b :=
  String.ext (lessChars_total _ _ h1 h2)

theorem stringLess_asymm {a b : String} (h : stringLess a b = true) :
    stringLess b a = false := by
  cases h2 : stringLess b a with
  | false => rfl
  | true =>
    have := stringLess_trans h h2
    rw [stringLess_irrefl] at this
    exact absurd this (by decide)

theorem stringLess_ne {a b : String} (h : stringLess a b = true) : a ≠ b := by
  intro e
  subst e
  rw [stringLess_irrefl] at h
  exact absurd h (by decide)

theorem stringLess_of_le_of_lt {a b c : String} (h1 : stringLess b a = false)
    (h2 : stringLess b c = true) : stringLess a c = true := by
  cases h : stringLess a b with
  | true => exact stringLess_trans h h2
  | false =>
    have := stringLess_total h h1
    subst this
    exact h2

theorem stringLess_of_lt_of_le {a b c : String} (h1 : stringLess a b = true)
    (h2 : stringLess c b = false) : stringLess a c = true := by
  cases h : stringLess b c with
  | true => exact stringLess_trans h1 h
  | false =>
    have := stringLess_total h h2
    subst this
    exact h1

theorem stringLess_le_trans {a b c : String} (h1 : stringLess b a = false)
    (h2 : stringLess c b = false) : stringLess c a = false := by
  cases h : stringLess c a with
  | false => rfl
  | true =>
    have := stringLess_of_lt_of_le h h1
    rw [h2] at this
    exact absurd this (by decide)

/-- Two strictly ascending lists of strings with the same elements are
equal. -/
theorem ascending_ext : ∀ (l1 l2 : List String),
    l1.Pairwise (fun a b => stringLess a b = true) →
    l2.Pairwise (fun a b => stringLess a b = true) →
    (∀ x, x ∈ l1 ↔ x ∈ l2) → l1 = l2 := by
  intro l1
  induction l1 with
  | nil =>
    intro l2 _ _ h
    cases l2 with
    | nil => rfl
    | cons y ys => exact absurd ((h y).2 (List.mem_cons_self _ _)) (List.not_mem_nil _)
  | cons x xs ih =>
    intro l2 h1 h2 h
    cases l2 with
    | nil => exact absurd ((h x).1 (List.mem_cons_self _ _)) (List.not_mem_nil _)
    | cons y ys =>
      obtain ⟨hx, hxs⟩ := List.pairwise_cons.1 h1
      obtain ⟨hy, hys⟩ := List.pairwise_cons.1 h2
      have hxy : x = y := by
        rcases List.mem_cons.1 ((h x).1 (List.mem_cons_self _ _)) with e | hin
        · exact e
        · rcases List.mem_cons.1 ((h y).2 (List.mem_cons_self _ _)) with e | hin2
          · exact e.symm
          · have a1 := hy x hin
            have a2 := hx y hin2
            rw [stringLess_asymm a1] at a2
            exact absurd a2 (by decide)
      subst hxy
      congr 1
      apply ih ys hxs hys
      intro z
      constructor
      · intro hz
        rcases List.mem_cons.1 ((h z).1 (List.mem_cons_of_mem _ hz)) with e | hin
        · subst e
          exact absurd (hx z hz) (by rw [stringLess_irrefl]; decide)
        · exact hin
      · intro hz
        rcases List.mem_cons.1 ((h z).2 (List.mem_cons_of_mem _ hz)) with e | hin
        · subst e
          exact absurd (hy z hz) (by rw [stringLess_irrefl]; decide)
        · exact hin

end GameClient

namespace GameManager

open GameClient

/-! ## Lemmas on the registry -/

theorem mapFind_isSome_iff (l : GameClientMap) (id : String) :
    (mapFind l id).isSome = true ↔ id ∈ l.map Prod.fst := by
  induction l with
  | nil => simp [mapFind]
  | cons e rest ih =>
    obtain ⟨k, v⟩ := e
    by_cases h : k = id
    · simp [mapFind, h]
    · have h2 : ¬ id = k := fun e => h e.symm
      simp only [mapFind, h, if_false, ih, List.map_cons, List.mem_cons, h2, false_or]

theorem mapFind_mem {l : GameClientMap} {id : String} {c : CGameClient}
    (h : mapFind l id = some c) : (id, c) ∈ l := by
  induction l with
  | nil => simp [mapFind] at h
  | cons e rest ih =>
    obtain ⟨k, v⟩ := e
    by_cases hk : k = id
    · simp only [mapFind, hk, if_true, Option.some.injEq] at h
      rw [hk, h]
      exact List.mem_cons_self _ _
    · simp only [mapFind, hk, if_false] at h
      exact List.mem_cons_of_mem _ (ih h)

theorem mapInsert_mem {id : String} {c : CGameClient} {l : GameClientMap}
    {e : String × CGameClient} (h : e ∈ mapInsert id c l) : e = (id, c) ∨ e ∈ l := by
  induction l with
  | nil =>
    simp only [mapInsert, List.mem_singleton] at h
    exact Or.inl h
  | cons e0 rest ih =>
    obtain ⟨k, v⟩ := e0
    unfold mapInsert at h
    by_cases h1 : stringLess id k = true
    · rw [if_pos h1] at h
      rcases List.mem_cons.1 h with h | h
      · exact Or.inl h
      · exact Or.inr h
    · rw [if_neg h1] at h
      by_cases h2 : id = k
      · rw [if_pos h2] at h
        rcases List.mem_cons.1 h with h | h
        · exact Or.inl (by rw [h, h2])
        · exact Or.inr (List.mem_cons_of_mem _ h)
      · rw [if_neg h2] at h
        rcases List.mem_cons.1 h with h | h
        · exact Or.inr (by rw [h]; exact List.mem_cons_self _ _)
        · rcases ih h with h | h
          · exact Or.inl h
          · exact Or.inr (List.mem_cons_of_mem _ h)

theorem mapInsert_ascending (id : String) (c : CGameClient) (l : GameClientMap)
    (h : (l.map Prod.fst).Pairwise (fun a b => stringLess a b = true)) :
    ((mapInsert id c l).map Prod.fst).Pairwise (fun a b => stringLess a b = true) := by
  induction l with
  | nil => simp [mapInsert]
  | cons e0 rest ih =>
    obtain ⟨k, v⟩ := e0
    simp only [List.map_cons, List.pairwise_cons] at h
    obtain ⟨hk, hrest⟩ := h
    unfold mapInsert
    by_cases h1 : stringLess id k = true
    · rw [if_pos h1]
      simp only [List.map_cons, List.pairwise_cons, List.mem_cons]
      refine ⟨?_, hk, hrest⟩
      rintro x (hx | hx)
      · rw [hx]; exact h1
      · exact stringLess_trans h1 (hk x hx)
    · rw [if_neg h1]
      by_cases h2 : id = k
      · rw [if_pos h2]
        simp only [List.map_cons, List.pairwise_cons]
        exact ⟨hk, hrest⟩
      · rw [if_neg h2]
        simp only [List.map_cons, List.pairwise_cons]
        refine ⟨?_, ih hrest⟩
        intro x hx
        obtain ⟨e, he, hfst⟩ := List.mem_map.1 hx
        rcases mapInsert_mem he with he | he
        · rw [← hfst, he]
          cases h3 : stringLess k id with
          | true => rfl
          | false =>
            exact absurd (stringLess_total (by simpa using h1) h3) h2
        · exact hk x (by rw [← hfst]; exact List.mem_map_of_mem _ he)

theorem mapErase_sublist (id : String) (l : GameClientMap) : (mapErase id l).Sublist l := by
  induction l with
  | nil => exact List.Sublist.refl _
  | cons e0 rest ih =>
    obtain ⟨k, v⟩ := e0
    unfold mapErase
    by_cases h : k = id
    · simp only [h, if_true]
      exact List.sublist_cons_self _ _
    · simp only [h, if_false]
      exact ih.cons₂ _

theorem WF_mapInsert {mgr : CGameManager} (h : mgr.WF) (c : CGameClient) :
    CGameManager.WF { mgr with m_gameClients := mapInsert c.id c mgr.m_gameClients } := by
  refine ⟨mapInsert_ascending _ _ _ h.1, fun e he => ?_⟩
  rcases mapInsert_mem he with he | he
  · rw [he]
  · exact h.2 e he

theorem WF_mapErase {mgr : CGameManager} (h : mgr.WF) (id : String) :
    CGameManager.WF { mgr with m_gameClients := mapErase id mgr.m_gameClients } :=
  ⟨h.1.sublist ((mapErase_sublist id _).map _), fun e he => h.2 e ((mapErase_sublist id _).subset he)⟩

/-- What `RegisterAddon` does to the registry: nothing, or it stores a client
whose id is not the wrapper's under that id. -/
theorem RegisterAddon_manager (wrapper : String) (host : AddonHost) (envCreate envDestroy : Env)
    (mgr : CGameManager) (client : Option Machine) :
    (RegisterAddon wrapper host envCreate envDestroy mgr client).manager = mgr ∨
    ∃ c : CGameClient, c.id ≠ wrapper ∧
      (RegisterAddon wrapper host envCreate envDestroy mgr client).manager =
        { mgr with m_gameClients := mapInsert c.id c mgr.m_gameClients } := by
  cases client with
  | none => exact Or.inl rfl
  | some cm =>
    by_cases hw : cm.client.id = wrapper
    · left
      simp only [RegisterAddon, if_pos hw]
    · by_cases he : (!host.Enabled || host.IsAddonDisabled) = true
      · left
        simp only [RegisterAddon, if_neg hw, if_pos he]
      · by_cases hr : (mapFind mgr.m_gameClients cm.client.id).isSome = true
        · left
          simp only [RegisterAddon, if_neg hw, if_neg he, if_pos hr]
        · obtain ⟨status, m1, hC, _, _, hid, _⟩ := Create_spec envCreate cm
          obtain ⟨m2, hD, hDc⟩ := Destroy_spec envDestroy m1
          have hid2 : m2.client.id = cm.client.id := by rw [hDc]; exact hid
          by_cases hs : status = .ADDON_STATUS_OK
          · right
            refine ⟨m2.client, by rw [hid2]; exact hw, ?_⟩
            have hs' : ¬ status ≠ .ADDON_STATUS_OK := fun h => h hs
            simp only [RegisterAddon, if_neg hw, if_neg he, if_neg hr, hC, if_neg hs', hD]
          · left
            have hs' : status ≠ .ADDON_STATUS_OK := hs
            simp only [RegisterAddon, if_neg hw, if_neg he, if_neg hr, hC, if_pos hs']

theorem UnregisterAddonByID_manager (envDestroy : Env) (mgr : CGameManager) (id : String) :
    UnregisterAddonByID envDestroy mgr id = mgr ∨
    UnregisterAddonByID envDestroy mgr id =
      { mgr with m_gameClients := mapErase id mgr.m_gameClients } := by
  unfold UnregisterAddonByID
  cases mapFind mgr.m_gameClients id with
  | none => exact Or.inl rfl
  | some c =>
    obtain ⟨m1, hD, _⟩ := Destroy_spec envDestroy { client := c }
    simp only [hD]
    exact Or.inr trivial

theorem RegistryOp.exec_spec (wrapper : String) (op : RegistryOp) (mgr : CGameManager)
    (hwf : mgr.WF) (hw : mapFind mgr.m_gameClients wrapper = none) :
    (op.exec wrapper mgr).WF ∧ mapFind (op.exec wrapper mgr).m_gameClients wrapper = none := by
  have hnone : ∀ l : GameClientMap, mapFind l wrapper = none ↔ wrapper ∉ l.map Prod.fst := by
    intro l
    rw [← mapFind_isSome_iff]
    cases mapFind l wrapper <;> simp
  cases op with
  | register host envCreate envDestroy client =>
    rcases RegisterAddon_manager wrapper host envCreate envDestroy mgr client with h | ⟨c, hc, h⟩
    · simp only [RegistryOp.exec, h]
      exact ⟨hwf, hw⟩
    · simp only [RegistryOp.exec, h]
      refine ⟨WF_mapInsert hwf c, ?_⟩
      rw [hnone] at hw ⊢
      intro hin
      obtain ⟨e, he, hfst⟩ := List.mem_map.1 hin
      rcases mapInsert_mem he with he | he
      · rw [he] at hfst
        exact hc hfst
      · exact hw (by rw [← hfst]; exact List.mem_map_of_mem _ he)
  | unregister envDestroy id =>
    rcases UnregisterAddonByID_manager envDestroy mgr id with h | h
    · simp only [RegistryOp.exec, h]
      exact ⟨hwf, hw⟩
    · simp only [RegistryOp.exec, h]
      refine ⟨WF_mapErase hwf id, ?_⟩
      rw [hnone] at hw ⊢
      exact fun hin => hw (((mapErase_sublist id _).map _).subset hin)

/-- Every registry reached from the empty one through `RegisterAddon` and
`UnregisterAddonByID` satisfies the invariants and has no entry under the
wrapper's id. -/
theorem runRegistry_spec (wrapper : String) (ops : List RegistryOp) :
    ∀ mgr : CGameManager, mgr.WF → mapFind mgr.m_gameClients wrapper = none →
      (runRegistry wrapper mgr ops).WF ∧
      mapFind (runRegistry wrapper mgr ops).m_gameClients wrapper = none := by
  induction ops with
  | nil => exact fun mgr h1 h2 => ⟨h1, h2⟩
  | cons op ops ih =>
    intro mgr h1 h2
    obtain ⟨g1, g2⟩ := RegistryOp.exec_spec wrapper op mgr h1 h2
    exact ih _ g1 g2

theorem WF_empty : CGameManager.WF {} :=
  ⟨List.Pairwise.nil, fun _ h => absurd h (List.not_mem_nil _)⟩

theorem GetGameClientIDs_loop_all (file : CFileItem) (l : GameClientMap) :
    ∀ candidates : List String,
      GetGameClientIDs_loop file "" l candidates = candidates ++ l.map fun e => e.2.id := by
  induction l with
  | nil => intro candidates; simp [GetGameClientIDs_loop]
  | cons e rest ih =>
    intro candidates
    obtain ⟨k, v⟩ := e
    simp [GetGameClientIDs_loop, CanOpen, ih]

theorem GetGameClientIDs_loop_one (file : CFileItem) (r : String) (hr : r ≠ "")
    (l : GameClientMap) (candidates : List String) :
    GetGameClientIDs_loop file r l candidates =
      match mapFind l r with
      | some c => candidates ++ [c.id]
      | none => candidates := by
  have hr' : r.data ≠ [] := fun h => hr (String.ext h)
  induction l with
  | nil => simp [GetGameClientIDs_loop, mapFind]
  | cons e rest ih =>
    obtain ⟨k, v⟩ := e
    by_cases hk : k = r
    · have hk' : ¬ r ≠ k := fun h => h hk.symm
      simp [GetGameClientIDs_loop, mapFind, hk, hr', CanOpen]
    · have hk' : r ≠ k := fun h => hk h.symm
      simp [GetGameClientIDs_loop, mapFind, hk, hr', hk', ih]

/-! ## Properties of the registry -/

/-- C21: on a registry that satisfies its invariants, `GetGameClientIDs`
appends to `candidates` and leaves the elements already there in place.  For
the empty request it appends the ids of all registered clients, which ascend
strictly, so each id appears once; for a requested id `r` it appends `r` alone
when `r` is registered and nothing when it is not. -/
theorem GetGameClientIDs_appends (mgr : CGameManager) (hwf : mgr.WF) (file : CFileItem)
    (candidates : List String) :
    (requestedClient file = "" →
      GetGameClientIDs mgr file candidates = candidates ++ mgr.m_gameClients.map Prod.fst ∧
      (mgr.m_gameClients.map Prod.fst).Pairwise (fun a b => stringLess a b = true) ∧
      (mgr.m_gameClients.map Prod.fst).Nodup ∧
      ∀ id, id ∈ mgr.m_gameClients.map Prod.fst ↔
        (mapFind mgr.m_gameClients id).isSome = true) ∧
    (requestedClient file ≠ "" →
      ((mapFind mgr.m_gameClients (requestedClient file)).isSome = true →
        GetGameClientIDs mgr file candidates = candidates ++ [requestedClient file]) ∧
      (mapFind mgr.m_gameClients (requestedClient file) = none →
        GetGameClientIDs mgr file candidates = candidates)) := by
  constructor
  · intro hreq
    refine ⟨?_, hwf.1, ?_, fun id => (mapFind_isSome_iff _ id).symm⟩
    · unfold GetGameClientIDs
      rw [hreq, GetGameClientIDs_loop_all]
      congr 1
      exact List.map_congr_left fun e he => hwf.2 e he
    · exact hwf.1.imp fun h => stringLess_ne h
  · intro hreq
    unfold GetGameClientIDs
    rw [GetGameClientIDs_loop_one file _ hreq]
    constructor
    · intro hs
      obtain ⟨c, hc⟩ := Option.isSome_iff_exists.1 hs
      rw [hc]
      have := hwf.2 _ (mapFind_mem hc)
      show candidates ++ [c.id] = _
      rw [this]
    · intro hn
      rw [hn]

/-- Witness for `GetGameClientIDs_appends`: the registry with two clients and
a file that requests "gameclient.snes". -/
theorem GetGameClientIDs_appends_witness :
    sampleManager.WF ∧
    requestedClient { path := "/roms/a.sfc", gameclient := some "gameclient.snes" } ≠ "" ∧
    (mapFind sampleManager.m_gameClients
      (requestedClient { path := "/roms/a.sfc", gameclient := some "gameclient.snes" })).isSome
      = true ∧
    GetGameClientIDs sampleManager
        { path := "/roms/a.sfc", gameclient := some "gameclient.snes" } ["gameclient.gb"] =
      ["gameclient.gb"] ++
        [requestedClient { path := "/roms/a.sfc", gameclient := some "gameclient.snes" }] :=
  ⟨by decide, by decide, by decide,
    ((GetGameClientIDs_appends sampleManager (by decide)
      { path := "/roms/a.sfc", gameclient := some "gameclient.snes" } ["gameclient.gb"]).2
      (by decide)).1 (by decide)⟩

/-- C22: in every registry reached from the empty one through `RegisterAddon`
and `UnregisterAddonByID` no entry is stored under the wrapper's id; for an
enabled client whose id is registered there, `RegisterAddon` returns true,
leaves the registry and the client as they are (no `Create`, no `Destroy`) and
calls no collaborator; for a null client and for a client with the wrapper's
id it returns false on any registry and leaves it unchanged. -/
theorem RegisterAddon_idempotent (wrapper : String) (ops : List RegistryOp) (host : AddonHost)
    (envCreate envDestroy : Env) (cm : Machine) :
    mapFind (runRegistry wrapper {} ops).m_gameClients wrapper = none ∧
    (host.Enabled = true → host.IsAddonDisabled = false →
      (mapFind (runRegistry wrapper {} ops).m_gameClients cm.client.id).isSome = true →
      (RegisterAddon wrapper host envCreate envDestroy (runRegistry wrapper {} ops)
          (some cm)).ret = .normal true ∧
      (RegisterAddon wrapper host envCreate envDestroy (runRegistry wrapper {} ops)
          (some cm)).manager = runRegistry wrapper {} ops ∧
      (RegisterAddon wrapper host envCreate envDestroy (runRegistry wrapper {} ops)
          (some cm)).client = some cm ∧
      (RegisterAddon wrapper host envCreate envDestroy (runRegistry wrapper {} ops)
          (some cm)).hostCalls = []) ∧
    (∀ mgr : CGameManager,
      (RegisterAddon wrapper host envCreate envDestroy mgr none).ret = .normal false ∧
      (RegisterAddon wrapper host envCreate envDestroy mgr none).manager = mgr ∧
      (RegisterAddon wrapper host envCreate envDestroy mgr none).hostCalls = []) ∧
    (∀ mgr : CGameManager, cm.client.id = wrapper →
      (RegisterAddon wrapper host envCreate envDestroy mgr (some cm)).ret = .normal false ∧
      (RegisterAddon wrapper host envCreate envDestroy mgr (some cm)).manager = mgr ∧
      (RegisterAddon wrapper host envCreate envDestroy mgr (some cm)).client = some cm ∧
      (RegisterAddon wrapper host envCreate envDestroy mgr (some cm)).hostCalls = []) := by
  have hreach := (runRegistry_spec wrapper ops {} WF_empty rfl).2
  refine ⟨hreach, fun he hd hs => ?_, fun mgr => ⟨rfl, rfl, rfl⟩, fun mgr hw => ?_⟩
  · have hw : cm.client.id ≠ wrapper := by
      intro e
      rw [e, hreach] at hs
      exact absurd hs (by decide)
    have he' : ¬ (!host.Enabled || host.IsAddonDisabled) = true := by simp [he, hd]
    simp only [RegisterAddon, if_neg hw, if_neg he', if_pos hs, and_self]
  · simp only [RegisterAddon, if_pos hw, and_self]

/-- Witness for `RegisterAddon_idempotent`: the sample client is registered,
then registered again. -/
theorem RegisterAddon_idempotent_witness :
    (RegisterAddon "game.libretro" { Enabled := true, IsAddonDisabled := false }
        sampleEnv sampleEnv
        (runRegistry "game.libretro" {}
          [.register { Enabled := true, IsAddonDisabled := false } sampleEnv sampleEnv
            (some { client := sampleClient })])
        (some { client := sampleClient })).ret = .normal true ∧
    (RegisterAddon "game.libretro" { Enabled := true, IsAddonDisabled := false }
        sampleEnv sampleEnv
        (runRegistry "game.libretro" {}
          [.register { Enabled := true, IsAddonDisabled := false } sampleEnv sampleEnv
            (some { client := sampleClient })])
        (some { client := sampleClient })).manager =
      runRegistry "game.libretro" {}
        [.register { Enabled := true, IsAddonDisabled := false } sampleEnv sampleEnv
          (some { client := sampleClient })] :=
  have h := (RegisterAddon_idempotent "game.libretro"
    [.register { Enabled := true, IsAddonDisabled := false } sampleEnv sampleEnv
      (some { client := sampleClient })]
    { Enabled := true, IsAddonDisabled := false } sampleEnv sampleEnv
    { client := sampleClient }).2.1 rfl rfl (by decide)
  ⟨h.1, h.2.1⟩

end GameManager

namespace GameManager

open GameClient

/-! ## Lemmas on the list of all game clients -/

theorem removeDuplicatesFrom_ids (l : List Addon) :
    ∀ (a : Addon) (x : String),
      x ∈ (removeDuplicatesFrom a l).map Addon.id ↔ x = a.id ∨ x ∈ l.map Addon.id := by
  induction l with
  | nil => intro a x; simp [removeDuplicatesFrom]
  | cons b rest ih =>
    intro a x
    unfold removeDuplicatesFrom
    by_cases h : a.id = b.id
    · rw [if_pos h, ih a x, List.map_cons, List.mem_cons, ← h]
      tauto
    · rw [if_neg h, List.map_cons, List.mem_cons, ih b x, List.map_cons, List.mem_cons]

theorem removeDuplicatesFrom_ascending (l : List Addon) :
    ∀ a : Addon, (a :: l).Pairwise (fun a b => stringLess b.id a.id = false) →
      ((removeDuplicatesFrom a l).map Addon.id).Pairwise (fun a b => stringLess a b = true) := by
  induction l with
  | nil => intro a _; simp [removeDuplicatesFrom]
  | cons b rest ih =>
    intro a h
    obtain ⟨ha, hrest⟩ := List.pairwise_cons.1 h
    obtain ⟨hb, hrest2⟩ := List.pairwise_cons.1 hrest
    unfold removeDuplicatesFrom
    by_cases hab : a.id = b.id
    · rw [if_pos hab]
      exact ih a (List.pairwise_cons.2 ⟨fun y hy => ha y (List.mem_cons_of_mem _ hy), hrest2⟩)
    · rw [if_neg hab, List.map_cons, List.pairwise_cons]
      refine ⟨fun x hx => ?_, ih b hrest⟩
      have hlt : stringLess a.id b.id = true := by
        cases h1 : stringLess a.id b.id with
        | true => rfl
        | false => exact absurd (stringLess_total h1 (ha b (List.mem_cons_self _ _))) hab
      rcases (removeDuplicatesFrom_ids rest b x).1 hx with hx | hx
      · rw [hx]; exact hlt
      · obtain ⟨y, hy, hyx⟩ := List.mem_map.1 hx
        rw [← hyx]
        exact stringLess_of_lt_of_le hlt (hb y hy)

theorem removeDuplicates_ids (l : List Addon) (x : String) :
    x ∈ (removeDuplicates l).map Addon.id ↔ x ∈ l.map Addon.id := by
  cases l with
  | nil => simp [removeDuplicates]
  | cons a rest =>
    rw [removeDuplicates, removeDuplicatesFrom_ids, List.map_cons, List.mem_cons]

theorem removeDuplicates_ascending (l : List Addon)
    (h : l.Pairwise (fun a b => stringLess b.id a.id = false)) :
    ((removeDuplicates l).map Addon.id).Pairwise (fun a b => stringLess a b = true) := by
  cases l with
  | nil => simp [removeDuplicates]
  | cons a rest => exact removeDuplicatesFrom_ascending rest a h

theorem insertByID_perm (a : Addon) (l : List Addon) : (insertByID a l).Perm (a :: l) := by
  induction l with
  | nil => exact List.Perm.refl _
  | cons b rest ih =>
    unfold insertByID
    by_cases h : stringLess b.id a.id = true
    · rw [if_pos h]
      exact (List.Perm.cons b ih).trans (List.Perm.swap a b rest)
    · rw [if_neg h]

theorem insertByID_sorted (a : Addon) (l : List Addon)
    (h : l.Pairwise (fun a b => stringLess b.id a.id = false)) :
    (insertByID a l).Pairwise (fun a b => stringLess b.id a.id = false) := by
  induction l with
  | nil => simp [insertByID]
  | cons b rest ih =>
    obtain ⟨hb, hrest⟩ := List.pairwise_cons.1 h
    unfold insertByID
    by_cases hba : stringLess b.id a.id = true
    · rw [if_pos hba, List.pairwise_cons]
      refine ⟨fun y hy => ?_, ih hrest⟩
      rcases List.mem_cons.1 ((insertByID_perm a rest).subset hy) with hy | hy
      · rw [hy]; exact stringLess_asymm hba
      · exact hb y hy
    · rw [if_neg hba, List.pairwise_cons]
      have hba' : stringLess b.id a.id = false := by simpa using hba
      refine ⟨fun y hy => ?_, h⟩
      rcases List.mem_cons.1 hy with hy | hy
      · rw [hy]; exact hba'
      · exact stringLess_le_trans hba' (hb y hy)

theorem sortByID_sorts : SortsByID sortByID := by
  intro l
  induction l with
  | nil => exact ⟨List.Perm.refl _, List.Pairwise.nil⟩
  | cons a rest ih =>
    exact ⟨(insertByID_perm a _).trans (List.Perm.cons a ih.1), insertByID_sorted a _ ih.2⟩

/-! ## Properties of the list of all game clients -/

/-- C23: for every sorting function with the guarantee of `std::sort`, every
input list and every answer of the three sources, `GetAllGameClients` (a total
function) leaves a list whose ids ascend strictly, and an id occurs in it
exactly when it occurs in the input list or in one of the sources; when the
input list and the sources are all empty the list stays empty. -/
theorem GetAllGameClients_ids (sort : List Addon → List Addon) (hsort : SortsByID sort)
    (database : Option (List Addon)) (enabled disabled addons : List Addon) :
    ((GetAllGameClients sort database enabled disabled addons).map Addon.id).Pairwise
      (fun a b => stringLess a b = true) ∧
    (∀ id, id ∈ (GetAllGameClients sort database enabled disabled addons).map Addon.id ↔
      id ∈ (addons ++ database.getD [] ++ enabled ++ disabled).map Addon.id) ∧
    (addons ++ database.getD [] ++ enabled ++ disabled = [] →
      GetAllGameClients sort database enabled disabled addons = []) := by
  have key : ∀ L : List Addon,
      ((if L ≠ [] then removeDuplicates (sort L) else L).map Addon.id).Pairwise
        (fun a b => stringLess a b = true) ∧
      (∀ id, id ∈ (if L ≠ [] then removeDuplicates (sort L) else L).map Addon.id ↔
        id ∈ L.map Addon.id) ∧
      (L = [] → (if L ≠ [] then removeDuplicates (sort L) else L) = []) := by
    intro L
    by_cases hne : L = []
    · have hne' : ¬ L ≠ [] := fun h => h hne
      rw [if_neg hne', hne]
      exact ⟨List.Pairwise.nil, fun _ => Iff.rfl, fun _ => rfl⟩
    · have hne' : L ≠ [] := hne
      rw [if_pos hne']
      obtain ⟨hperm, hsorted⟩ := hsort L
      refine ⟨removeDuplicates_ascending _ hsorted, fun id => ?_, fun h => absurd h hne⟩
      rw [removeDuplicates_ids]
      exact (hperm.map Addon.id).mem_iff
  cases database with
  | none =>
    simp only [Option.getD_none, List.append_nil]
    exact key (addons ++ enabled ++ disabled)
  | some tempAddons =>
    simp only [Option.getD_some]
    exact key (addons ++ tempAddons ++ enabled ++ disabled)

/-- Witness for `GetAllGameClients_ids`: insertion sort, a database with two
add-ons, one of them also installed and enabled, and one disabled add-on
already in the list. -/
theorem GetAllGameClients_ids_witness :
    SortsByID sortByID ∧
    GetAllGameClients sortByID
        (some [{ id := "gameclient.snes", name := "remote" }, { id := "gameclient.gb" }])
        [{ id := "gameclient.snes", name := "local" }] [{ id := "gameclient.nes" }]
        [{ id := "gameclient.nes" }] =
      [{ id := "gameclient.gb" }, { id := "gameclient.nes" },
        { id := "gameclient.snes", name := "remote" }] ∧
    ((GetAllGameClients sortByID
        (some [{ id := "gameclient.snes", name := "remote" }, { id := "gameclient.gb" }])
        [{ id := "gameclient.snes", name := "local" }] [{ id := "gameclient.nes" }]
        [{ id := "gameclient.nes" }]).map Addon.id).Pairwise
      (fun a b => stringLess a b = true) :=
  ⟨sortByID_sorts, by decide,
    (GetAllGameClients_ids sortByID sortByID_sorts
      (some [{ id := "gameclient.snes", name := "remote" }, { id := "gameclient.gb" }])
      [{ id := "gameclient.snes", name := "local" }] [{ id := "gameclient.nes" }]
      [{ id := "gameclient.nes" }]).1⟩

end GameManager

namespace GameClient

/-! ## Lemmas on the extension set -/

theorem setInsert_mem (e : String) (l : List String) (x : String) :
    x ∈ setInsert e l ↔ x = e ∨ x ∈ l := by
  induction l with
  | nil => simp [setInsert]
  | cons y ys ih =>
    unfold setInsert
    by_cases h1 : stringLess e y = true
    · rw [if_pos h1, List.mem_cons]
    · rw [if_neg h1]
      by_cases h2 : e = y
      · rw [if_pos h2, h2]
        simp
      · rw [if_neg h2, List.mem_cons, ih, List.mem_cons]
        tauto

theorem setInsert_ascending (e : String) (l : List String)
    (h : l.Pairwise (fun a b => stringLess a b = true)) :
    (setInsert e l).Pairwise (fun a b => stringLess a b = true) := by
  induction l with
  | nil => simp [setInsert]
  | cons y ys ih =>
    obtain ⟨hy, hys⟩ := List.pairwise_cons.1 h
    unfold setInsert
    by_cases h1 : stringLess e y = true
    · rw [if_pos h1, List.pairwise_cons]
      refine ⟨fun x hx => ?_, h⟩
      rcases List.mem_cons.1 hx with hx | hx
      · rw [hx]; exact h1
      · exact stringLess_trans h1 (hy x hx)
    · rw [if_neg h1]
      by_cases h2 : e = y
      · rw [if_pos h2]
        exact h
      · rw [if_neg h2, List.pairwise_cons]
        refine ⟨fun x hx => ?_, ih hys⟩
        rcases (setInsert_mem e ys x).1 hx with hx | hx
        · rw [hx]
          cases h3 : stringLess y e with
          | true => rfl
          | false => exact absurd (stringLess_total (by simpa using h1) h3) h2
        · exact hy x hx

theorem data_ne_nil_iff (e : String) : e.data ≠ [] ↔ e ≠ "" :=
  ⟨fun h he => h (by rw [he]), fun h he => h (String.ext he)⟩

theorem SetExtensions_eq (L : String) :
    SetExtensions L =
      (Split L).foldl
        (fun extensions ext =>
          if ext.data = [] then extensions else setInsert (canonical ext) extensions) [] := rfl

theorem IsExtensionValid_eq (c : CGameClient) (e : String) :
    IsExtensionValid c e =
      if c.m_extensions = [] then true
      else if e.data = [] then false
      else decide (canonical e ∈ c.m_extensions) := rfl

theorem foldl_setInsert_mem (es : List String) :
    ∀ (acc : List String) (x : String),
      x ∈ es.foldl
          (fun extensions ext =>
            if ext.data = [] then extensions else setInsert (canonical ext) extensions) acc ↔
        x ∈ acc ∨ ∃ e ∈ es, e ≠ "" ∧ x = canonical e := by
  induction es with
  | nil => intro acc x; simp
  | cons e rest ih =>
    intro acc x
    rw [List.foldl_cons, ih]
    by_cases he : e.data = []
    · have he' : e = "" := String.ext he
      rw [if_pos he]
      constructor
      · rintro (h | ⟨e1, h1, h2, h3⟩)
        · exact Or.inl h
        · exact Or.inr ⟨e1, List.mem_cons_of_mem _ h1, h2, h3⟩
      · rintro (h | ⟨e1, h1, h2, h3⟩)
        · exact Or.inl h
        · rcases List.mem_cons.1 h1 with h1 | h1
          · exact absurd (h1 ▸ he') h2
          · exact Or.inr ⟨e1, h1, h2, h3⟩
    · rw [if_neg he, setInsert_mem]
      constructor
      · rintro ((h | h) | ⟨e1, h1, h2, h3⟩)
        · exact Or.inr ⟨e, List.mem_cons_self _ _, (data_ne_nil_iff e).1 he, h⟩
        · exact Or.inl h
        · exact Or.inr ⟨e1, List.mem_cons_of_mem _ h1, h2, h3⟩
      · rintro (h | ⟨e1, h1, h2, h3⟩)
        · exact Or.inl (Or.inr h)
        · rcases List.mem_cons.1 h1 with h1 | h1
          · exact Or.inl (Or.inl (h1 ▸ h3))
          · exact Or.inr ⟨e1, h1, h2, h3⟩

theorem foldl_setInsert_ascending (es : List String) :
    ∀ acc : List String, acc.Pairwise (fun a b => stringLess a b = true) →
      (es.foldl
        (fun extensions ext =>
          if ext.data = [] then extensions else setInsert (canonical ext) extensions)
        acc).Pairwise (fun a b => stringLess a b = true) := by
  induction es with
  | nil => exact fun acc h => h
  | cons e rest ih =>
    intro acc h
    rw [List.foldl_cons]
    apply ih
    by_cases he : e.data = []
    · rw [if_pos he]; exact h
    · rw [if_neg he]; exact setInsert_ascending _ _ h

theorem SetExtensions_mem (L : String) (x : String) :
    x ∈ SetExtensions L ↔ ∃ e ∈ Split L, e ≠ "" ∧ x = canonical e := by
  rw [SetExtensions_eq, foldl_setInsert_mem]
  simp

theorem SetExtensions_ascending (L : String) :
    (SetExtensions L).Pairwise (fun a b => stringLess a b = true) := by
  rw [SetExtensions_eq]
  exact foldl_setInsert_ascending _ [] List.Pairwise.nil

theorem ToLower_idem (s : String) : ToLower (ToLower s) = ToLower s := by
  unfold ToLower
  simp only [List.map_map]
  congr 1
  exact List.map_congr_left fun c _ => toLower_idem c

theorem canonical_head (e : String) : (canonical e).data.head? = some '.' := by
  unfold canonical
  by_cases h : (ToLower e).data.head? = some '.'
  · have h' : ¬ (ToLower e).data.head? ≠ some '.' := fun g => g h
    rw [if_neg h']
    exact h
  · rw [if_pos h]
    rfl

theorem canonical_lower (e : String) : ToLower (canonical e) = canonical e := by
  unfold canonical
  by_cases h : (ToLower e).data.head? = some '.'
  · have h' : ¬ (ToLower e).data.head? ≠ some '.' := fun g => g h
    rw [if_neg h']
    exact ToLower_idem e
  · rw [if_pos h]
    have := congrArg String.data (ToLower_idem e)
    unfold ToLower at this ⊢
    simp only [List.map_cons] at this ⊢
    rw [this]
    rfl

theorem ToLower_head (e : String) :
    (ToLower e).data.head? = some '.' ↔ e.data.head? = some '.' := by
  unfold ToLower
  cases e.data with
  | nil => simp
  | cons c cs => simp [toLower_eq_dot]

theorem canonical_dotted (e : String) (h : e.data.head? ≠ some '.') :
    canonical (String.mk ('.' :: e.data)) = canonical e := by
  have h1 : (ToLower e).data.head? ≠ some '.' := fun g => h ((ToLower_head e).1 g)
  have h2 : ToLower (String.mk ('.' :: e.data)) = String.mk ('.' :: (ToLower e).data) := rfl
  unfold canonical
  rw [if_pos h1, h2]
  have h3 : ¬ (String.mk ('.' :: (ToLower e).data)).data.head? ≠ some '.' := fun g => g rfl
  rw [if_neg h3]

theorem canonical_undotted (e : String) (t : List Char) (he : e.data = '.' :: t)
    (ht : t.head? ≠ some '.') : canonical (String.mk t) = canonical e := by
  have e1 : e = String.mk ('.' :: (String.mk t).data) := String.ext he
  rw [e1]
  exact (canonical_dotted (String.mk t) ht).symm

/-! ## Properties of the extension set -/

/-- C24 (as stated, fails): the list "." has the non-empty entry "." and gives
the set {"."}; the entry without its leading "." is the empty string, for which
`IsExtensionValid` returns false.  Likewise the list "..nes" gives the set
{"..nes"}, and `IsExtensionValid(".nes")` returns false. -/
theorem IsExtensionValid_rejects_stripped_entry :
    Split "." = ["."] ∧ SetExtensions "." = ["."] ∧
    IsExtensionValid { sampleClient with m_extensions := SetExtensions "." } "" = false ∧
    Split "..nes" = ["..nes"] ∧ SetExtensions "..nes" = ["..nes"] ∧
    IsExtensionValid { sampleClient with m_extensions := SetExtensions "..nes" } ".nes"
      = false := by
  decide

/-- C24 (amended): the set built by `SetExtensions(L)` ascends strictly and
consists of the canonical forms (lower case, leading ".") of the non-empty
entries of `L`, so every element is lower-case and starts with "." and two
lists with the same canonical non-empty entries build the same set.  For a
client that declares this set and a non-empty entry `e` of `L`,
`IsExtensionValid` returns true for `e`, for every string that agrees with `e`
up to letter case, for "." followed by `e` when `e` has no leading ".", and for
`e` without its leading "." when what follows that "." is not empty and does
not itself start with ".". -/
theorem SetExtensions_IsExtensionValid_agree (L : String) (c : CGameClient)
    (hc : c.m_extensions = SetExtensions L) :
    (SetExtensions L).Pairwise (fun a b => stringLess a b = true) ∧
    (∀ x, x ∈ SetExtensions L ↔ ∃ e ∈ Split L, e ≠ "" ∧ x = canonical e) ∧
    (∀ x ∈ SetExtensions L, ToLower x = x ∧ x.data.head? = some '.') ∧
    (∀ L2 : String,
      (∀ x, (∃ e ∈ Split L, e ≠ "" ∧ x = canonical e) ↔
        (∃ e ∈ Split L2, e ≠ "" ∧ x = canonical e)) →
      SetExtensions L = SetExtensions L2) ∧
    (∀ e ∈ Split L, e ≠ "" →
      IsExtensionValid c e = true ∧
      (∀ e2, ToLower e2 = ToLower e → IsExtensionValid c e2 = true) ∧
      (e.data.head? ≠ some '.' → IsExtensionValid c (String.mk ('.' :: e.data)) = true) ∧
      (∀ t, e.data = '.' :: t → t ≠ [] → t.head? ≠ some '.' →
        IsExtensionValid c (String.mk t) = true)) := by
  have hvalid : ∀ e ∈ Split L, e ≠ "" → ∀ e2 : String, e2.data ≠ [] →
      canonical e2 = canonical e → IsExtensionValid c e2 = true := by
    intro e he hne e2 hne2 hcan
    have hmem : canonical e2 ∈ c.m_extensions := by
      rw [hc, SetExtensions_mem]
      exact ⟨e, he, hne, hcan⟩
    have hnil : c.m_extensions ≠ [] := List.ne_nil_of_mem hmem
    rw [IsExtensionValid_eq, if_neg hnil, if_neg hne2]
    exact decide_eq_true hmem
  refine ⟨SetExtensions_ascending L, SetExtensions_mem L, fun x hx => ?_, fun L2 h => ?_,
    fun e he hne => ⟨?_, fun e2 h2 => ?_, fun hd => ?_, fun t ht htne hth => ?_⟩⟩
  · obtain ⟨e, _, _, hxe⟩ := (SetExtensions_mem L x).1 hx
    rw [hxe]
    exact ⟨canonical_lower e, canonical_head e⟩
  · apply ascending_ext _ _ (SetExtensions_ascending L) (SetExtensions_ascending L2)
    intro x
    rw [SetExtensions_mem, SetExtensions_mem]
    exact h x
  · exact hvalid e he hne e ((data_ne_nil_iff e).2 hne) rfl
  · apply hvalid e he hne e2
    · intro h0
      have h3 : (ToLower e2).data = (ToLower e).data := by rw [h2]
      unfold ToLower at h3
      simp only [h0, List.map_nil] at h3
      exact (data_ne_nil_iff e).2 hne (List.map_eq_nil_iff.1 h3.symm)
    · unfold canonical
      rw [h2]
  · exact hvalid e he hne _ (List.cons_ne_nil _ _) (canonical_dotted e hd)
  · exact hvalid e he hne _ htne (canonical_undotted e t ht hth)

/-- Witness for `SetExtensions_IsExtensionValid_agree`: the list ".NES|unf"
and the forms "nes", ".Nes" and ".unf" of its entries. -/
theorem SetExtensions_IsExtensionValid_agree_witness :
    ({ sampleClient with m_extensions := SetExtensions ".NES|unf" } : CGameClient).m_extensions =
      SetExtensions ".NES|unf" ∧
    SetExtensions ".NES|unf" = [".nes", ".unf"] ∧
    ".NES" ∈ Split ".NES|unf" ∧ "unf" ∈ Split ".NES|unf" ∧
    IsExtensionValid { sampleClient with m_extensions := SetExtensions ".NES|unf" } "nes"
      = true ∧
    IsExtensionValid { sampleClient with m_extensions := SetExtensions ".NES|unf" } ".Nes"
      = true ∧
    IsExtensionValid { sampleClient with m_extensions := SetExtensions ".NES|unf" } ".unf"
      = true :=
  have h := (SetExtensions_IsExtensionValid_agree ".NES|unf"
    { sampleClient with m_extensions := SetExtensions ".NES|unf" } rfl).2.2.2.2
  ⟨rfl, by decide, by decide, by decide,
    (h ".NES" (by decide) (by decide)).2.2.2 ['N', 'E', 'S'] rfl (by decide) (by decide),
    (h ".NES" (by decide) (by decide)).2.1 ".Nes" (by decide),
    (h "unf" (by decide) (by decide)).2.2.1 (by decide)⟩

end GameClient

namespace GameClient

/-! ## Serialization across sessions -/

theorem OpenInternal_keeps_serialization (env : Env) (file : CFileItem) (m : Machine) :
    ∃ b m1, OpenInternal env file m = (.normal b, m1) ∧
      m1.client.m_bRewindEnabled = m.client.m_bRewindEnabled ∧
      m1.client.m_serializeSize = m.client.m_serializeSize := by
  unfold OpenInternal LoadGameInfo
  rcases h0 : env.LoadGame (env.translatedUrl file) with e0 | _
  · by_cases he0 : e0 = .GAME_ERROR_NO_ERROR
    · subst he0
      rcases h1 : env.GetSystemAVInfo with ⟨e, fps, sr⟩ | _
      · by_cases he : e = .GAME_ERROR_NO_ERROR
        · subst he
          rcases h2 : env.GetRegion with r | _ <;>
            simp [h0, h1, h2, run_bind, run_pure, run_attempt_call, run_modifyClient]
        · simp [h0, h1, he, run_bind, run_pure, run_attempt_call, run_modifyClient]
      · simp [h0, h1, run_bind, run_pure, run_attempt_call, run_modifyClient]
    · simp [h0, he0, run_bind, run_pure, run_attempt_call, run_modifyClient]
  · simp [h0, run_bind, run_pure, run_attempt_call, run_modifyClient]

theorem InitSerialization_unsupported (env : Env) (m : Machine)
    (hs : env.SerializeSize = .returns 0 ∨ env.SerializeSize = .raises) :
    InitSerialization env m = (.normal false, { m with trace := m.trace ++ [.SerializeSize] }) := by
  rw [InitSerialization_run]
  rcases hs with hs | hs <;> simp [hs]

/-- C25 (violated by the code): when the core reports a serialize size of 0,
or `SerializeSize` raises, `OpenFile` ends normally and leaves the
rewind-enabled flag and the stored serialize size exactly as they were before
the call, because `InitSerialization` returns before it assigns them and
`CloseFile` does not reset them.  A session that earlier played content with
rewind enabled therefore goes on with the flag true and the old size. -/
theorem OpenFile_keeps_stale_serialization (K : Consts) (env : Env) (file : CFileItem)
    (player : Option Nat) (m : Machine)
    (hs : env.SerializeSize = .returns 0 ∨ env.SerializeSize = .raises) :
    ∃ b m1, OpenFile K env file player m = (.normal b, m1) ∧
      m1.client.m_bRewindEnabled = m.client.m_bRewindEnabled ∧
      m1.client.m_serializeSize = m.client.m_serializeSize := by
  by_cases hpass : entryChecksPass m.client file
  · obtain ⟨hready, hprop⟩ := hpass
    have hcheck :
        (file.gameclient.isSome && decide (file.gameclient ≠ some m.client.id)) = false := by
      rcases hprop with h | h <;> simp [h]
    rcases hC : CloseFile env m with ⟨c1, m1⟩
    have hC1 := CloseFile_run env m
    rw [hC] at hC1
    obtain ⟨hc1, hm1⟩ := Prod.mk.inj hC1
    have hrw1 : m1.client.m_bRewindEnabled = m.client.m_bRewindEnabled := by rw [hm1]
    have hsz1 : m1.client.m_serializeSize = m.client.m_serializeSize := by rw [hm1]
    subst hc1
    obtain ⟨b, m2, hO, hrw2, hsz2⟩ := OpenInternal_keeps_serialization env file m1
    unfold OpenFile
    simp only [run_bind, run_getClient, hready, Bool.not_true, Bool.false_eq_true, if_false,
      hcheck, run_pure, hC, hO]
    cases b with
    | false =>
      refine ⟨false, m2, ?_, hrw2.trans hrw1, hsz2.trans hsz1⟩
      simp [run_bind, run_pure]
    | true =>
      simp only [if_true, run_modifyClient, run_bind, InitSerialization_unsupported env _ hs,
        SetDevice_run, run_pure]
      exact ⟨true, _, rfl, hrw2.trans hrw1, hsz2.trans hsz1⟩
  · obtain ⟨b, m1, hO, hm, _⟩ := OpenFile_false_state_aux K env file player m hpass
    exact ⟨b, m1, hO, by rw [hm], by rw [hm]⟩

/-- Witness for `OpenFile_keeps_stale_serialization`: the sample session played
"/roms/a.nes" with rewind enabled and closed it; it then opens "/roms/b.nes"
with a core that reports a serialize size of 0.  `OpenFile` returns true with
the flag still set and the size still 1024, and the next `RunFrame` calls
`Serialize`. -/
theorem OpenFile_keeps_stale_serialization_witness :
    (noSerializeEnv.SerializeSize = .returns 0 ∨ noSerializeEnv.SerializeSize = .raises) ∧
    (CloseFile sampleEnv { client := playingClient }).2.client = closedClient ∧
    (∃ b m1, OpenFile sampleConsts noSerializeEnv { path := "/roms/b.nes" } (some 1)
        { client := closedClient } = (.normal b, m1) ∧
      m1.client.m_bRewindEnabled = closedClient.m_bRewindEnabled ∧
      m1.client.m_serializeSize = closedClient.m_serializeSize) ∧
    closedClient.m_bRewindEnabled = true ∧ closedClient.m_serializeSize = 1024 ∧
    (OpenFile sampleConsts noSerializeEnv { path := "/roms/b.nes" } (some 1)
        { client := closedClient }).1 = .normal true ∧
    (RunFrame noSerializeEnv
      { client := (OpenFile sampleConsts noSerializeEnv { path := "/roms/b.nes" } (some 1)
          { client := closedClient }).2.client }).2.trace =
      [.Run, .Serialize .GetNextState, .bufferAdvanceFrame] :=
  ⟨Or.inl rfl, rfl,
    OpenFile_keeps_stale_serialization sampleConsts noSerializeEnv { path := "/roms/b.nes" }
      (some 1) { client := closedClient } (Or.inl rfl),
    rfl, rfl, rfl, rfl⟩

end GameClient

namespace GameClient

/-! ## Creation of the session -/

theorem GetAddonProperties_adopts (env : Env) (m : Machine) :
    ∃ b m1, GetAddonProperties env m = (.normal b, m1) ∧
      (b = true ↔ propertiesMatch env m.client) ∧
      (b = false → m1.client = m.client) ∧
      (b = true → ∃ n v, env.GetClientName = .returns n ∧ env.GetClientVersion = .returns v ∧
        m1.client = { m.client with m_strClientName := n, m_strClientVersion := v }) := by
  rcases m with ⟨⟨id, ext, vfs, nog, nm, ver, rdy, ply, plr, rgn, fr, frc, sr, ssz, rw, fp⟩, tr⟩
  unfold GetAddonProperties propertiesMatch
  rcases h1 : env.GetClientName with n | _
  · rcases h2 : env.GetClientVersion with v | _
    · rcases h3 : env.GetValidExtensions with e | _
      · rcases h4 : env.SupportsVFS with b4 | _
        · rcases h5 : env.SupportsNoGame with b5 | _
          · by_cases he : ext = SetExtensions e
            · subst he
              by_cases hv : vfs = b4
              · subst hv
                by_cases hn : nog = b5
                · subst hn
                  simp [h1, h2, h3, h4, h5, run_bind, run_pure, run_attempt_call,
                    run_modifyClient, run_getClient]
                · have hn' : ¬ b5 = nog := fun h => hn h.symm
                  simp [h1, h2, h3, h4, h5, hn, hn', run_bind, run_pure,
                    run_attempt_call, run_modifyClient, run_getClient]
              · have hv' : ¬ b4 = vfs := fun h => hv h.symm
                simp [h1, h2, h3, h4, h5, hv, hv', run_bind, run_pure, run_attempt_call,
                  run_modifyClient, run_getClient]
            · simp [h1, h2, h3, h4, h5, he, run_bind, run_pure, run_attempt_call,
                run_modifyClient, run_getClient]
          · simp [h1, h2, h3, h4, h5, run_bind, run_pure, run_attempt_call,
              run_modifyClient, run_getClient]
        · simp [h1, h2, h3, h4, run_bind, run_pure, run_attempt_call,
            run_modifyClient, run_getClient]
      · simp [h1, h2, h3, run_bind, run_pure, run_attempt_call,
          run_modifyClient, run_getClient]
    · simp [h1, h2, run_bind, run_pure, run_attempt_call, run_modifyClient, run_getClient]
  · simp [h1, run_bind, run_pure, run_attempt_call, run_modifyClient, run_getClient]

theorem Create_full (env : Env) (m : Machine) :
    ∃ status m1, Create env m = (.normal status, m1) ∧
      status = (match env.dllCreate with
                | .returns s => s
                | .raises => .ADDON_STATUS_UNKNOWN) ∧
      (m1.client.m_bReadyToUse = true ↔
        env.dllCreate = .returns .ADDON_STATUS_OK ∧ propertiesMatch env m.client) ∧
      (m1.client.m_bReadyToUse = true →
        ∃ n v, env.GetClientName = .returns n ∧ env.GetClientVersion = .returns v ∧
          m1.client.m_strClientName = n ∧ m1.client.m_strClientVersion = v) ∧
      (m1.client.m_bReadyToUse = false →
        m1.client.m_strClientName = m.client.m_strClientName ∧
        m1.client.m_strClientVersion = m.client.m_strClientVersion) := by
  obtain ⟨md, hD, hDc⟩ := Destroy_spec env m
  have hpm : propertiesMatch env md.client ↔ propertiesMatch env m.client :=
    propertiesMatch_congr env (by rw [hDc]) (by rw [hDc]) (by rw [hDc])
  have hnm : md.client.m_strClientName = m.client.m_strClientName := by rw [hDc]
  have hver : md.client.m_strClientVersion = m.client.m_strClientVersion := by rw [hDc]
  unfold Create
  simp only [run_bind, hD, run_tryCatch, run_call]
  rcases hc : env.dllCreate with st | _
  · by_cases hok : st = .ADDON_STATUS_OK
    · subst hok
      obtain ⟨b, mg, hG, hGb, hGf, hGt⟩ := GetAddonProperties_adopts env
        { client := md.client, trace := md.trace ++ [.dllCreate] }
      simp only [if_true, run_tryCatch, run_bind, hG, run_pure, run_modifyClient]
      refine ⟨_, _, rfl, rfl, ?_, ?_, ?_⟩
      · show b = true ↔ _
        rw [hGb]
        simp [hpm]
      · intro hb
        have hb' : b = true := hb
        obtain ⟨n, v, hn, hv, hcl⟩ := hGt hb'
        refine ⟨n, v, hn, hv, ?_, ?_⟩
        · show mg.client.m_strClientName = n
          rw [hcl]
        · show mg.client.m_strClientVersion = v
          rw [hcl]
      · intro hb
        have hb' : b = false := hb
        have hcl := hGf hb'
        constructor
        · show mg.client.m_strClientName = _
          rw [hcl]
          exact hnm
        · show mg.client.m_strClientVersion = _
          rw [hcl]
          exact hver
    · simp only [hok, if_false, run_pure, run_bind, run_modifyClient]
      refine ⟨_, _, rfl, rfl, ?_, ?_, fun _ => ⟨hnm, hver⟩⟩
      · simp [hok]
      · intro h
        exact absurd h (by simp)
  · simp only [run_pure, run_bind, run_modifyClient]
    refine ⟨_, _, rfl, rfl, by simp, ?_, fun _ => ⟨hnm, hver⟩⟩
    intro h
    exact absurd h (by simp)

/-- C27: `Create` ends normally and returns the status of the library load
(`ADDON_STATUS_UNKNOWN` when the load raised).  Afterwards the session is ready
exactly when that status is `ADDON_STATUS_OK`, no property query raised, and
the reported extension set and the two support flags equal the declared ones.
A ready session carries the name and the version the core reported, a session
that is not ready keeps the ones it had, and whether the session becomes ready
does not depend on which name and version the core reports. -/
theorem Create_status_and_readiness (env : Env) (m : Machine) :
    (∃ status m1, Create env m = (.normal status, m1) ∧
      status = (match env.dllCreate with
                | .returns s => s
                | .raises => .ADDON_STATUS_UNKNOWN) ∧
      (m1.client.m_bReadyToUse = true ↔
        env.dllCreate = .returns .ADDON_STATUS_OK ∧
        env.GetClientName ≠ .raises ∧ env.GetClientVersion ≠ .raises ∧
        (∃ e, env.GetValidExtensions = .returns e ∧ m.client.m_extensions = SetExtensions e) ∧
        env.SupportsVFS = .returns m.client.m_bSupportsVFS ∧
        env.SupportsNoGame = .returns m.client.m_bSupportsNoGame) ∧
      (m1.client.m_bReadyToUse = true →
        ∃ n v, env.GetClientName = .returns n ∧ env.GetClientVersion = .returns v ∧
          m1.client.m_strClientName = n ∧ m1.client.m_strClientVersion = v) ∧
      (m1.client.m_bReadyToUse = false →
        m1.client.m_strClientName = m.client.m_strClientName ∧
        m1.client.m_strClientVersion = m.client.m_strClientVersion)) ∧
    (∀ n v n2 v2 : String,
      (Create { env with GetClientName := .returns n, GetClientVersion := .returns v }
          m).2.client.m_bReadyToUse =
        (Create { env with GetClientName := .returns n2, GetClientVersion := .returns v2 }
          m).2.client.m_bReadyToUse) := by
  constructor
  · exact Create_full env m
  · intro n v n2 v2
    obtain ⟨s1, m1, h1, _, hr1, _⟩ := Create_full
      { env with GetClientName := .returns n, GetClientVersion := .returns v } m
    obtain ⟨s2, m2, h2, _, hr2, _⟩ := Create_full
      { env with GetClientName := .returns n2, GetClientVersion := .returns v2 } m
    rw [h1, h2]
    show m1.client.m_bReadyToUse = m2.client.m_bReadyToUse
    rw [Bool.eq_iff_iff, hr1, hr2]
    unfold propertiesMatch
    simp

/-- Witness for `Create_status_and_readiness`: the sample client and the sample
core; the session becomes ready and carries the name "Nestopia" and the version
"1.0". -/
theorem Create_status_and_readiness_witness :
    ∃ m1, Create sampleEnv { client := sampleClient } = (.normal .ADDON_STATUS_OK, m1) ∧
      m1.client.m_bReadyToUse = true ∧ m1.client.m_strClientName = "Nestopia" ∧
      m1.client.m_strClientVersion = "1.0" := by
  obtain ⟨status, m1, hC, hst, hready, hname, _⟩ :=
    (Create_status_and_readiness sampleEnv { client := sampleClient }).1
  have hs : status = .ADDON_STATUS_OK := hst
  subst hs
  have hr : m1.client.m_bReadyToUse = true :=
    hready.2 ⟨rfl, by decide, by decide, ⟨".nes", rfl, by decide⟩, rfl, rfl⟩
  obtain ⟨n, v, hn, hv, h1, h2⟩ := hname hr
  have hn' : n = "Nestopia" := (CoreResult.returns.inj hn).symm
  have hv' : v = "1.0" := (CoreResult.returns.inj hv).symm
  exact ⟨m1, hC, hr, by rw [h1, hn'], by rw [h2, hv']⟩

end GameClient

namespace RetroPlayerInput

/-! ## The order of the lookup table, out-of-range actions and `Reset` -/

theorem DeviceItem.lt_iff (a b : DeviceItem) :
    a.lt b = true ↔
      a.controllerID < b.controllerID ∨ (a.controllerID = b.controllerID ∧
        (a.key < b.key ∨ (a.key = b.key ∧
          (a.buttonID < b.buttonID ∨ (a.buttonID = b.buttonID ∧
            (a.hatID < b.hatID ∨ (a.hatID = b.hatID ∧ a.hatDir < b.hatDir))))))) := by
  simp only [DeviceItem.lt]
  split_ifs <;> simp_all

theorem GetInput_analog_outside {K : Consts} (hK : K.WF) (s : CRetroPlayerInput) {c : Nat}
    (hc : c < K.ports) (hY : K.GAME_DEVICE_ID_ANALOG_Y < K.ACTION_GAME_CONTROL_START)
    (hR : K.GAME_DEVICE_INDEX_ANALOG_RIGHT ≠ 0) :
    GetInput K s c K.GAME_DEVICE_ANALOG 0 0 =
      .error (.outOfBounds c
        ((2 ^ 32 + K.GAME_DEVICE_ID_ANALOG_Y - K.ACTION_GAME_CONTROL_START : Nat) : Int)) := by
  obtain ⟨_, _, hSB, hR3, hR3E, hE, hW, hmaskJ, hmaskA, hAJ, hAM, hAL⟩ := hK
  have hoff : toU32 ((K.GAME_DEVICE_ID_ANALOG_Y : Int) - K.ACTION_GAME_CONTROL_START) =
      2 ^ 32 + K.GAME_DEVICE_ID_ANALOG_Y - K.ACTION_GAME_CONTROL_START := by
    unfold toU32
    omega
  have hcol : (0 + (2 ^ 32 + K.GAME_DEVICE_ID_ANALOG_Y - K.ACTION_GAME_CONTROL_START)) % 2 ^ 32
      = 2 ^ 32 + K.GAME_DEVICE_ID_ANALOG_Y - K.ACTION_GAME_CONTROL_START := by
    omega
  have hout : ¬ inTable K c
      ((2 ^ 32 + K.GAME_DEVICE_ID_ANALOG_Y - K.ACTION_GAME_CONTROL_START : Nat) : Int) := by
    rintro ⟨_, _, h3⟩
    omega
  have hR' : ¬ 0 = K.GAME_DEVICE_INDEX_ANALOG_RIGHT := fun e => hR e.symm
  simp only [GetInput, hc, if_true, hmaskA, hAJ, hAM, hAL, if_false, Nat.zero_le, and_self,
    hoff, hR', hcol, readCell, hout]

theorem readCell_Reset (K : Consts) (s : CRetroPlayerInput) (row : Nat) (col : Int) :
    readCell K (Reset s) row col = .ok 0 ∨
      (¬ inTable K row col ∧ readCell K (Reset s) row col = .error (.outOfBounds row col)) := by
  unfold readCell
  by_cases h : inTable K row col
  · rw [if_pos h]
    exact Or.inl rfl
  · rw [if_neg h]
    exact Or.inr ⟨h, rfl⟩

theorem GetInput_Reset (K : Consts) (s : CRetroPlayerInput) (port device index id : Nat) :
    GetInput K (Reset s) port device index id = .ok 0 ∨
      ∃ col, ¬ inTable K port col ∧
        GetInput K (Reset s) port device index id = .error (.outOfBounds port col) := by
  have key : ∀ col : Int, readCell K (Reset s) port col = .ok 0 ∨
      ∃ col2, ¬ inTable K port col2 ∧
        readCell K (Reset s) port col = .error (.outOfBounds port col2) := by
    intro col
    rcases readCell_Reset K s port col with h | ⟨h1, h2⟩
    · exact Or.inl h
    · exact Or.inr ⟨col, h1, h2⟩
  simp only [GetInput]
  split_ifs <;> first | exact key _ | exact Or.inl rfl

theorem processUp_Reset {K : Consts} (s : CRetroPlayerInput) {c i : Nat} (item : DeviceItem)
    (hc : c < K.ports) (hi : i < K.width) (hf : mapFind s.m_deviceItems item = some (i : Int)) :
    processUp K (Reset s) c item =
      .ok { m_joypadState := fun _ _ => 0, m_deviceItems := mapErase s.m_deviceItems item } := by
  have hf' : mapFind (Reset s).m_deviceItems item = some (i : Int) := hf
  rw [processUp_ok (Reset s) item hc hi hf']
  simp [Reset]

/-- C26 (violated by the code): `operator <` on `DeviceItem` is a strict weak
order (irreflexive, transitive, with transitive equivalence), but its
equivalence is agreement in `controllerID`, `key`, `buttonID`, `hatID` and
`hatDir` only: `axisID` is never compared.  Any two analog axes of one
controller, and any analog axis and button 0 of one controller, are equivalent
keys, and after two non-centred events on two axes of a controller the entry
found for the first axis holds the control id of the second. -/
theorem DeviceItem_order_ignores_axisID (K : Consts) (s : CRetroPlayerInput)
    (c x1 x2 i j : Nat) (a1 a2 : CAction)
    (hc : c < K.ports) (hi : i < K.width) (hj : j < K.width)
    (h1 : TranslateActionID K a1.id = i) (h2 : TranslateActionID K a2.id = j)
    (hamount1 : a1.amount = 1) (hamount2 : a2.amount = 1) :
    (∀ a : DeviceItem, a.lt a = false) ∧
    (∀ a b d : DeviceItem, a.lt b = true → b.lt d = true → a.lt d = true) ∧
    (∀ a b d : DeviceItem, a.equiv b = true → b.equiv d = true → a.equiv d = true) ∧
    (∀ a b : DeviceItem, a.equiv b = true ↔
      a.controllerID = b.controllerID ∧ a.key = b.key ∧ a.buttonID = b.buttonID ∧
        a.hatID = b.hatID ∧ a.hatDir = b.hatDir) ∧
    DeviceItem.equiv { controllerID := c, axisID := x1 } { controllerID := c, axisID := x2 }
      = true ∧
    DeviceItem.equiv { controllerID := c, axisID := x1 } { controllerID := c, buttonID := 0 }
      = true ∧
    (∃ s2, run K s [.analogAxis c x1 a1, .analogAxis c x2 a2] = .ok s2 ∧
      mapFind s2.m_deviceItems { controllerID := c, axisID := x1 % 256 } = some (j : Int) ∧
      (s.m_deviceItems = [] → s2.m_deviceItems.length = 1)) := by
  refine ⟨fun a => ?_, fun a b d hab hbd => ?_, fun a b d hab hbd => ?_,
    DeviceItem.equiv_iff, (DeviceItem.equiv_iff _ _).2 ⟨rfl, rfl, rfl, rfl, rfl⟩,
    (DeviceItem.equiv_iff _ _).2 ⟨rfl, rfl, rfl, rfl, rfl⟩, ?_⟩
  · cases h : a.lt a with
    | false => rfl
    | true =>
      rw [DeviceItem.lt_iff] at h
      omega
  · rw [DeviceItem.lt_iff] at hab hbd ⊢
    omega
  · rw [DeviceItem.equiv_iff] at hab hbd ⊢
    omega
  · have hini : inTable K c (i : Int) := ⟨hc, by omega, by exact_mod_cast hi⟩
    have hinj : inTable K c (j : Int) := ⟨hc, by omega, by exact_mod_cast hj⟩
    have hvi : (0 : Int) ≤ i ∧ (i : Int) < K.width := ⟨by omega, by exact_mod_cast hi⟩
    have hvj : (0 : Int) ≤ j ∧ (j : Int) < K.width := ⟨by omega, by exact_mod_cast hj⟩
    have hne : (32767 : Int) ≠ 0 := by decide
    have heq : DeviceItem.equiv { controllerID := c, axisID := x2 % 256 }
        { controllerID := c, axisID := x1 % 256 } = true :=
      (DeviceItem.equiv_iff _ _).2 ⟨rfl, rfl, rfl, rfl, rfl⟩
    simp only [run, step, ProcessAnalogAxis, hamount1, hamount2, analogValue_one, ne_eq, hne,
      not_false_eq_true, if_true, h1, h2, hvi, hvj, and_self, writeCell_ok _ _ hini,
      writeCell_ok _ _ hinj, Int.toNat_ofNat]
    refine ⟨_, rfl, mapFind_mapAssign_of_equiv _ _ heq, fun hempty => ?_⟩
    have heq2 : DeviceItem.equiv { controllerID := c, axisID := x1 % 256 }
        { controllerID := c, axisID := x2 % 256 } = true :=
      (DeviceItem.equiv_iff _ _).2 ⟨rfl, rfl, rfl, rfl, rfl⟩
    simp only [hempty, mapAssign, heq2, if_true]
    rfl

/-- Witness for `DeviceItem_order_ignores_axisID`: the left stick of controller
0, axis 0 bound to control 27 and axis 1 bound to control 28. -/
theorem DeviceItem_order_ignores_axisID_witness :
    DeviceItem.equiv { controllerID := 0, axisID := 0 } { controllerID := 0, axisID := 1 }
      = true ∧
    ∃ s2, run sampleConsts initial
        [.analogAxis 0 0 { id := 277, amount := 1 }, .analogAxis 0 1 { id := 278, amount := 1 }]
        = .ok s2 ∧
      mapFind s2.m_deviceItems { controllerID := 0, axisID := 0 % 256 } = some ((28 : Nat) : Int) ∧
      (initial.m_deviceItems = [] → s2.m_deviceItems.length = 1) :=
  have h := DeviceItem_order_ignores_axisID sampleConsts initial 0 0 1 27 28
    { id := 277, amount := 1 } { id := 278, amount := 1 } (by decide) (by decide) (by decide)
    (by decide) (by decide) rfl rfl
  ⟨h.2.2.2.2.1, h.2.2.2.2.2.2⟩

/-- C28: `TranslateActionID` returns -1 exactly for the ids outside
`[ACTION_GAME_CONTROL_START, ACTION_GAME_CONTROL_END]` and a value between 0
and `ACTION_GAME_CONTROL_END - ACTION_GAME_CONTROL_START` for the ids inside;
for an action id outside the interval every key, button, hat and digital-axis
Down event, and every analog-axis event whose value is defined and not zero,
returns the state it was given: no cell and no lookup entry changes. -/
theorem out_of_range_action_is_noop (K : Consts) (s : CRetroPlayerInput) (action : CAction)
    (hout : ¬ ((K.ACTION_GAME_CONTROL_START : Int) ≤ action.id ∧
      action.id ≤ (K.ACTION_GAME_CONTROL_END : Int))) :
    (∀ id : Int,
      (TranslateActionID K id = -1 ↔
        ¬ ((K.ACTION_GAME_CONTROL_START : Int) ≤ id ∧ id ≤ (K.ACTION_GAME_CONTROL_END : Int))) ∧
      ((K.ACTION_GAME_CONTROL_START : Int) ≤ id ∧ id ≤ (K.ACTION_GAME_CONTROL_END : Int) →
        0 ≤ TranslateActionID K id ∧
        TranslateActionID K id ≤
          (K.ACTION_GAME_CONTROL_END : Int) - K.ACTION_GAME_CONTROL_START)) ∧
    TranslateActionID K action.id = -1 ∧
    (∀ c key, ProcessKeyDown K s c key action = .ok s) ∧
    (∀ c buttonID, ProcessButtonDown K s c buttonID action = .ok s) ∧
    (∀ c buttonID, ProcessDigitalAxisDown K s c buttonID action = .ok s) ∧
    (∀ c hatID hatDir, ProcessHatDown K s c hatID hatDir action = .ok s) ∧
    (∀ c axisID value, analogValue action.amount = some value → value ≠ 0 →
      ProcessAnalogAxis K s c axisID action = .ok s) := by
  have hT : TranslateActionID K action.id = -1 := by
    simp only [TranslateActionID, TRANSLATE_INTERVAL, hout, if_false]
  have hcond : ¬ ((0 : Int) ≤ -1 ∧ (-1 : Int) < (K.width : Int)) := by omega
  have hdown : ∀ c item, processDown K s c item action = .ok s := by
    intro c item
    simp only [processDown, hT, hcond, if_false]
  refine ⟨fun id => ⟨?_, fun hin => ?_⟩, hT, fun c key => hdown _ _, fun c b => hdown _ _,
    fun c b => hdown _ _, fun c h d => hdown _ _, fun c x v hv hv0 => ?_⟩
  · simp only [TranslateActionID, TRANSLATE_INTERVAL]
    split_ifs with h
    · constructor
      · intro h1
        omega
      · intro h1
        exact absurd h h1
    · exact ⟨fun _ => h, fun _ => rfl⟩
  · simp only [TranslateActionID, TRANSLATE_INTERVAL, hin, and_self, if_true]
    omega
  · simp only [ProcessAnalogAxis, hv, ne_eq, hv0, not_false_eq_true, if_true, hT, hcond,
      if_false]

/-- Witness for `out_of_range_action_is_noop`: action id 100 lies below the
game-control interval `250 .. 280`. -/
theorem out_of_range_action_is_noop_witness :
    ¬ ((sampleConsts.ACTION_GAME_CONTROL_START : Int) ≤ (100 : Int) ∧
      (100 : Int) ≤ (sampleConsts.ACTION_GAME_CONTROL_END : Int)) ∧
    TranslateActionID sampleConsts 100 = -1 ∧
    ProcessButtonDown sampleConsts initial 0 3 { id := 100 } = .ok initial ∧
    ProcessAnalogAxis sampleConsts initial 0 1 { id := 100, amount := 1 } = .ok initial :=
  have h := out_of_range_action_is_noop sampleConsts initial { id := 100, amount := 1 }
    (by decide)
  ⟨by decide, h.2.1, (out_of_range_action_is_noop sampleConsts initial { id := 100 }
      (by decide)).2.2.2.1 0 3,
    h.2.2.2.2.2.2 0 1 32767 analogValue_one (by decide)⟩

/-- C29 (violated by the code): after `Reset` every cell of the state table is
0 and the lookup table is what it was, and a key, button or hat Up event for a
recorded identity whose cell lies in the table finds its entry, erases it and
leaves every cell at 0.  `GetInput` however does not return 0 for every
request: it returns 0 or reads outside the table, and for the analog request
`(c, GAME_DEVICE_ANALOG, 0, 0)` on a valid port it reads outside the table. -/
theorem GetInput_after_Reset_reads_outside_table (K : Consts) (hK : K.WF)
    (s : CRetroPlayerInput) (c : Nat) (hc : c < K.ports)
    (hY : K.GAME_DEVICE_ID_ANALOG_Y < K.ACTION_GAME_CONTROL_START)
    (hR : K.GAME_DEVICE_INDEX_ANALOG_RIGHT ≠ 0) :
    (∀ r col, (Reset s).m_joypadState r col = 0) ∧
    (Reset s).m_deviceItems = s.m_deviceItems ∧
    (∀ port device index id,
      GetInput K (Reset s) port device index id = .ok 0 ∨
      ∃ col, ¬ inTable K port col ∧
        GetInput K (Reset s) port device index id = .error (.outOfBounds port col)) ∧
    GetInput K (Reset s) c K.GAME_DEVICE_ANALOG 0 0 =
      .error (.outOfBounds c
        ((2 ^ 32 + K.GAME_DEVICE_ID_ANALOG_Y - K.ACTION_GAME_CONTROL_START : Nat) : Int)) ∧
    (∀ (i : Nat), i < K.width →
      (∀ key, mapFind s.m_deviceItems { controllerID := c, key := key } = some (i : Int) →
        ProcessKeyUp K (Reset s) c key =
          .ok { m_joypadState := fun _ _ => 0,
                m_deviceItems := mapErase s.m_deviceItems { controllerID := c, key := key } }) ∧
      (∀ buttonID,
        mapFind s.m_deviceItems { controllerID := c, buttonID := buttonID } = some (i : Int) →
        ProcessButtonUp K (Reset s) c buttonID =
          .ok { m_joypadState := fun _ _ => 0,
                m_deviceItems :=
                  mapErase s.m_deviceItems { controllerID := c, buttonID := buttonID } }) ∧
      (∀ hatID hatDir,
        mapFind s.m_deviceItems { controllerID := c, hatID := hatID, hatDir := hatDir }
          = some (i : Int) →
        ProcessHatUp K (Reset s) c hatID hatDir =
          .ok { m_joypadState := fun _ _ => 0,
                m_deviceItems :=
                  mapErase s.m_deviceItems
                    { controllerID := c, hatID := hatID, hatDir := hatDir } })) :=
  ⟨fun _ _ => rfl, rfl, GetInput_Reset K s, GetInput_analog_outside hK (Reset s) hc hY hR,
    fun _ hi => ⟨fun _ hf => processUp_Reset s _ hc hi hf, fun _ hf => processUp_Reset s _ hc hi hf,
      fun _ _ hf => processUp_Reset s _ hc hi hf⟩⟩

/-- Witness for `GetInput_after_Reset_reads_outside_table`: port 0 of the
concrete constants; the analog request reads column 4294967047 of a row of 31
cells. -/
theorem GetInput_after_Reset_reads_outside_table_witness :
    sampleConsts.WF ∧ 0 < sampleConsts.ports ∧
    GetInput sampleConsts (Reset initial) 0 sampleConsts.GAME_DEVICE_ANALOG 0 0 =
      .error (.outOfBounds 0 4294967047) :=
  ⟨by decide, by decide,
    (GetInput_after_Reset_reads_outside_table sampleConsts (by decide) initial 0 (by decide)
      (by decide) (by decide)).2.2.2.1⟩

end RetroPlayerInput

namespace LibretroEnvironment

/-- C30: while the frontend handle or the client-bridge handle is null,
`EnvironmentCallback` returns false for every message, whatever the frontend
would answer; it makes no frontend call, writes nothing through the payload
pointer and leaves the bridge state, the tracked frame rate and the
frame-rate-known flag among it, as it was. -/
theorem EnvironmentCallback_inert_before_Initialize (fe : Frontend) (s : CLibretroEnvironment)
    (msg : Message) (h : s.m_frontend = false ∨ s.m_clientBridge = none) :
    ∃ o, EnvironmentCallback fe s msg = .ok o ∧ o.ret = false ∧ o.calls = [] ∧
      o.written = none ∧ o.state = s ∧ o.state.m_fps = s.m_fps ∧
      o.state.m_bFramerateKnown = s.m_bFramerateKnown :=
  ⟨_, EnvironmentCallback_of_uninitialised fe msg h, rfl, rfl, rfl, rfl, rfl, rfl⟩

/-- Witness for `EnvironmentCallback_inert_before_Initialize`: the bridge
before `Initialize` receives `SET_SYSTEM_AV_INFO`, which on an initialised
bridge would update the frame rate. -/
theorem EnvironmentCallback_inert_before_Initialize_witness :
    (uninitialised.m_frontend = false ∨ uninitialised.m_clientBridge = none) ∧
    ∃ o, EnvironmentCallback acceptingFrontend uninitialised
        (.SET_SYSTEM_AV_INFO (some sampleAvInfo)) = .ok o ∧
      o.ret = false ∧ o.calls = [] ∧ o.written = none ∧ o.state = uninitialised ∧
      o.state.m_fps = uninitialised.m_fps ∧
      o.state.m_bFramerateKnown = uninitialised.m_bFramerateKnown :=
  ⟨Or.inl rfl,
    EnvironmentCallback_inert_before_Initialize acceptingFrontend uninitialised
      (.SET_SYSTEM_AV_INFO (some sampleAvInfo)) (Or.inl rfl)⟩

end LibretroEnvironment
